import Mathlib

/-! Network Monitor Pro: the traffic aggregation engine.

A shallow embedding of the background service worker (`src/background.js`, class
`NetworkMonitor`) and of the popup helpers it pairs with (`src/popup.js`); the properties
proved of the embedded functions follow the definitions.

Numbers.  A JavaScript number is modelled by `JSNum`: `NaN`, the two infinities, or a finite
value carried as a rational (every finite double is a rational; negative zero is identified
with zero, which no comparison or formatting used here can tell apart).  The traffic counters
are such numbers, and the operators on them, `parseInt` and `parseFloat` round their result to
the nearest double (`roundToDouble`).  Inside `convertUnits`, `convertToBytes` and
`calculatePreciseSize` the arithmetic is written exactly, where it is exact on doubles as
well: the conversion factors are powers of two (the product is exact, or underflows to a value
that `toFixed` writes with the same digits), and the sizes are sums of integers below
`2 ^ 53`.  Packet counts and timestamps are integers below `2 ^ 53` and are kept as integers.

Storage.  The area `chrome.storage.local` is a list of key/value entries handed to the
functions that read or write it; an asynchronous call is taken at its completion.
-/

namespace NetworkMonitorPro

/-! ## JavaScript values -/

/-- A JavaScript number. -/
inductive JSNum where
  | nan
  | posInf
  | negInf
  | fin (q : ℚ)
  deriving DecidableEq

/-- A JavaScript value: primitives, arrays and plain objects (own data properties only). -/
inductive JSVal where
  | undefined
  | null
  | bool (b : Bool)
  | num (x : JSNum)
  | str (s : String)
  | arr (items : List JSVal)
  | obj (fields : List (String × JSVal))

/-- Property read `v.key`, for a key that is neither an index nor a built-in property:
only a plain object can hold it; every other value yields `undefined`. -/
def JSVal.get (v : JSVal) (key : String) : JSVal :=
  match v with
  | .obj fields => (fields.lookup key).getD .undefined
  | _ => .undefined

/-- Truthiness (`ToBoolean`). -/
def JSVal.truthy : JSVal → Bool
  | .undefined => false
  | .null => false
  | .bool b => b
  | .num .nan => false
  | .num (.fin q) => decide (q ≠ 0)
  | .num _ => true
  | .str s => decide (s ≠ "")
  | .arr _ => true
  | .obj _ => true

/-- Test `typeof v === 'object'`: `null`, arrays and plain objects. -/
def JSVal.typeofObject : JSVal → Bool
  | .null => true
  | .arr _ => true
  | .obj _ => true
  | _ => false

/-- Test `Array.isArray(v)`. -/
def JSVal.isArray : JSVal → Bool
  | .arr _ => true
  | _ => false

/-! ## Numbers: the nearest double and the operators -/

/-- The integer nearest to `x`, the even one of the two when `x` is halfway between them. -/
def roundHalfEven (x : ℚ) : ℤ :=
  if x - ⌊x⌋ < 1 / 2 then ⌊x⌋
  else if x - ⌊x⌋ > 1 / 2 then ⌊x⌋ + 1
  else if ⌊x⌋ % 2 = 0 then ⌊x⌋ else ⌊x⌋ + 1

/-- The Number value for the real `q`: the nearest double (IEEE 754 binary64, round to
nearest, ties to even).  With `e` the binary exponent of `q`, at least -1022, the doubles
around `q` are the multiples of `2 ^ (e - 52)`; a result of `2 ^ 1024` or more in size is an
infinity. -/
def roundToDouble (q : ℚ) : JSNum :=
  if q = 0 then .fin 0
  else
    let e : ℤ := max (Int.log 2 |q|) (-1022)
    let ulp : ℚ := 2 ^ (e - 52)
    let r : ℚ := roundHalfEven (q / ulp) * ulp
    if r ≥ 2 ^ 1024 then .posInf
    else if r ≤ -(2 ^ 1024) then .negInf
    else .fin r

/-- The unary operator `-` on numbers. -/
def JSNum.neg : JSNum → JSNum
  | .nan => .nan
  | .posInf => .negInf
  | .negInf => .posInf
  | .fin a => .fin (-a)

/-- The operator `+` on numbers.  A sum with a zero operand is the other operand, as it is
for doubles; every other finite sum is rounded to the nearest double. -/
def JSNum.add : JSNum → JSNum → JSNum
  | .nan, _ => .nan
  | _, .nan => .nan
  | .posInf, .negInf => .nan
  | .negInf, .posInf => .nan
  | .posInf, _ => .posInf
  | _, .posInf => .posInf
  | .negInf, _ => .negInf
  | _, .negInf => .negInf
  | .fin a, .fin b =>
    if a = 0 then .fin b else if b = 0 then .fin a else roundToDouble (a + b)

/-- The binary operator `-` on numbers. -/
def JSNum.sub (x y : JSNum) : JSNum := x.add y.neg

/-- The operator `*` on numbers. -/
def JSNum.mul : JSNum → JSNum → JSNum
  | .nan, _ => .nan
  | _, .nan => .nan
  | .fin a, .fin b => roundToDouble (a * b)
  | .fin a, .posInf => if a = 0 then .nan else if 0 < a then .posInf else .negInf
  | .fin a, .negInf => if a = 0 then .nan else if 0 < a then .negInf else .posInf
  | .posInf, .fin b => if b = 0 then .nan else if 0 < b then .posInf else .negInf
  | .negInf, .fin b => if b = 0 then .nan else if 0 < b then .negInf else .posInf
  | .posInf, .posInf => .posInf
  | .posInf, .negInf => .negInf
  | .negInf, .posInf => .negInf
  | .negInf, .negInf => .posInf

/-- The operator `/` on numbers; a zero divisor is taken as positive zero. -/
def JSNum.div : JSNum → JSNum → JSNum
  | .nan, _ => .nan
  | _, .nan => .nan
  | .fin a, .fin b =>
    if b ≠ 0 then roundToDouble (a / b)
    else if 0 < a then .posInf
    else if a < 0 then .negInf
    else .nan
  | .fin _, .posInf => .fin 0
  | .fin _, .negInf => .fin 0
  | .posInf, .fin b => if 0 ≤ b then .posInf else .negInf
  | .negInf, .fin b => if 0 ≤ b then .negInf else .posInf
  | .posInf, .posInf => .nan
  | .posInf, .negInf => .nan
  | .negInf, .posInf => .nan
  | .negInf, .negInf => .nan

/-- The operator `<` on numbers; a comparison with `NaN` is false. -/
def JSNum.lt : JSNum → JSNum → Bool
  | .nan, _ => false
  | _, .nan => false
  | .fin a, .fin b => decide (a < b)
  | .negInf, .negInf => false
  | .negInf, _ => true
  | .posInf, _ => false
  | .fin _, .posInf => true
  | .fin _, .negInf => false

/-- The operator `<=` on numbers; a comparison with `NaN` is false. -/
def JSNum.le : JSNum → JSNum → Bool
  | .nan, _ => false
  | _, .nan => false
  | .fin a, .fin b => decide (a ≤ b)
  | .negInf, _ => true
  | .posInf, .posInf => true
  | .posInf, _ => false
  | .fin _, .posInf => true
  | .fin _, .negInf => false

/-- The operator `==` on numbers: `NaN` equals nothing, itself included. -/
def JSNum.eq : JSNum → JSNum → Bool
  | .nan, _ => false
  | _, .nan => false
  | x, y => decide (x = y)

/-! ## Number formatting: `Number.prototype.toFixed` -/

/-- The decimal digit `d` as a character. -/
def digitChar (d : ℕ) : Char := Char.ofNat (48 + d)

/-- Decimal digits of `n`, most significant first, pushed in front of `acc`; `fuel` bounds
the number of digits produced. -/
def natDigitsAux : ℕ → ℕ → List ℕ → List ℕ
  | 0, _, acc => acc
  | fuel + 1, n, acc =>
    if n / 10 = 0 then n % 10 :: acc
    else natDigitsAux fuel (n / 10) (n % 10 :: acc)

/-- The decimal digits of `n`, most significant first (`[0]` for zero). -/
def natDigits (n : ℕ) : List ℕ := natDigitsAux (n + 1) n []

/-- The integer `n` written with `f` fractional digits, that is the decimal `n / 10 ^ f`:
steps 9 to 11 of `Number.prototype.toFixed`.  The digit string of `n` is left-padded with
zeros to `f + 1` characters and the decimal point is put before its last `f` characters. -/
def decimalString (n f : ℕ) : String :=
  let m := (natDigits n).map digitChar
  if f = 0 then String.mk m
  else
    let m := if m.length ≤ f then List.replicate (f + 1 - m.length) (digitChar 0) ++ m else m
    let k := m.length
    String.mk (m.take (k - f) ++ Char.ofNat 46 :: m.drop (k - f))

/-- The integer `n` for which `n / 10 ^ f - x` is as close to zero as possible, the larger
one when there are two (step 8 of `Number.prototype.toFixed`), for `x ≥ 0`. -/
def nearestScaled (x : ℚ) (f : ℕ) : ℕ := Int.toNat ⌊x * 10 ^ f + 1 / 2⌋

/-- The method `x.toFixed(f)` for a finite `x` with `0 ≤ x < 10 ^ 21`. -/
def toFixed (x : ℚ) (f : ℕ) : String := decimalString (nearestScaled x f) f

/-! ## Unit conversion: `NetworkMonitor.convertUnits` -/

/-- The constant `Number.MAX_SAFE_INTEGER`, `2 ^ 53 - 1`. -/
def MAX_SAFE_INTEGER : ℚ := 9007199254740991

/-- The array `validUnits` of `convertUnits`. -/
def validUnits : List String := ["B", "KB", "MB", "GB", "TB", "PB"]

/-- The table `conversionFactors` of `convertUnits`; `none` is a missing key. -/
def conversionFactors (unit : String) : Option ℚ :=
  if unit = "B" then some (1 / 8)
  else if unit = "KB" then some (1 / (8 * 1024))
  else if unit = "MB" then some (1 / (8 * 1024 * 1024))
  else if unit = "GB" then some (1 / (8 * 1024 * 1024 * 1024))
  else if unit = "TB" then some (1 / (8 * 1024 * 1024 * 1024 * 1024))
  else if unit = "PB" then some (1 / (8 * 1024 * 1024 * 1024 * 1024 * 1024))
  else none

/-- The test `validUnits.includes(targetUnit)`: only a string can be in the array. -/
def includesUnit (targetUnit : JSVal) : Bool :=
  match targetUnit with
  | .str s => decide (s ∈ validUnits)
  | _ => false

/-- The string held by `targetUnit` once `convertUnits` has sanitised it. -/
def sanitizeUnit (targetUnit : JSVal) : String :=
  match targetUnit with
  | .str s => if includesUnit (.str s) then s else "MB"
  | _ => "MB"

/-- The expression `conversionFactors[targetUnit] || conversionFactors['MB']`. -/
def factorOf (unit : String) : ℚ :=
  match conversionFactors unit with
  | some f => if f ≠ 0 then f else 1 / (8 * 1024 * 1024)
  | none => 1 / (8 * 1024 * 1024)

/-- The `decimalPlaces` chosen by `convertUnits`. -/
def decimalPlaces (unit : String) : ℕ :=
  if unit = "B" ∨ unit = "KB" ∨ unit = "MB" then 2
  else if unit = "GB" then 3
  else if unit = "TB" then 4
  else if unit = "PB" then 6
  else 2

/-- The method `convertUnits(bits, targetUnit)` of `NetworkMonitor`. -/
def convertUnits (bits targetUnit : JSVal) : String :=
  match bits with
  | .num (.fin b) =>
    if b < 0 then "0.00"
    else if b > MAX_SAFE_INTEGER then "0.00"
    else
      let unit := sanitizeUnit targetUnit
      let result := b * factorOf unit
      if result < 0 ∨ result > MAX_SAFE_INTEGER then "0.00"
      else toFixed result (decimalPlaces unit)
  | _ => "0.00"

/-! ## Size estimation: `NetworkMonitor.calculatePreciseSize` -/

/-- The `length` of a JavaScript string: its number of UTF-16 code units, two for a
character outside the basic plane. -/
def jsLength (s : String) : ℕ := (s.data.map fun c => if c.toNat < 65536 then 1 else 2).sum

/-- The constant `MAX_SAFE_SIZE` of `calculatePreciseSize`, `Number.MAX_SAFE_INTEGER / 8`. -/
def MAX_SAFE_SIZE : ℚ := MAX_SAFE_INTEGER / 8

/-- The elements of an array value. -/
def JSVal.items : JSVal → List JSVal
  | .arr items => items
  | _ => []

/-- The expression `typeof v === 'string' ? v.length : 0`. -/
def stringLengthOrZero (v : JSVal) : ℚ :=
  match v with
  | .str s => (jsLength s : ℚ)
  | _ => 0

/-- The callback of the header `reduce`.  `totalSize` is the outer variable the callback
reads; it is assigned only after the `reduce` has returned. -/
def headerStep (totalSize : ℚ) (sum : ℚ) (header : JSVal) : ℚ :=
  if !header.truthy || !header.typeofObject then sum
  else
    let nameLength := stringLengthOrZero (header.get "name")
    let valueLength := stringLengthOrZero (header.get "value")
    if nameLength > MAX_SAFE_SIZE ∨ valueLength > MAX_SAFE_SIZE then sum
    else
      let headerSize := nameLength + valueLength
      if totalSize + headerSize > MAX_SAFE_SIZE then sum
      else sum + headerSize

/-- The expression `item.bytes?.byteLength || 0`. -/
def byteLengthOf (item : JSVal) : JSVal :=
  let bytes := item.get "bytes"
  let viaChain :=
    match bytes with
    | .undefined => JSVal.undefined
    | .null => JSVal.undefined
    | b => b.get "byteLength"
  if viaChain.truthy then viaChain else .num (.fin 0)

/-- The callback of the raw-body `reduce`; `totalSize` is the outer variable, which holds
the header total while the `reduce` runs. -/
def rawStep (totalSize : ℚ) (sum : ℚ) (item : JSVal) : ℚ :=
  if !item.truthy || !item.typeofObject then sum
  else
    match byteLengthOf item with
    | .num (.fin byteLength) =>
      if byteLength < 0 ∨ byteLength > MAX_SAFE_SIZE then sum
      else if totalSize + byteLength > MAX_SAFE_SIZE then sum
      else sum + byteLength
    | _ => sum

/-- How the body block of `calculatePreciseSize` ends: with an early `return`, or by falling
through to the final checks with a new `totalSize`. -/
inductive BodyOutcome where
  | returned (value : ℚ)
  | continues (totalSize : ℚ)

/-- The body block of `calculatePreciseSize`.  `jsonStringify` stands for `JSON.stringify`
followed by the read of `.length`; `none` is a serialization that throws, which the inner
`catch` swallows. -/
def bodyBlock (jsonStringify : JSVal → Option String) (totalSize : ℚ) (body : JSVal) :
    BodyOutcome :=
  if body.truthy && body.typeofObject then
    let raw := body.get "raw"
    let formData := body.get "formData"
    let text := body.get "text"
    if raw.truthy && raw.isArray then
      .continues (totalSize + raw.items.foldl (rawStep totalSize) 0)
    else if formData.truthy && formData.typeofObject then
      match jsonStringify formData with
      | some formDataString =>
        if (jsLength formDataString : ℚ) > MAX_SAFE_SIZE then .returned totalSize
        else .continues (totalSize + jsLength formDataString)
      | none => .continues totalSize
    else
      match text with
      | .str t =>
        if t ≠ "" then
          let encodedLength : ℚ := (t.utf8ByteSize : ℚ)
          if encodedLength > MAX_SAFE_SIZE then .returned totalSize
          else .continues (totalSize + encodedLength)
        else .continues totalSize
      | _ => .continues totalSize
  else .continues totalSize

/-- The method `calculatePreciseSize(data)`. -/
def calculatePreciseSize (jsonStringify : JSVal → Option String) (data : JSVal) : ℚ :=
  if !data.truthy || !data.typeofObject || data.isArray then 0
  else
    let totalSize : ℚ := 0
    let headers := data.get "headers"
    let totalSize :=
      if headers.truthy && headers.isArray then
        totalSize + headers.items.foldl (headerStep totalSize) 0
      else totalSize
    match bodyBlock jsonStringify totalSize (data.get "body") with
    | .returned value => value
    | .continues totalSize =>
      if totalSize > MAX_SAFE_SIZE then 0
      else
        let result := totalSize * 8
        if result < 0 ∨ result > MAX_SAFE_INTEGER then 0
        else result

/-! ## The monitor state -/

/-- The objects `chromeData` and `deviceData`. -/
structure TrafficCounters where
  sent : JSNum
  received : JSNum
  total : JSNum
  packetCount : ℤ
  deriving DecidableEq

/-- A `dataPoint` of the history. -/
structure DataPoint where
  timestamp : ℤ
  chrome : TrafficCounters
  device : TrafficCounters
  total : JSNum
  deriving DecidableEq

/-- One entry of `packetStats`.  The first five properties are the ones the object is created
with; `total`, `peak` and `average` are the ones `updatePacketStats` writes, absent (`none`)
until then. -/
structure PacketStat where
  count : ℤ
  totalSize : ℚ
  avgSize : ℚ
  peakRate : ℚ
  lastUpdate : ℚ
  total : Option JSNum
  peak : Option JSNum
  average : Option JSNum

/-- The object `packetStats`; it has no `completed` key. -/
structure PacketStats where
  sent : PacketStat
  received : PacketStat

/-- The state of a `NetworkMonitor`.  A timer handle is modelled by the period the timer was
created with.  The teardown path `cleanup()`, which sets `history` and `packetStats` to
`null`, is outside the model: both are always present. -/
structure NetworkMonitor where
  isMonitoring : Bool
  monitoringMode : String
  dataUnits : String
  updateIntervalMs : ℤ
  colorTheme : String
  chromeData : TrafficCounters
  deviceData : TrafficCounters
  packetStats : PacketStats
  history : List DataPoint
  updateInterval : Option ℤ
  heartbeatInterval : Option ℤ

/-- The property `maxHistoryPoints`, assigned once by the constructor and never again. -/
def maxHistoryPoints : ℕ := 100

/-- The literal `{ count: 0, totalSize: 0, avgSize: 0, peakRate: 0, lastUpdate: 0 }`. -/
def PacketStat.zero : PacketStat :=
  { count := 0, totalSize := 0, avgSize := 0, peakRate := 0, lastUpdate := 0,
    total := none, peak := none, average := none }

/-- The packet statistics the constructor and the reset paths install. -/
def PacketStats.zero : PacketStats := { sent := PacketStat.zero, received := PacketStat.zero }

/-- The method `convertUnits` with the monitor state threaded through: the body reads and
assigns no property of `this`. -/
def NetworkMonitor.convertUnits (self : NetworkMonitor) (bits targetUnit : JSVal) :
    String × NetworkMonitor :=
  (NetworkMonitorPro.convertUnits bits targetUnit, self)

/-! ## More arithmetic on numbers, as used by `updatePacketStats` and `loadSettings` -/

/-- The conversion `ToNumber` of a property that may be absent: `undefined` gives `NaN`. -/
def toNumber (v : Option JSNum) : JSNum := v.getD .nan

/-- The function `Math.max` of two numbers. -/
def JSNum.max : JSNum → JSNum → JSNum
  | .nan, _ => .nan
  | _, .nan => .nan
  | .posInf, _ => .posInf
  | _, .posInf => .posInf
  | .negInf, y => y
  | x, .negInf => x
  | .fin a, .fin b => .fin (Max.max a b)

/-- The operator `/` with a finite integer divisor. -/
def JSNum.divInt : JSNum → ℤ → JSNum
  | .nan, _ => .nan
  | .posInf, c => if 0 ≤ c then .posInf else .negInf
  | .negInf, c => if 0 ≤ c then .negInf else .posInf
  | .fin a, c =>
    if c ≠ 0 then roundToDouble (a / c)
    else if 0 < a then .posInf
    else if a < 0 then .negInf
    else .nan

/-! ## History and the request handler -/

/-- The update of one `stats` object in `updatePacketStats`. -/
def PacketStat.update (stats : PacketStat) (size : JSNum) : PacketStat :=
  let total := (toNumber stats.total).add size
  let count := stats.count + 1
  let peak := (toNumber stats.peak).max size
  { stats with total := some total, count := count, peak := some peak,
               average := some (total.divInt count) }

/-- The method `updatePacketStats(type, size)`; a `type` that is not a key of `packetStats`
(such as `'completed'`) finds no `stats` object and changes nothing. -/
def NetworkMonitor.updatePacketStats (self : NetworkMonitor) (type : String) (size : JSNum) :
    NetworkMonitor :=
  if type = "sent" then
    { self with packetStats := { self.packetStats with sent := self.packetStats.sent.update size } }
  else if type = "received" then
    { self with
      packetStats := { self.packetStats with received := self.packetStats.received.update size } }
  else self

/-- The method `performMemoryCleanup()`: the history is copied, and the packet statistics
are reset once a count has passed one million. -/
def NetworkMonitor.performMemoryCleanup (self : NetworkMonitor) : NetworkMonitor :=
  if self.packetStats.sent.count > 1000000 ∨ self.packetStats.received.count > 1000000 then
    { self with packetStats := PacketStats.zero }
  else self

/-- The `dataPoint` built by `updateHistory` at time `timestamp`. -/
def NetworkMonitor.dataPoint (self : NetworkMonitor) (timestamp : ℤ) : DataPoint :=
  { timestamp := timestamp
    chrome := { sent := self.chromeData.sent, received := self.chromeData.received,
                total := self.chromeData.total, packetCount := self.chromeData.packetCount }
    device := { sent := self.deviceData.sent, received := self.deviceData.received,
                total := self.deviceData.total, packetCount := self.deviceData.packetCount }
    total := self.chromeData.total.add self.deviceData.total }

/-- The method `updateHistory()`, with `timestamp` the value of `Date.now()`. -/
def NetworkMonitor.updateHistory (self : NetworkMonitor) (timestamp : ℤ) : NetworkMonitor :=
  let history := self.history ++ [self.dataPoint timestamp]
  let history :=
    if history.length > maxHistoryPoints then
      history.drop (history.length - maxHistoryPoints)
    else history
  let self := { self with history := history }
  if history.length % 50 = 0 then self.performMemoryCleanup else self

/-- The argument `{ headers, body }` that `handleRequest` builds. -/
def requestData (headers body : JSVal) : JSVal := .obj [("headers", headers), ("body", body)]

/-- The fields of the `details` of a request that `handleRequest` reads. -/
structure RequestDetails where
  requestHeaders : JSVal
  requestBody : JSVal

/-- The method `handleRequest(details, type)`, with `now` the value of `Date.now()`. -/
def NetworkMonitor.handleRequest (jsonStringify : JSVal → Option String)
    (self : NetworkMonitor) (details : RequestDetails) (now : ℤ) : NetworkMonitor :=
  let self :=
    { self with chromeData := { self.chromeData with packetCount := self.chromeData.packetCount + 1 } }
  if !self.isMonitoring then self
  else
    let self :=
      if self.monitoringMode = "chrome" then
        let size := calculatePreciseSize jsonStringify
          (requestData details.requestHeaders details.requestBody)
        let self :=
          { self with
            chromeData := { self.chromeData with sent := self.chromeData.sent.add (.fin size) } }
        let self :=
          { self with
            chromeData :=
              { self.chromeData with
                total := self.chromeData.sent.add self.chromeData.received } }
        self.updatePacketStats "sent" (.fin size)
      else self
    self.updateHistory now

/-! ## Response size: `parseInt` and `NetworkMonitor.handleResponse` -/

/-- White space and line terminators, as skipped by `parseInt` and `parseFloat`. -/
def isWhiteSpace (c : Char) : Bool :=
  decide (c.toNat ∈ [9, 10, 11, 12, 13, 32, 160, 5760, 8232, 8233, 8239, 8287, 12288, 65279])
    || (decide (8192 ≤ c.toNat) && decide (c.toNat ≤ 8202))

/-- The value of `c` as a digit in radix `radix` (10 or 16), if it is one. -/
def digitValue (radix : ℕ) (c : Char) : Option ℕ :=
  let n := c.toNat
  if 48 ≤ n ∧ n ≤ 57 then some (n - 48)
  else if radix = 16 ∧ 97 ≤ n ∧ n ≤ 102 then some (n - 87)
  else if radix = 16 ∧ 65 ≤ n ∧ n ≤ 70 then some (n - 55)
  else none

/-- The longest run of radix-`radix` digits at the head of `cs`. -/
def takeDigits (radix : ℕ) (cs : List Char) : List ℕ :=
  match cs with
  | [] => []
  | c :: rest =>
    match digitValue radix c with
    | some d => d :: takeDigits radix rest
    | none => []

/-- The number written by the digits `ds` in radix `radix`. -/
def digitsToNat (radix : ℕ) (ds : List ℕ) : ℕ := ds.foldl (fun v d => radix * v + d) 0

/-- The characters left after an optional sign, and whether the sign was `-`. -/
def splitSign (cs : List Char) : Bool × List Char :=
  match cs with
  | [] => (false, [])
  | c :: rest =>
    if c = Char.ofNat 45 then (true, rest)
    else if c = Char.ofNat 43 then (false, rest)
    else (false, c :: rest)

/-- The radix `parseInt` settles on, and the characters after a `0x` or `0X` marker. -/
def splitRadix (cs : List Char) : ℕ × List Char :=
  match cs with
  | c0 :: c1 :: rest =>
    if c0 = Char.ofNat 48 ∧ (c1 = Char.ofNat 120 ∨ c1 = Char.ofNat 88) then (16, rest)
    else (10, cs)
  | _ => (10, cs)

/-- The integer that `parseInt(string)` reads from a string, without a radix argument: the
sign and the digits at their mathematical value, before the conversion to a Number; `none`
is a string without a digit, for which `parseInt` returns `NaN`. -/
def parseIntString (s : String) : Option ℤ :=
  let trimmed := s.data.dropWhile isWhiteSpace
  let signed := splitSign trimmed
  let based := splitRadix signed.2
  let digits := takeDigits based.1 based.2
  if digits = [] then none
  else
    let mathInt : ℤ := (digitsToNat based.1 digits : ℤ)
    some (if signed.1 then -mathInt else mathInt)

/-- The function `parseInt` applied to a header value that may be absent: the Number for
the integer read, that is the nearest double, which is the integer itself up to `2 ^ 53` and
an infinity from `2 ^ 1024` on; `parseInt(undefined)` is `NaN`. -/
def parseInt (value : Option String) : JSNum :=
  match value with
  | some s =>
    match parseIntString s with
    | some n => roundToDouble n
    | none => .nan
  | none => .nan

/-- An entry of `responseHeaders`, as `chrome.webRequest` delivers it: a name and an
optional string value. -/
structure HttpHeader where
  name : String
  value : Option String
  deriving DecidableEq

/-- The fields of the `details` of a response that `handleResponse` reads;
`responseHeaders` may be absent. -/
structure ResponseDetails where
  responseHeaders : Option (List HttpHeader)

/-- The method `toLowerCase` over the ASCII letters. -/
def toLowerCase (s : String) : String := String.mk (s.data.map Char.toLower)

/-- The `size` computed by `handleResponse`: `parseInt(contentLength.value) || 0` for the
first header named `content-length` in any letter case, and 0 without one.  The name is
lowered over ASCII, which agrees with `toLowerCase` on every name that can equal
`content-length`. -/
def responseSize (details : ResponseDetails) : JSNum :=
  match details.responseHeaders with
  | none => .fin 0
  | some headers =>
    match headers.find? (fun h => toLowerCase h.name = "content-length") with
    | some contentLength =>
      if (JSVal.num (parseInt contentLength.value)).truthy then parseInt contentLength.value
      else .fin 0
    | none => .fin 0

/-- The method `handleResponse(details, type)`, with `now` the value of `Date.now()`. -/
def NetworkMonitor.handleResponse (self : NetworkMonitor) (details : ResponseDetails)
    (now : ℤ) : NetworkMonitor :=
  if !self.isMonitoring || self.monitoringMode ≠ "chrome" then self
  else
    let size := responseSize details
    let self :=
      { self with
        chromeData := { self.chromeData with received := self.chromeData.received.add size } }
    let self :=
      { self with
        chromeData :=
          { self.chromeData with total := self.chromeData.sent.add self.chromeData.received } }
    let self := self.updatePacketStats "received" size
    self.updateHistory now

/-! ## The popup's inverse: `parseFloat` and `PopupManager.convertToBytes` -/

/-- Whether `cs` starts with the characters of `Infinity`. -/
def startsWithInfinity (cs : List Char) : Bool :=
  decide (cs.take 8 = "Infinity".data)

/-- The digits after a decimal point at the head of `cs`, and what follows them; without a
decimal point there are no such digits and nothing is consumed. -/
def splitFraction (cs : List Char) : List ℕ × List Char :=
  match cs with
  | [] => ([], [])
  | c :: rest =>
    if c = Char.ofNat 46 then (takeDigits 10 rest, rest.drop (takeDigits 10 rest).length)
    else ([], c :: rest)

/-- The value of an exponent part (`e` or `E`, an optional sign, at least one digit) at the
head of `cs`; 0 when there is none. -/
def exponentPart (cs : List Char) : ℤ :=
  match cs with
  | [] => 0
  | c :: rest =>
    if c = Char.ofNat 101 ∨ c = Char.ofNat 69 then
      let signed := splitSign rest
      let digits := takeDigits 10 signed.2
      if digits = [] then 0
      else if signed.1 then -(digitsToNat 10 digits : ℤ) else (digitsToNat 10 digits : ℤ)
    else 0

/-- The value of the literal that `parseFloat(string)` reads: the longest prefix, after
leading white space, that is a decimal literal, at its mathematical value, before the
conversion to a Number. -/
def decimalValue (s : String) : JSNum :=
  let trimmed := s.data.dropWhile isWhiteSpace
  let signed := splitSign trimmed
  if startsWithInfinity signed.2 then (if signed.1 then .negInf else .posInf)
  else
    let intDigits := takeDigits 10 signed.2
    let fraction := splitFraction (signed.2.drop intDigits.length)
    if intDigits = [] ∧ fraction.1 = [] then .nan
    else
      let mantissa : ℚ := (digitsToNat 10 (intDigits ++ fraction.1) : ℚ) / 10 ^ fraction.1.length
      let value : ℚ := mantissa * 10 ^ exponentPart fraction.2
      .fin (if signed.1 then -value else value)

/-- The function `parseFloat(string)`: the Number for the literal read, that is the nearest
double. -/
def parseFloat (s : String) : JSNum :=
  match decimalValue s with
  | .fin q => roundToDouble q
  | x => x

/-- The method `convertToBytes(value, fromUnit)` of the popup.  The products are exact
(powers of two); a product above the largest double, which would be `Infinity`, is not
modelled. -/
def convertToBytes (value fromUnit : JSVal) : ℚ :=
  match value with
  | .num (.fin v) =>
    if v < 0 then 0
    else
      let bytes : ℚ :=
        match fromUnit with
        | .str u =>
          if u = "B" then v
          else if u = "KB" then v * 1024
          else if u = "MB" then v * 1024 * 1024
          else if u = "GB" then v * 1024 * 1024 * 1024
          else if u = "TB" then v * 1024 * 1024 * 1024 * 1024
          else if u = "PB" then v * 1024 * 1024 * 1024 * 1024 * 1024
          else v * 1024 * 1024
        | _ => v * 1024 * 1024
      max 0 bytes
  | _ => 0

/-! ## Timers, monitoring and resets -/

/-- The state a `new NetworkMonitor()` has when the constructor returns: the field values
it assigns, with the heartbeat timer that `initialize()` starts. -/
def NetworkMonitor.initial : NetworkMonitor :=
  { isMonitoring := false, monitoringMode := "chrome", dataUnits := "MB",
    updateIntervalMs := 200, colorTheme := "yellow",
    chromeData := { sent := .fin 0, received := .fin 0, total := .fin 0, packetCount := 1 },
    deviceData := { sent := .fin 0, received := .fin 0, total := .fin 0, packetCount := 1 },
    packetStats := PacketStats.zero, history := [], updateInterval := none,
    heartbeatInterval := some 1000 }

/-- The method `handleCompleted(details)`, with `now` the value of `Date.now()`.  The call
`updatePacketStats('completed', 1)` finds no `completed` entry. -/
def NetworkMonitor.handleCompleted (self : NetworkMonitor) (now : ℤ) : NetworkMonitor :=
  let self :=
    { self with chromeData := { self.chromeData with packetCount := self.chromeData.packetCount + 1 } }
  if !self.isMonitoring || self.monitoringMode ≠ "chrome" then self
  else
    let self := self.updatePacketStats "completed" (.fin 1)
    self.updateHistory now

/-- One firing of the heartbeat timer set up by `startHeartbeatPacketCounter`. -/
def NetworkMonitor.heartbeatTick (self : NetworkMonitor) : NetworkMonitor :=
  let self :=
    { self with chromeData := { self.chromeData with packetCount := self.chromeData.packetCount + 1 } }
  { self with deviceData := { self.deviceData with packetCount := self.deviceData.packetCount + 1 } }

/-- The method `updateDeviceData()`, with `mockDeviceUsage` the value of
`Math.random() * 1024`.  The literal `0.8` is the double nearest to 4/5. -/
def NetworkMonitor.updateDeviceData (self : NetworkMonitor) (mockDeviceUsage : ℚ) :
    NetworkMonitor :=
  let self :=
    { self with
      deviceData :=
        { self.deviceData with sent := self.deviceData.sent.add (.fin mockDeviceUsage) } }
  let self :=
    { self with
      deviceData :=
        { self.deviceData with
          received :=
            self.deviceData.received.add
              ((JSNum.fin mockDeviceUsage).mul (roundToDouble (4 / 5))) } }
  let self :=
    { self with
      deviceData :=
        { self.deviceData with total := self.deviceData.sent.add self.deviceData.received } }
  let self :=
    { self with deviceData := { self.deviceData with packetCount := self.deviceData.packetCount + 1 } }
  { self with chromeData := { self.chromeData with packetCount := self.chromeData.packetCount + 1 } }

/-- One firing of the monitoring timer set up by `startMonitoring`, with `mockDeviceUsage`
the random sample `updateDeviceData` would draw and `now` the value of `Date.now()`. -/
def NetworkMonitor.monitoringTick (self : NetworkMonitor) (mockDeviceUsage : ℚ) (now : ℤ) :
    NetworkMonitor :=
  let self :=
    { self with chromeData := { self.chromeData with packetCount := self.chromeData.packetCount + 1 } }
  let self :=
    if self.monitoringMode = "device" then
      let self :=
        { self with
          deviceData := { self.deviceData with packetCount := self.deviceData.packetCount + 1 } }
      self.updateDeviceData mockDeviceUsage
    else self
  self.updateHistory now

/-- The method `startMonitoring()`.  The write to storage (`saveSettings`) does not touch
the monitor. -/
def NetworkMonitor.startMonitoring (self : NetworkMonitor) : NetworkMonitor :=
  if self.isMonitoring then self
  else
    let self := if self.updateInterval.isSome then { self with updateInterval := none } else self
    let self := { self with isMonitoring := true }
    let self :=
      if self.chromeData.packetCount = 0 then
        { self with
          chromeData := { self.chromeData with packetCount := 1 }
          deviceData := { self.deviceData with packetCount := 1 } }
      else self
    { self with updateInterval := some self.updateIntervalMs }

/-- The method `stopMonitoring()`. -/
def NetworkMonitor.stopMonitoring (self : NetworkMonitor) : NetworkMonitor :=
  if !self.isMonitoring then self
  else
    let self := { self with isMonitoring := false }
    let self := if self.updateInterval.isSome then { self with updateInterval := none } else self
    let self :=
      if self.history.length > maxHistoryPoints then
        { self with history := self.history.drop (self.history.length - maxHistoryPoints) }
      else self
    { self with packetStats := PacketStats.zero }

/-- The expression `Math.max(1, packetCount || 1)` of `resetData`. -/
def keptPacketCount (packetCount : ℤ) : ℤ := max 1 (if packetCount ≠ 0 then packetCount else 1)

/-- The method `resetData()`. -/
def NetworkMonitor.resetData (self : NetworkMonitor) : NetworkMonitor :=
  let currentChromePackets := keptPacketCount self.chromeData.packetCount
  let currentDevicePackets := keptPacketCount self.deviceData.packetCount
  { self with
    chromeData :=
      { sent := .fin 0, received := .fin 0, total := .fin 0, packetCount := currentChromePackets }
    deviceData :=
      { sent := .fin 0, received := .fin 0, total := .fin 0, packetCount := currentDevicePackets }
    history := [] }

/-- The method `clearCachedData()`. -/
def NetworkMonitor.clearCachedData (self : NetworkMonitor) : NetworkMonitor :=
  { self with
    chromeData := { sent := .fin 0, received := .fin 0, total := .fin 0, packetCount := 1 }
    deviceData := { sent := .fin 0, received := .fin 0, total := .fin 0, packetCount := 1 }
    history := []
    packetStats := PacketStats.zero }

/-- The method `resetToDefaults()`. -/
def NetworkMonitor.resetToDefaults (self : NetworkMonitor) : NetworkMonitor :=
  { self with
    isMonitoring := false, monitoringMode := "chrome", dataUnits := "MB",
    updateIntervalMs := 200, colorTheme := "yellow",
    chromeData := { sent := .fin 0, received := .fin 0, total := .fin 0, packetCount := 1 }
    deviceData := { sent := .fin 0, received := .fin 0, total := .fin 0, packetCount := 1 }
    packetStats := PacketStats.zero
    history := [] }

/-! ## Reading the data: `NetworkMonitor.getCurrentData` -/

/-- The object returned by `getCurrentData()`. -/
structure CurrentData where
  sent : String
  received : String
  total : String
  packetCount : ℤ
  units : String
  speed : JSNum
  history : List DataPoint
  monitoringMode : String
  isMonitoring : Bool
  colorTheme : String

/-- The variable `currentSpeed` of `getCurrentData()`. -/
def NetworkMonitor.currentSpeed (self : NetworkMonitor) : JSNum :=
  if self.isMonitoring = true ∧ self.history.length ≥ 2 then
    match self.history[self.history.length - 1]?, self.history[self.history.length - 2]? with
    | some latest, some previous =>
      let timeDiff : JSNum :=
        (JSNum.fin ((latest.timestamp - previous.timestamp : ℤ) : ℚ)).div (.fin 1000)
      if (JSNum.fin 0).lt timeDiff then
        let dataDiff := latest.total.sub previous.total
        (dataDiff.div timeDiff).mul (.fin 8)
      else .fin 0
    | _, _ => .fin 0
  else .fin 0

/-- The method `getCurrentData()`. -/
def NetworkMonitor.getCurrentData (self : NetworkMonitor) : CurrentData :=
  let currentData := if self.monitoringMode = "chrome" then self.chromeData else self.deviceData
  { sent := NetworkMonitorPro.convertUnits (.num currentData.sent) (.str self.dataUnits)
    received := NetworkMonitorPro.convertUnits (.num currentData.received) (.str self.dataUnits)
    total := NetworkMonitorPro.convertUnits (.num currentData.total) (.str self.dataUnits)
    packetCount := currentData.packetCount
    units := self.dataUnits
    speed := self.currentSpeed
    history := self.history.drop (self.history.length - 20)
    monitoringMode := self.monitoringMode
    isMonitoring := self.isMonitoring
    colorTheme := self.colorTheme }

/-! ## The message protocol: `NetworkMonitor.handleMessage` -/

/-- The decimal digits of an integer, with a minus sign when it is negative. -/
def intToString (n : ℤ) : String :=
  String.mk ((if n < 0 then [Char.ofNat 45] else []) ++ (natDigits n.natAbs).map digitChar)

/-- The conversion of a number to a string.  A safe integer (at most
`Number.MAX_SAFE_INTEGER` in size) is written with its decimal digits; `fractionToString`
stands for the engine's rendering of every other finite number. -/
def numberToString (fractionToString : ℚ → String) : JSNum → String
  | .nan => "NaN"
  | .posInf => "Infinity"
  | .negInf => "-Infinity"
  | .fin q =>
    if q.den = 1 ∧ |q.num| ≤ 9007199254740991 then intToString q.num else fractionToString q

mutual
/-- The conversion `ToString` of a value; an array is joined with commas. -/
def jsToString (fractionToString : ℚ → String) : JSVal → String
  | .undefined => "undefined"
  | .null => "null"
  | .bool b => if b then "true" else "false"
  | .num x => numberToString fractionToString x
  | .str s => s
  | .arr items => joinItems fractionToString items
  | .obj _ => "[object Object]"
/-- The method `join` of an array, with the separator `,`. -/
def joinItems (fractionToString : ℚ → String) : List JSVal → String
  | [] => ""
  | [x] => elementToString fractionToString x
  | x :: y :: rest =>
    elementToString fractionToString x ++ "," ++ joinItems fractionToString (y :: rest)
/-- The string an array element contributes to `join`: empty for `undefined` and `null`. -/
def elementToString (fractionToString : ℚ → String) : JSVal → String
  | .undefined => ""
  | .null => ""
  | .bool b => if b then "true" else "false"
  | .num x => numberToString fractionToString x
  | .str s => s
  | .arr items => joinItems fractionToString items
  | .obj _ => "[object Object]"
end

/-- The integer that `parseInt(value)` reads from any value, before the conversion to a
Number: the value is converted to a string first; `none` is `NaN`.  The test of the update
interval against `[200, 2000]` gives the same result for this integer as for its double, and
an integer in that range is its own double. -/
def parseIntValue (fractionToString : ℚ → String) (value : JSVal) : Option ℤ :=
  parseIntString (jsToString fractionToString value)

/-- A response passed to `sendResponse`. -/
inductive Response where
  | error (message : String)
  | success
  | data (current : CurrentData)
  | settings (monitoringMode dataUnits : String) (updateIntervalMs : ℤ) (colorTheme : String)
      (isMonitoring : Bool)

/-- The array `allowedActions` of `handleMessage`. -/
def allowedActions : List String :=
  ["getData", "startMonitoring", "stopMonitoring", "setMonitoringMode", "setDataUnits",
    "setColorTheme", "setUpdateInterval", "resetData", "getSettings"]

/-- The test `list.includes(value)` for an array of strings: the string `value` is when the
test holds, `none` when it fails (as it does for every value that is not a string). -/
def includedString (list : List String) (value : JSVal) : Option String :=
  match value with
  | .str s => if s ∈ list then some s else none
  | _ => none

/-- The `switch` of `handleMessage` on an allowed action. -/
def NetworkMonitor.dispatch (fractionToString : ℚ → String) (self : NetworkMonitor)
    (request : JSVal) (action : String) : NetworkMonitor × List Response :=
  if action = "getData" then (self, [.data self.getCurrentData])
  else if action = "startMonitoring" then (self.startMonitoring, [.success])
  else if action = "stopMonitoring" then (self.stopMonitoring, [.success])
  else if action = "setMonitoringMode" then
    match includedString ["chrome", "device"] (request.get "mode") with
    | some mode => ({ self with monitoringMode := mode }, [.success])
    | none => (self, [.error "Invalid monitoring mode"])
  else if action = "setDataUnits" then
    match includedString ["B", "KB", "MB", "GB", "TB", "PB"] (request.get "units") with
    | some units => ({ self with dataUnits := units }, [.success])
    | none => (self, [.error "Invalid data units"])
  else if action = "setColorTheme" then
    match includedString ["yellow", "white"] (request.get "theme") with
    | some theme => ({ self with colorTheme := theme }, [.success])
    | none => (self, [.error "Invalid color theme"])
  else if action = "setUpdateInterval" then
    match parseIntValue fractionToString (request.get "interval") with
    | some interval =>
      if interval ≥ 200 ∧ interval ≤ 2000 then
        let self := { self with updateIntervalMs := interval }
        let self :=
          if self.updateInterval.isSome then self.stopMonitoring.startMonitoring else self
        (self, [.success])
      else (self, [.error "Invalid update interval"])
    | none => (self, [.error "Invalid update interval"])
  else if action = "resetData" then (self.resetData.clearCachedData, [.success])
  else if action = "getSettings" then
    (self, [.settings self.monitoringMode self.dataUnits self.updateIntervalMs self.colorTheme
      self.isMonitoring])
  else (self, [.error "Unknown action"])

/-- The method `handleMessage(request, sender, sendResponse)`: the state after the call and
the responses passed to `sendResponse`, in order.  Writes to storage do not touch the
monitor. -/
def NetworkMonitor.handleMessage (fractionToString : ℚ → String) (self : NetworkMonitor)
    (request : JSVal) : NetworkMonitor × List Response :=
  if !request.truthy || !request.typeofObject || !(request.get "action").truthy then
    (self, [.error "Invalid request format"])
  else
    match includedString allowedActions (request.get "action") with
    | none => (self, [.error "Unauthorized action"])
    | some action => self.dispatch fractionToString request action

/-! ## Persistence: `saveCurrentState` and `loadSettings` -/

/-- A counter object as a stored value. -/
def TrafficCounters.toJS (counters : TrafficCounters) : JSVal :=
  .obj [("sent", .num counters.sent), ("received", .num counters.received),
        ("total", .num counters.total),
        ("packetCount", .num (.fin (counters.packetCount : ℚ)))]

/-- The items `saveCurrentState()` and `saveSettings()` pass to `chrome.storage.local.set`. -/
def NetworkMonitor.savedItems (self : NetworkMonitor) : List (String × JSVal) :=
  [("isMonitoring", .bool self.isMonitoring),
   ("monitoringMode", .str self.monitoringMode),
   ("dataUnits", .str self.dataUnits),
   ("updateIntervalMs", .num (.fin (self.updateIntervalMs : ℚ))),
   ("colorTheme", .str self.colorTheme),
   ("chromeData", self.chromeData.toJS),
   ("deviceData", self.deviceData.toJS)]

/-- The call `chrome.storage.local.set(items)` on a storage area held as a list of entries:
the items replace the entries with their keys. -/
def storageSet (items stored : List (String × JSVal)) : List (String × JSVal) :=
  items ++ stored.filter fun entry => decide (entry.1 ∉ items.map Prod.fst)

/-- The call `chrome.storage.local.get(keys)`: the object of the stored entries whose key is
listed. -/
def storageGet (keys : List String) (stored : List (String × JSVal)) : JSVal :=
  .obj (stored.filter fun entry => decide (entry.1 ∈ keys))

/-- The method `saveCurrentState()`: the storage area after the write; the monitor is not
changed. -/
def NetworkMonitor.saveCurrentState (self : NetworkMonitor) (stored : List (String × JSVal)) :
    List (String × JSVal) :=
  storageSet self.savedItems stored

/-- The expression `parseInt(value) || fallback` at the integer `parseInt` reads, as used for
the update interval and the packet count.  The clamp of the interval into `[200, 2000]` gives
the same result for the integer as for its double; a stored packet count is an integer below
`2 ^ 53`, which is its own double. -/
def parseIntOr (fractionToString : ℚ → String) (value : JSVal) (fallback : ℤ) : ℤ :=
  match parseIntValue fractionToString value with
  | some n => if n ≠ 0 then n else fallback
  | none => fallback

/-- The Number that `parseInt(value)` returns: the nearest double of the integer read, and
`NaN` when there is none. -/
def parseIntNumber (fractionToString : ℚ → String) (value : JSVal) : JSNum :=
  match parseIntValue fractionToString value with
  | some n => roundToDouble n
  | none => .nan

/-- The expression `Math.max(0, parseInt(value) || 0)` of `loadSettings`. -/
def loadCounter (fractionToString : ℚ → String) (value : JSVal) : JSNum :=
  JSNum.max (.fin 0)
    (if (JSVal.num (parseIntNumber fractionToString value)).truthy then
      parseIntNumber fractionToString value
    else .fin 0)

/-- The counter object `loadSettings()` builds from a stored one. -/
def loadCounters (fractionToString : ℚ → String) (stored : JSVal) : TrafficCounters :=
  { sent := loadCounter fractionToString (stored.get "sent")
    received := loadCounter fractionToString (stored.get "received")
    total := loadCounter fractionToString (stored.get "total")
    packetCount := max 1 (parseIntOr fractionToString (stored.get "packetCount") 1) }

/-- The keys `loadSettings()` asks the storage for. -/
def loadedKeys : List String :=
  ["isMonitoring", "monitoringMode", "dataUnits", "chromeData", "deviceData",
    "updateIntervalMs"]

/-- The method `loadSettings()`, given the storage area it reads; `none` is a read that
fails, which the `catch` answers with `resetToDefaults()`. -/
def NetworkMonitor.loadSettings (fractionToString : ℚ → String) (self : NetworkMonitor)
    (stored : Option (List (String × JSVal))) : NetworkMonitor :=
  match stored with
  | none => self.resetToDefaults
  | some entries =>
    let result := storageGet loadedKeys entries
    let self := { self with isMonitoring := (result.get "isMonitoring").truthy }
    let self :=
      { self with
        monitoringMode :=
          (includedString ["chrome", "device"] (result.get "monitoringMode")).getD "chrome" }
    let self :=
      { self with
        dataUnits :=
          (includedString ["B", "KB", "MB", "GB", "TB", "PB"] (result.get "dataUnits")).getD
            "MB" }
    let self :=
      { self with
        updateIntervalMs :=
          max 200 (min 2000 (parseIntOr fractionToString (result.get "updateIntervalMs") 200)) }
    let self :=
      { self with
        colorTheme :=
          (includedString ["yellow", "white"] (result.get "colorTheme")).getD "yellow" }
    let self :=
      if (result.get "chromeData").truthy && (result.get "chromeData").typeofObject then
        { self with chromeData := loadCounters fractionToString (result.get "chromeData") }
      else self
    if (result.get "deviceData").truthy && (result.get "deviceData").typeofObject then
      { self with deviceData := loadCounters fractionToString (result.get "deviceData") }
    else self

/-! ## The popup: outgoing messages and the monitoring watchdog -/

/-- The replacement `input.replace(/[<>\"'&]/g, '')`. -/
def removeDangerousCharacters (input : String) : String :=
  String.mk (input.data.filter fun c => decide (c.toNat ∉ [60, 62, 34, 39, 38]))

/-- The array `allowedActions` of the popup's `sanitizeMessageAction`. -/
def popupAllowedActions : List String :=
  ["getData", "startMonitoring", "stopMonitoring", "setDataUnits", "setMonitoringMode",
    "setColorTheme", "resetData", "getSettings"]

/-- The method `sanitizeMessageAction(action)` of the popup; `none` is `null`. -/
def sanitizeMessageAction (action : JSVal) : Option String :=
  match action with
  | .str a =>
    let sanitized := removeDangerousCharacters a
    if jsLength sanitized > 50 then none
    else if sanitized ∈ popupAllowedActions then some sanitized
    else none
  | _ => none

/-- The method `sanitizeString(input)` of the popup. -/
def sanitizeString (input : JSVal) : JSVal :=
  match input with
  | .str s =>
    let sanitized := removeDangerousCharacters s
    if jsLength sanitized > 100 then .null else .str sanitized
  | _ => .null

/-- The integer that `parseInt(string, 10)` reads, before the conversion to a Number: as for
`parseInt(string)`, but a `0x` marker is not taken as a radix. -/
def parseIntDecimal (s : String) : Option ℤ :=
  let signed := splitSign (s.data.dropWhile isWhiteSpace)
  let digits := takeDigits 10 signed.2
  if digits = [] then none
  else
    let mathInt : ℤ := (digitsToNat 10 digits : ℤ)
    some (if signed.1 then -mathInt else mathInt)

/-- The method `sanitizeNumber(input)` of the popup. -/
def sanitizeNumber (input : JSVal) : JSVal :=
  match input with
  | .num (.fin q) => .num (.fin q)
  | .str s =>
    match parseIntDecimal s with
    | some n =>
      match roundToDouble n with
      | .fin q => .num (.fin q)
      | _ => .null
    | none => .null
  | _ => .null

/-- The part `...(value && { key: sanitized })` of the popup's `sanitizedMessage`. -/
def optionalField (key : String) (value sanitized : JSVal) : List (String × JSVal) :=
  if value.truthy then [(key, sanitized)] else []

/-- The object `sanitizedMessage` built by the popup's `sendMessage`. -/
def sanitizedMessage (message : JSVal) (sanitizedAction : String) : JSVal :=
  .obj ([("action", .str sanitizedAction)]
    ++ optionalField "mode" (message.get "mode") (sanitizeString (message.get "mode"))
    ++ optionalField "units" (message.get "units") (sanitizeString (message.get "units"))
    ++ optionalField "interval" (message.get "interval")
        (sanitizeNumber (message.get "interval"))
    ++ optionalField "theme" (message.get "theme") (sanitizeString (message.get "theme")))

/-- The fields of the `PopupManager` that the monitoring watchdog reads. -/
structure PopupManager where
  isMonitoring : Bool

/-- The method `sendMessage(message)` of the popup, delivered to the background `background`
without a transport error: the background after the call and the response the promise
resolves with; `none` is a rejected promise. -/
def PopupManager.sendMessage (fractionToString : ℚ → String) (background : NetworkMonitor)
    (message : JSVal) : NetworkMonitor × Option Response :=
  if !message.truthy || !message.typeofObject then (background, none)
  else
    match message.get "action" with
    | .str action =>
      if action = "" then (background, none)
      else
        match sanitizeMessageAction (.str action) with
        | none => (background, none)
        | some sanitizedAction =>
          ((background.handleMessage fractionToString
              (sanitizedMessage message sanitizedAction)).1,
            (background.handleMessage fractionToString
              (sanitizedMessage message sanitizedAction)).2.head?)
    | _ => (background, none)

/-- The property `response.error` is truthy. -/
def Response.hasError : Response → Bool
  | .error message => decide (message ≠ "")
  | _ => false

/-- The property `response.isMonitoring`; `none` is `undefined`. -/
def Response.isMonitoringField : Response → Option Bool
  | .data current => some current.isMonitoring
  | .settings _ _ _ _ isMonitoring => some isMonitoring
  | _ => none

/-- The method `forceMonitoringState(enabled)` of the popup: the background after it. -/
def PopupManager.forceMonitoringState (fractionToString : ℚ → String)
    (background : NetworkMonitor) (enabled : Bool) : NetworkMonitor :=
  (PopupManager.sendMessage fractionToString background
    (.obj [("action", .str (if enabled then "startMonitoring" else "stopMonitoring"))])).1

/-- One firing of the timer set up by `startMonitoringWatchdog()`, its two messages
delivered one after the other with nothing in between: the popup and the background after
it. -/
def PopupManager.watchdogTick (fractionToString : ℚ → String) (self : PopupManager)
    (background : NetworkMonitor) : PopupManager × NetworkMonitor :=
  match PopupManager.sendMessage fractionToString background
      (.obj [("action", .str "getSettings")]) with
  | (background, some response) =>
    if !response.hasError then
      let expectedState := self.isMonitoring
      let actualState := response.isMonitoringField
      if actualState ≠ some expectedState then
        (self, PopupManager.forceMonitoringState fractionToString background expectedState)
      else (self, background)
    else (self, background)
  | (background, none) => (self, background)

/-! ## Statements about the unit converter -/

/-- The power of 1024 that the claim attaches to the unit of index `k` (B, KB, ..., PB). -/
def unitDivisor (k : ℕ) : ℚ := 8 * 1024 ^ k

/-- The number of fractional digits that the claim attaches to the unit of index `k`:
2 for B, KB and MB, 3 for GB, 4 for TB and 6 for PB. -/
def unitPrecision (k : ℕ) : ℕ := [2, 2, 2, 3, 4, 6].getD k 2

/-- The name of the unit of index `k`. -/
def unitName (k : ℕ) : String := validUnits.getD k "MB"

/-- The inputs the claim calls invalid: a value that is not a number, `NaN`, an infinity, a
negative number, or a number above `Number.MAX_SAFE_INTEGER`. -/
def isRejectedBits (bits : JSVal) : Prop :=
  match bits with
  | .num (.fin b) => b < 0 ∨ b > MAX_SAFE_INTEGER
  | _ => True

/-- A target unit that is none of `B`, `KB`, `MB`, `GB`, `TB`, `PB`. -/
def isUnknownUnit (targetUnit : JSVal) : Prop := ∀ s ∈ validUnits, targetUnit ≠ .str s

/-- The value shown for `b` bits in the unit of index `k`: the decimal that `convertUnits`
writes. -/
def displayedValue (b : ℚ) (k : ℕ) : ℚ :=
  ((nearestScaled (b / unitDivisor k) (unitPrecision k) : ℕ) : ℚ) / 10 ^ unitPrecision k

/-- The digits of `n` left-padded with zeros to at least `f + 1` digits. -/
def paddedDigits (n f : ℕ) : List ℕ :=
  if (natDigits n).length ≤ f then List.replicate (f + 1 - (natDigits n).length) 0 ++ natDigits n
  else natDigits n

/-! ## Statements about the size estimator -/

/-- A well-formed request header: a name and a value, both strings. -/
structure WFHeader where
  name : String
  value : String

/-- A well-formed element of `requestBody.raw`: a byte buffer, given by its `byteLength`, or
a file path. -/
inductive UploadData where
  | bytes (byteLength : ℕ)
  | file (path : String)

/-- A well-formed request body: each representation may be present or absent. -/
structure WFBody where
  raw : Option (List UploadData)
  formData : Option (List (String × List String))
  text : Option String

/-- A well-formed argument of `calculatePreciseSize`, as `handleRequest` builds it. -/
structure WFRequest where
  headers : Option (List WFHeader)
  body : Option WFBody

/-- An optional property: `undefined` when absent. -/
def optJS {α : Type} (f : α → JSVal) : Option α → JSVal
  | some a => f a
  | none => .undefined

/-- The header as the object `{ name, value }`. -/
def WFHeader.toJS (h : WFHeader) : JSVal := .obj [("name", .str h.name), ("value", .str h.value)]

/-- The raw element as an object: `{ bytes }` with a buffer of the given `byteLength`, or
`{ file }`. -/
def UploadData.toJS : UploadData → JSVal
  | .bytes n => .obj [("bytes", .obj [("byteLength", .num (.fin n))])]
  | .file p => .obj [("file", .str p)]

/-- Form data as an object mapping each key to an array of strings. -/
def formDataToJS (fd : List (String × List String)) : JSVal :=
  .obj (fd.map fun kv => (kv.1, .arr (kv.2.map .str)))

/-- The body as an object; an absent representation is an `undefined` property. -/
def WFBody.toJS (b : WFBody) : JSVal :=
  .obj [("raw", optJS (fun segs => .arr (segs.map UploadData.toJS)) b.raw),
        ("formData", optJS formDataToJS b.formData),
        ("text", optJS .str b.text)]

/-- The argument `{ headers, body }` of `calculatePreciseSize` for a well-formed request. -/
def WFRequest.toJS (r : WFRequest) : JSVal :=
  .obj [("headers", optJS (fun hs => .arr (hs.map WFHeader.toJS)) r.headers),
        ("body", optJS WFBody.toJS r.body)]

/-- The size of one header: `name.length + value.length`. -/
def WFHeader.size (h : WFHeader) : ℕ := jsLength h.name + jsLength h.value

/-- The bytes of one raw element: its `byteLength`, and 0 for a file. -/
def UploadData.size : UploadData → ℕ
  | .bytes n => n
  | .file _ => 0

/-- The header contribution `H`. -/
def headerBytes (r : WFRequest) : ℕ :=
  match r.headers with
  | some hs => (hs.map WFHeader.size).sum
  | none => 0

/-- The body contribution `B`, in the words of the claim. -/
def bodyBytes (jsonStringify : JSVal → Option String) (r : WFRequest) : ℕ :=
  match r.body with
  | none => 0
  | some b =>
    match b.raw with
    | some segs => (segs.map UploadData.size).sum
    | none =>
      match b.formData with
      | some fd => ((jsonStringify (formDataToJS fd)).map jsLength).getD 0
      | none =>
        match b.text with
        | some t => if t ≠ "" then t.utf8ByteSize else 0
        | none => 0

/-- Every `byteLength` the raw-body `reduce` of `data` reads as a number is an integer. -/
def integralByteLengths (data : JSVal) : Prop :=
  ∀ item ∈ ((data.get "body").get "raw").items,
    ∀ q : ℚ, byteLengthOf item = .num (.fin q) → ∃ z : ℤ, q = z

/-- The body block of `data` does not leave through an early `return`: the serialized form
data and the encoded text, when there are any, are at most `MAX_SAFE_SIZE` long. -/
def serializedWithinBound (jsonStringify : JSVal → Option String) (data : JSVal) : Prop :=
  (∀ s, jsonStringify ((data.get "body").get "formData") = some s →
      (jsLength s : ℚ) ≤ MAX_SAFE_SIZE)
  ∧ (∀ t, (data.get "body").get "text" = .str t → (t.utf8ByteSize : ℚ) ≤ MAX_SAFE_SIZE)

/-- A rational that is a natural number. -/
def IsNatural (q : ℚ) : Prop := ∃ n : ℕ, q = n

/-- The value an outcome of the body block carries. -/
def BodyOutcome.value : BodyOutcome → ℚ
  | .returned v => v
  | .continues v => v

/-- A header entry the header `reduce` passes over: not an object, or with a name, a value
or their sum longer than `MAX_SAFE_SIZE`. -/
def isSkippedHeader (header : JSVal) : Prop :=
  header.truthy = false ∨ header.typeofObject = false
    ∨ stringLengthOrZero (header.get "name") > MAX_SAFE_SIZE
    ∨ stringLengthOrZero (header.get "value") > MAX_SAFE_SIZE
    ∨ stringLengthOrZero (header.get "name") + stringLengthOrZero (header.get "value")
        > MAX_SAFE_SIZE

/-- A raw item the body `reduce` passes over: not an object, or with a `byteLength` that is
not a number, is negative, or is above `MAX_SAFE_SIZE`. -/
def isSkippedRawItem (item : JSVal) : Prop :=
  item.truthy = false ∨ item.typeofObject = false
    ∨ ∀ q : ℚ, byteLengthOf item = .num (.fin q) → q < 0 ∨ q > MAX_SAFE_SIZE

/-- A request with two raw segments whose sizes are each within the bound and together
above it. -/
def overflowingRequest : WFRequest :=
  { headers := none
    body := some { raw := some [.bytes 1125899906842623, .bytes 1000], formData := none,
                   text := none } }

/-- A small well-formed request with every body representation present. -/
def sampleRequest : WFRequest :=
  { headers := some [⟨"Host", "example.com"⟩, ⟨"Accept", "*/*"⟩]
    body := some { raw := some [.bytes 100, .file "upload.bin", .bytes 28],
                   formData := some [("q", ["lean"])], text := some "hello" } }

/-- A request whose only body representation is an empty form. -/
def formRequest : WFRequest :=
  { headers := some [⟨"Host", "example.com"⟩]
    body := some { raw := none, formData := some [], text := none } }

/-- Nine header entries with the same name and an empty value. -/
def nineHeaders (name : String) : JSVal :=
  .arr (List.replicate 9 (.obj [("name", .str name), ("value", .str "")]))

/-- The argument `{ headers, body: { text } }` with nine headers of the same name. -/
def longHeadersRequest (name text : String) : JSVal :=
  .obj [("headers", nineHeaders name), ("body", .obj [("text", .str text)])]

/-- The string of `n` letters `a`. -/
def lettersA (n : ℕ) : String := String.mk (List.replicate n (Char.ofNat 97))

/-! ## Statements about the handlers -/

/-- The history after `updateHistory` appends `point`: the last `maxHistoryPoints` entries of
the extended list. -/
def appendBounded (history : List DataPoint) (point : DataPoint) : List DataPoint :=
  (history ++ [point]).drop ((history ++ [point]).length - maxHistoryPoints)

/-- A monitor in the constructor's state with monitoring switched on. -/
def activeMonitor : NetworkMonitor :=
  { isMonitoring := true, monitoringMode := "chrome", dataUnits := "MB",
    updateIntervalMs := 200, colorTheme := "yellow",
    chromeData := ⟨.fin 0, .fin 0, .fin 0, 1⟩, deviceData := ⟨.fin 0, .fin 0, .fin 0, 1⟩,
    packetStats := PacketStats.zero, history := [], updateInterval := some 200,
    heartbeatInterval := some 1000 }

/-- The request headers `[{ name: 'Host', value: 'example.com' }]`. -/
def sampleRequestHeaders : JSVal := .arr [WFHeader.toJS ⟨"Host", "example.com"⟩]

/-- Response details whose second header is a content length of 4096 in mixed case. -/
def sampleResponse : ResponseDetails :=
  ⟨some [⟨"Server", some "nginx"⟩, ⟨"Content-LENGTH", some "4096"⟩]⟩

/-- Response details whose only header is a content length of `2 ^ 53 + 1`. -/
def unsafeLengthResponse : ResponseDetails :=
  ⟨some [⟨"Content-Length", some "9007199254740993"⟩]⟩

/-- The string of `n` digits 9. -/
def nines (n : ℕ) : String := String.mk (List.replicate n (Char.ofNat 57))

/-- Response details whose only header is a content length of 400 digits 9. -/
def hugeLengthResponse : ResponseDetails := ⟨some [⟨"Content-Length", some (nines 400)⟩]⟩

/-- Response details whose only header is a content length of a minus sign and 400 digits
9. -/
def negativeHugeLengthResponse : ResponseDetails :=
  ⟨some [⟨"Content-Length", some (String.mk (Char.ofNat 45 :: (nines 400).data))⟩]⟩

/-! ## Statements about counters, history and messages -/

/-- Both counter sets satisfy the comparison `total == sent + received`. -/
def NetworkMonitor.totalsConsistent (self : NetworkMonitor) : Prop :=
  self.chromeData.total.eq (self.chromeData.sent.add self.chromeData.received) = true
    ∧ self.deviceData.total.eq (self.deviceData.sent.add self.deviceData.received) = true

/-- In both counter sets `total` holds the sum `sent + received` as last computed. -/
def NetworkMonitor.totalsRecomputed (self : NetworkMonitor) : Prop :=
  self.chromeData.total = self.chromeData.sent.add self.chromeData.received
    ∧ self.deviceData.total = self.deviceData.sent.add self.deviceData.received

/-- A request without headers whose body is one raw buffer of 1024 bytes. -/
def kilobyteRequest : RequestDetails :=
  { requestHeaders := .undefined
    requestBody := WFBody.toJS { raw := some [.bytes 1024], formData := none, text := none } }

/-- The events of the sequences in which the packet counts are followed. -/
inductive Event where
  | request (details : RequestDetails) (now : ℤ)
  | response (details : ResponseDetails) (now : ℤ)
  | completed (now : ℤ)
  | heartbeat
  | monitoringTick (mockDeviceUsage : ℚ) (now : ℤ)
  | deviceUpdate (mockDeviceUsage : ℚ)
  | startMonitoring
  | stopMonitoring

/-- The state after one event. -/
def NetworkMonitor.step (jsonStringify : JSVal → Option String) (self : NetworkMonitor) :
    Event → NetworkMonitor
  | .request details now => self.handleRequest jsonStringify details now
  | .response details now => self.handleResponse details now
  | .completed now => self.handleCompleted now
  | .heartbeat => self.heartbeatTick
  | .monitoringTick mock now => self.monitoringTick mock now
  | .deviceUpdate mock => self.updateDeviceData mock
  | .startMonitoring => self.startMonitoring
  | .stopMonitoring => self.stopMonitoring

/-- The state after a sequence of events. -/
def NetworkMonitor.run (jsonStringify : JSVal → Option String) (self : NetworkMonitor)
    (events : List Event) : NetworkMonitor :=
  events.foldl (NetworkMonitor.step jsonStringify) self

/-- Both packet counts are at least 1. -/
def NetworkMonitor.packetCountsPositive (self : NetworkMonitor) : Prop :=
  1 ≤ self.chromeData.packetCount ∧ 1 ≤ self.deviceData.packetCount

/-- The last `k` elements of a list, in their order. -/
def lastN {α : Type} (k : ℕ) (l : List α) : List α := l.drop (l.length - k)

/-- A run of history updates from `self`.  Each step is a change of the state followed by a
call of `updateHistory` at the given time; the result is the final state together with the
snapshots that the calls appended, in order. -/
def NetworkMonitor.appendRun (self : NetworkMonitor) :
    List ((NetworkMonitor → NetworkMonitor) × ℤ) → NetworkMonitor × List DataPoint
  | [] => (self, [])
  | step :: rest =>
    ((((step.1 self).updateHistory step.2).appendRun rest).1,
      (step.1 self).dataPoint step.2
        :: (((step.1 self).updateHistory step.2).appendRun rest).2)

/-- A run of 150 history updates at the times 0 to 149, with no other change. -/
def longRun : List ((NetworkMonitor → NetworkMonitor) × ℤ) :=
  List.map (fun i : ℕ => ((id : NetworkMonitor → NetworkMonitor), (i : ℤ))) (List.range 150)

/-- A state reached in use: counters above zero and packet counts 5 and 7. -/
def busyMonitor : NetworkMonitor :=
  { activeMonitor with
    chromeData := ⟨.fin 8192, .fin 4096, .fin 12288, 5⟩
    deviceData := ⟨.fin 100, .fin 80, .fin 180, 7⟩
    history :=
      [{ timestamp := 0, chrome := ⟨.fin 8192, .fin 4096, .fin 12288, 5⟩,
         device := ⟨.fin 100, .fin 80, .fin 180, 7⟩, total := .fin 12468 }] }

/-- The request `{ action }`. -/
def actionRequest (action : String) : JSVal := .obj [("action", .str action)]

/-! ## Statements about settings, persistence and the popup -/

/-- The request `{ action: 'setUpdateInterval', interval }`. -/
def intervalRequest (interval : JSVal) : JSVal :=
  .obj [("action", .str "setUpdateInterval"), ("interval", interval)]

/-- The request `{ action, [key]: value }` of a setter. -/
def setterRequest (action key : String) (value : JSVal) : JSVal :=
  .obj [("action", .str action), (key, value)]

/-- The settings are valid: the mode, the units and the theme are in their allowed sets and
the update interval is in `[200, 2000]`. -/
def NetworkMonitor.settingsValid (self : NetworkMonitor) : Prop :=
  self.monitoringMode ∈ ["chrome", "device"]
    ∧ self.dataUnits ∈ ["B", "KB", "MB", "GB", "TB", "PB"]
    ∧ self.colorTheme ∈ ["yellow", "white"]
    ∧ 200 ≤ self.updateIntervalMs ∧ self.updateIntervalMs ≤ 2000

/-- The state after a sequence of messages. -/
def NetworkMonitor.runMessages (fractionToString : ℚ → String) (self : NetworkMonitor)
    (requests : List JSVal) : NetworkMonitor :=
  requests.foldl (fun state request => (state.handleMessage fractionToString request).1) self

/-- The value is none of the strings of the list. -/
def notIncluded (list : List String) (value : JSVal) : Prop := ∀ s ∈ list, value ≠ .str s

/-- A sequence of messages: setters with allowed and with rejected values, a start and a
request that is not an object. -/
def sampleMessages : List JSVal :=
  [setterRequest "setMonitoringMode" "mode" (.str "device"),
   setterRequest "setDataUnits" "units" (.str "XB"),
   intervalRequest (.str "5000"),
   setterRequest "setColorTheme" "theme" (.str "white"),
   actionRequest "startMonitoring", .null]

/-- The value stored under a key: the property read `stored[key]`. -/
def storedValue (entries : List (String × JSVal)) (key : String) : JSVal :=
  (JSVal.obj entries).get key

/-- The counters satisfy `sent >= 0`, `received >= 0` and `total >= 0`, and the packet count
is at least 1. -/
def TrafficCounters.safe (counters : TrafficCounters) : Prop :=
  (JSNum.fin 0).le counters.sent = true ∧ (JSNum.fin 0).le counters.received = true
    ∧ (JSNum.fin 0).le counters.total = true ∧ 1 ≤ counters.packetCount

/-- A storage area with a unit outside the list, an interval above the range and a counter
object holding a negative number, a string and a missing field. -/
def untidyStorage : List (String × JSVal) :=
  [("monitoringMode", .str "device"), ("dataUnits", .str "XB"),
   ("updateIntervalMs", .str "5000"), ("isMonitoring", .num (.fin 1)),
   ("chromeData", .obj [("sent", .str "-40"), ("received", .str "abc"),
      ("packetCount", .str "0")])]

/-- A monitor in device mode with the unit `KB`, the interval 500 and the white theme. -/
def whiteThemeMonitor : NetworkMonitor :=
  { NetworkMonitor.initial with
    monitoringMode := "device", dataUnits := "KB", updateIntervalMs := 500,
    colorTheme := "white" }

/-- The strings JavaScript gives the doubles 0.75, 0.6000000000000001 (the double
`5404319552844596 / 2 ^ 53`) and 1.35 (the double `6079859496950170 / 2 ^ 52`). -/
def sampleFractionToString (q : ℚ) : String :=
  if q = 3 / 4 then "0.75"
  else if q = 5404319552844596 / 2 ^ 53 then "0.6000000000000001"
  else if q = 6079859496950170 / 2 ^ 52 then "1.35"
  else ""

/-- Response details whose only header is a content length of -5. -/
def negativeLengthResponse : ResponseDetails :=
  ⟨some [⟨"Content-Length", some "-5"⟩]⟩

/-- The monitor after `startMonitoring()`, a request with one raw body of 1024 bytes and a
response whose `Content-Length` is `-5`. -/
def negativeResponseMonitor : NetworkMonitor :=
  NetworkMonitor.run (fun _ => none) NetworkMonitor.initial
    [.startMonitoring, .request kilobyteRequest 0, .response negativeLengthResponse 1000]

/-- A fresh monitor after `loadSettings()` has read back what `saveCurrentState()` wrote of
`negativeResponseMonitor`. -/
def reloadedMonitor : NetworkMonitor :=
  NetworkMonitor.initial.loadSettings (fun _ => "")
    (some (negativeResponseMonitor.saveCurrentState []))

/-! ## Theorems -/

/-! ### The nearest double -/

theorem roundHalfEven_intCast (n : ℤ) : roundHalfEven (n : ℚ) = n := by
  unfold roundHalfEven
  rw [Int.floor_intCast]
  simp

theorem roundHalfEven_of_lt (x : ℚ) (n : ℤ) (h : |x - n| < 1 / 2) : roundHalfEven x = n := by
  rw [abs_lt] at h
  unfold roundHalfEven
  by_cases hx : (n : ℚ) ≤ x
  · have hf : ⌊x⌋ = n := by
      rw [Int.floor_eq_iff]
      constructor
      · exact hx
      · linarith
    rw [hf, if_pos (by linarith)]
  · push_neg at hx
    have hf : ⌊x⌋ = n - 1 := by
      rw [Int.floor_eq_iff]
      push_cast
      constructor <;> linarith
    rw [hf]
    push_cast
    rw [if_neg (by linarith), if_pos (by linarith)]
    ring

theorem roundHalfEven_tie (n : ℤ) :
    roundHalfEven ((n : ℚ) + 1 / 2) = if n % 2 = 0 then n else n + 1 := by
  have hf : ⌊(n : ℚ) + 1 / 2⌋ = n := by
    rw [Int.floor_eq_iff]
    constructor <;> linarith
  unfold roundHalfEven
  rw [hf, if_neg (by linarith), if_neg (by linarith)]

theorem abs_roundHalfEven_sub_le (x : ℚ) : |(roundHalfEven x : ℚ) - x| ≤ 1 / 2 := by
  have h1 := Int.floor_le x
  have h2 := Int.lt_floor_add_one x
  unfold roundHalfEven
  rw [abs_le]
  split_ifs <;> push_cast <;> constructor <;> linarith

theorem roundHalfEven_nonneg (x : ℚ) (h : 0 ≤ x) : 0 ≤ roundHalfEven x := by
  have hf : 0 ≤ ⌊x⌋ := Int.floor_nonneg.mpr h
  unfold roundHalfEven
  split_ifs <;> omega

theorem roundHalfEven_nonpos (x : ℚ) (h : x ≤ 0) : roundHalfEven x ≤ 0 := by
  have hf : ⌊x⌋ ≤ 0 := by
    have := Int.floor_le x
    have h2 : ((⌊x⌋ : ℤ) : ℚ) ≤ 0 := le_trans this h
    exact_mod_cast h2
  unfold roundHalfEven
  by_cases h0 : ⌊x⌋ = 0
  · have hx : x = 0 := by
      have := Int.floor_le x
      rw [h0] at this
      push_cast at this
      linarith
    subst hx
    simp
  · split_ifs <;> omega

theorem log_two_eq (a : ℚ) (e : ℤ) (h1 : (2 : ℚ) ^ e ≤ a) (h2 : a < 2 ^ (e + 1)) :
    Int.log 2 a = e := by
  have ha : 0 < a := lt_of_lt_of_le (by positivity) h1
  have l1 : e ≤ Int.log 2 a := (Int.zpow_le_iff_le_log (by norm_num) ha).mp (by exact_mod_cast h1)
  have l2 : Int.log 2 a < e + 1 := (Int.lt_zpow_iff_log_lt (by norm_num) ha).mp (by exact_mod_cast h2)
  omega

theorem roundToDouble_of_bounds (q : ℚ) (e : ℤ) (he : -1022 ≤ e) (h1 : (2 : ℚ) ^ e ≤ |q|)
    (h2 : |q| < 2 ^ (e + 1)) :
    roundToDouble q
      = if (roundHalfEven (q / 2 ^ (e - 52)) : ℚ) * 2 ^ (e - 52) ≥ 2 ^ 1024 then .posInf
        else if (roundHalfEven (q / 2 ^ (e - 52)) : ℚ) * 2 ^ (e - 52) ≤ -(2 ^ 1024) then .negInf
        else .fin ((roundHalfEven (q / 2 ^ (e - 52)) : ℚ) * 2 ^ (e - 52)) := by
  have hq : q ≠ 0 := by
    intro h
    rw [h, abs_zero] at h1
    have : (0 : ℚ) < 2 ^ e := by positivity
    linarith
  unfold roundToDouble
  rw [if_neg hq, log_two_eq |q| e h1 h2, max_eq_left he]

theorem roundToDouble_eq (q : ℚ) (e m : ℤ) (he : -1022 ≤ e) (he2 : e ≤ 1022)
    (h1 : (2 : ℚ) ^ e ≤ |q|) (h2 : |q| < 2 ^ (e + 1))
    (hm : roundHalfEven (q / 2 ^ (e - 52)) = m) (hb : |m| ≤ 2 ^ 53) :
    roundToDouble q = .fin ((m : ℚ) * 2 ^ (e - 52)) := by
  rw [roundToDouble_of_bounds q e he h1 h2, hm]
  have hu : (0 : ℚ) < 2 ^ (e - 52) := by positivity
  have hmq : |(m : ℚ)| ≤ 2 ^ 53 := by exact_mod_cast hb
  have hr : |(m : ℚ) * 2 ^ (e - 52)| ≤ 2 ^ (1023 : ℤ) := by
    rw [abs_mul, abs_of_pos hu]
    calc |(m : ℚ)| * 2 ^ (e - 52) ≤ 2 ^ (53 : ℤ) * 2 ^ (e - 52) := by
          apply mul_le_mul_of_nonneg_right _ hu.le
          exact_mod_cast hmq
      _ = 2 ^ (e + 1) := by
          rw [← zpow_add₀ (by norm_num : (2 : ℚ) ≠ 0)]
          congr 1
          ring
      _ ≤ 2 ^ (1023 : ℤ) := zpow_le_zpow_right₀ (by norm_num) (by omega)
  have hlt : (2 : ℚ) ^ (1023 : ℤ) < 2 ^ 1024 := by norm_num
  rw [abs_le] at hr
  rw [if_neg (by linarith), if_neg (by linarith)]

theorem roundToDouble_intCast (n : ℤ) (h : |n| ≤ 2 ^ 53) : roundToDouble (n : ℚ) = .fin n := by
  by_cases h0 : n = 0
  · subst h0
    simp [roundToDouble]
  have hn1 : (1 : ℚ) ≤ |(n : ℚ)| := by
    have : 1 ≤ |n| := Int.one_le_abs h0
    exact_mod_cast this
  have hn2 : |(n : ℚ)| ≤ 2 ^ (53 : ℤ) := by exact_mod_cast h
  have hpos : (0 : ℚ) < |(n : ℚ)| := by linarith
  have b1' : (2 : ℚ) ^ Int.log 2 |(n : ℚ)| ≤ |(n : ℚ)| := by
    have := Int.zpow_log_le_self (by norm_num : 1 < 2) hpos
    simpa using this
  have b2' : |(n : ℚ)| < 2 ^ (Int.log 2 |(n : ℚ)| + 1) := by
    have := Int.lt_zpow_succ_log_self (by norm_num : 1 < 2) |(n : ℚ)|
    simpa using this
  generalize Int.log 2 |(n : ℚ)| = e at b1' b2'
  have b1 : (2 : ℚ) ^ e ≤ |(n : ℚ)| := b1'
  have b2 : |(n : ℚ)| < 2 ^ (e + 1) := b2'
  have e0 : 0 ≤ e := by
    by_contra hc
    push_neg at hc
    have : (2 : ℚ) ^ (e + 1) ≤ 2 ^ (0 : ℤ) := zpow_le_zpow_right₀ (by norm_num) (by omega)
    simp only [zpow_zero] at this
    linarith
  have e53 : e ≤ 53 := by
    by_contra hc
    push_neg at hc
    have : (2 : ℚ) ^ (54 : ℤ) ≤ 2 ^ e := zpow_le_zpow_right₀ (by norm_num) (by omega)
    have : (2 : ℚ) ^ (53 : ℤ) < 2 ^ (54 : ℤ) := by norm_num
    linarith
  have hint : ∃ z : ℤ, (n : ℚ) / 2 ^ (e - 52) = z := by
    by_cases hc : e ≤ 52
    · refine ⟨n * 2 ^ (52 - e).toNat, ?_⟩
      have ht : ((52 - e).toNat : ℤ) = 52 - e := Int.toNat_of_nonneg (by omega)
      have : (2 : ℚ) ^ (e - 52) = (2 ^ (52 - e).toNat)⁻¹ := by
        rw [← zpow_natCast, ht, ← zpow_neg]
        congr 1
        ring
      rw [this]
      push_cast
      field_simp
    · have e53' : e = 53 := by omega
      rw [e53'] at b1
      have habs : |(n : ℚ)| = 2 ^ (53 : ℤ) := le_antisymm hn2 b1
      have habsz : |n| = 2 ^ 53 := by exact_mod_cast habs
      refine ⟨n / 2, ?_⟩
      rw [e53']
      have hdvd : (2 : ℤ) ∣ n := by
        rcases abs_choice n with hh | hh
        · rw [hh] at habsz
          rw [habsz]
          norm_num
        · rw [hh] at habsz
          have : n = -(2 ^ 53) := by omega
          rw [this]
          norm_num
      obtain ⟨k, hk⟩ := hdvd
      rw [hk]
      norm_num
  obtain ⟨z, hz⟩ := hint
  have hu : (0 : ℚ) < 2 ^ (e - 52) := by positivity
  have hback : (z : ℚ) * 2 ^ (e - 52) = n := by
    rw [← hz]
    field_simp
  rw [roundToDouble_of_bounds (n : ℚ) e (by omega) b1 b2, hz, roundHalfEven_intCast, hback]
  have hlt : (2 : ℚ) ^ (53 : ℤ) < 2 ^ 1024 := by norm_num
  rw [abs_le] at hn2
  rw [if_neg (by linarith), if_neg (by linarith)]

theorem log_two_bounds (a : ℚ) (ha : 0 < a) :
    (2 : ℚ) ^ Int.log 2 a ≤ a ∧ a < 2 ^ (Int.log 2 a + 1) := by
  constructor
  · have := Int.zpow_log_le_self (by norm_num : 1 < 2) ha
    simpa using this
  · have := Int.lt_zpow_succ_log_self (by norm_num : 1 < 2) a
    simpa using this

theorem roundToDouble_close (q : ℚ) (h1 : (2 : ℚ) ^ (-1022 : ℤ) ≤ |q|)
    (h2 : |q| ≤ 2 ^ (1022 : ℤ)) :
    ∃ r : ℚ, roundToDouble q = .fin r ∧ |r - q| ≤ |q| / 2 ^ 53 ∧ (0 ≤ q → 0 ≤ r) := by
  have hpos : (0 : ℚ) < |q| := lt_of_lt_of_le (by positivity) h1
  obtain ⟨b1, b2⟩ := log_two_bounds |q| hpos
  generalize Int.log 2 |q| = e at b1 b2
  have he : -1022 ≤ e := by
    by_contra hc
    push_neg at hc
    have : (2 : ℚ) ^ (e + 1) ≤ 2 ^ (-1022 : ℤ) := zpow_le_zpow_right₀ (by norm_num) (by omega)
    linarith
  have he2 : e ≤ 1022 := by
    by_contra hc
    push_neg at hc
    have h3 : (2 : ℚ) ^ (1023 : ℤ) ≤ 2 ^ e := zpow_le_zpow_right₀ (by norm_num) (by omega)
    have h4 : (2 : ℚ) ^ (1022 : ℤ) < 2 ^ (1023 : ℤ) := by norm_num
    linarith
  have hu : (0 : ℚ) < 2 ^ (e - 52) := by positivity
  have herr := abs_roundHalfEven_sub_le (q / 2 ^ (e - 52))
  have hd : |(roundHalfEven (q / 2 ^ (e - 52)) : ℚ) * 2 ^ (e - 52) - q| ≤ 2 ^ (e - 52) / 2 := by
    have e1 : (roundHalfEven (q / 2 ^ (e - 52)) : ℚ) * 2 ^ (e - 52) - q
        = ((roundHalfEven (q / 2 ^ (e - 52)) : ℚ) - q / 2 ^ (e - 52)) * 2 ^ (e - 52) := by
      field_simp
    rw [e1, abs_mul, abs_of_pos hu]
    calc |(roundHalfEven (q / 2 ^ (e - 52)) : ℚ) - q / 2 ^ (e - 52)| * 2 ^ (e - 52)
        ≤ 1 / 2 * 2 ^ (e - 52) := mul_le_mul_of_nonneg_right herr hu.le
      _ = 2 ^ (e - 52) / 2 := by ring
  have hhalf : (2 : ℚ) ^ (e - 52) / 2 = 2 ^ e / 2 ^ 53 := by
    have : (2 : ℚ) ^ (e - 52) = 2 ^ e / 2 ^ 52 := by
      rw [zpow_sub₀ (by norm_num : (2 : ℚ) ≠ 0)]
      norm_num
    rw [this]
    ring
  have hle : (2 : ℚ) ^ e / 2 ^ 53 ≤ |q| / 2 ^ 53 :=
    div_le_div_of_nonneg_right b1 (by positivity)
  have hbound : |(roundHalfEven (q / 2 ^ (e - 52)) : ℚ) * 2 ^ (e - 52) - q| ≤ |q| / 2 ^ 53 := by
    rw [hhalf] at hd
    exact le_trans hd hle
  have hsmall : |q| / 2 ^ 53 ≤ |q| := div_le_self hpos.le (by norm_num)
  have hr : |(roundHalfEven (q / 2 ^ (e - 52)) : ℚ) * 2 ^ (e - 52)| ≤ 2 * |q| := by
    have := abs_sub_abs_le_abs_sub ((roundHalfEven (q / 2 ^ (e - 52)) : ℚ) * 2 ^ (e - 52)) q
    linarith
  have hbig : (2 : ℚ) * 2 ^ (1022 : ℤ) < 2 ^ 1024 := by norm_num
  refine ⟨(roundHalfEven (q / 2 ^ (e - 52)) : ℚ) * 2 ^ (e - 52), ?_, hbound, ?_⟩
  · rw [roundToDouble_of_bounds q e he b1 b2]
    rw [abs_le] at hr
    rw [if_neg (by linarith), if_neg (by linarith)]
  · intro h0
    have : 0 ≤ roundHalfEven (q / 2 ^ (e - 52)) :=
      roundHalfEven_nonneg _ (div_nonneg h0 hu.le)
    have h9 : (0 : ℚ) ≤ (roundHalfEven (q / 2 ^ (e - 52)) : ℚ) := by exact_mod_cast this
    exact mul_nonneg h9 hu.le

theorem roundToDouble_nonpos (q : ℚ) (h : q ≤ 0) :
    roundToDouble q = .negInf ∨ ∃ r : ℚ, roundToDouble q = .fin r ∧ r ≤ 0 := by
  unfold roundToDouble
  by_cases h0 : q = 0
  · rw [if_pos h0]
    exact Or.inr ⟨0, rfl, le_rfl⟩
  · rw [if_neg h0]
    simp only []
    generalize max (Int.log 2 |q|) (-1022) = e
    have hu : (0 : ℚ) < 2 ^ (e - 52) := by positivity
    have hm : roundHalfEven (q / 2 ^ (e - 52)) ≤ 0 :=
      roundHalfEven_nonpos _ (div_nonpos_of_nonpos_of_nonneg h hu.le)
    have hmq : (roundHalfEven (q / 2 ^ (e - 52)) : ℚ) ≤ 0 := by exact_mod_cast hm
    have hr : (roundHalfEven (q / 2 ^ (e - 52)) : ℚ) * 2 ^ (e - 52) ≤ 0 :=
      mul_nonpos_of_nonpos_of_nonneg hmq hu.le
    have hbig : (0 : ℚ) < 2 ^ 1024 := by positivity
    rw [if_neg (by linarith)]
    split_ifs
    · exact Or.inl rfl
    · exact Or.inr ⟨_, rfl, hr⟩

theorem roundToDouble_huge (q : ℚ) (h : (2 : ℚ) ^ 1024 ≤ q) : roundToDouble q = .posInf := by
  have hq : 0 < q := lt_of_lt_of_le (by positivity) h
  have habs : |q| = q := abs_of_pos hq
  obtain ⟨b1, b2⟩ := log_two_bounds |q| (by rw [habs]; exact hq)
  generalize Int.log 2 |q| = e at b1 b2
  rw [habs] at b1 b2
  have he : 1024 ≤ e := by
    by_contra hc
    push_neg at hc
    have : (2 : ℚ) ^ (e + 1) ≤ 2 ^ (1024 : ℤ) := zpow_le_zpow_right₀ (by norm_num) (by omega)
    have h5 : (2 : ℚ) ^ (1024 : ℤ) = 2 ^ 1024 := by norm_num
    linarith
  have hu : (0 : ℚ) < 2 ^ (e - 52) := by positivity
  have herr := abs_roundHalfEven_sub_le (q / 2 ^ (e - 52))
  rw [abs_le] at herr
  have hx : (2 : ℚ) ^ (52 : ℤ) ≤ q / 2 ^ (e - 52) := by
    rw [le_div_iff₀ hu, ← zpow_add₀ (by norm_num : (2 : ℚ) ≠ 0)]
    have : (52 : ℤ) + (e - 52) = e := by ring
    rw [this]
    exact b1
  have hm : (2 : ℚ) ^ (52 : ℤ) - 1 / 2 ≤ (roundHalfEven (q / 2 ^ (e - 52)) : ℚ) := by linarith
  have hm2 : (2 : ℤ) ^ 52 ≤ roundHalfEven (q / 2 ^ (e - 52)) := by
    have h6 : ((2 : ℤ) ^ 52 : ℚ) - 1 < (roundHalfEven (q / 2 ^ (e - 52)) : ℚ) := by
      have : ((2 : ℤ) ^ 52 : ℚ) = (2 : ℚ) ^ (52 : ℤ) := by norm_num
      rw [this]
      linarith
    have h7 : (2 : ℤ) ^ 52 - 1 < roundHalfEven (q / 2 ^ (e - 52)) := by exact_mod_cast h6
    omega
  have hm3 : (2 : ℚ) ^ (52 : ℤ) ≤ (roundHalfEven (q / 2 ^ (e - 52)) : ℚ) := by
    have : ((2 : ℤ) ^ 52 : ℚ) ≤ (roundHalfEven (q / 2 ^ (e - 52)) : ℚ) := by exact_mod_cast hm2
    have h8 : ((2 : ℤ) ^ 52 : ℚ) = (2 : ℚ) ^ (52 : ℤ) := by norm_num
    rw [h8] at this
    exact this
  have hr : (2 : ℚ) ^ 1024 ≤ (roundHalfEven (q / 2 ^ (e - 52)) : ℚ) * 2 ^ (e - 52) := by
    calc (2 : ℚ) ^ 1024 = 2 ^ (1024 : ℤ) := by norm_num
      _ ≤ 2 ^ e := zpow_le_zpow_right₀ (by norm_num) he
      _ = 2 ^ (52 : ℤ) * 2 ^ (e - 52) := by
          rw [← zpow_add₀ (by norm_num : (2 : ℚ) ≠ 0)]
          congr 1
          ring
      _ ≤ (roundHalfEven (q / 2 ^ (e - 52)) : ℚ) * 2 ^ (e - 52) :=
          mul_le_mul_of_nonneg_right hm3 hu.le
  have b1' : (2 : ℚ) ^ e ≤ |q| := by rw [habs]; exact b1
  have b2' : |q| < 2 ^ (e + 1) := by rw [habs]; exact b2
  rw [roundToDouble_of_bounds q e (by omega) b1' b2', if_pos hr]

theorem roundHalfEven_neg (x : ℚ) : roundHalfEven (-x) = -roundHalfEven x := by
  by_cases hi : ∃ z : ℤ, x = z
  · obtain ⟨z, rfl⟩ := hi
    have : -(z : ℚ) = ((-z : ℤ) : ℚ) := by push_cast; ring
    rw [this, roundHalfEven_intCast, roundHalfEven_intCast]
  · have hfl : ⌊-x⌋ = -⌊x⌋ - 1 := by
      rw [Int.floor_eq_iff]
      have h1 := Int.floor_le x
      have h2 := Int.lt_floor_add_one x
      have h3 : ((⌊x⌋ : ℤ) : ℚ) ≠ x := fun h => hi ⟨⌊x⌋, h.symm⟩
      have h4 : ((⌊x⌋ : ℤ) : ℚ) < x := lt_of_le_of_ne h1 h3
      push_cast
      constructor <;> linarith
    unfold roundHalfEven
    rw [hfl]
    push_cast
    have h1 := Int.floor_le x
    have h2 := Int.lt_floor_add_one x
    by_cases c1 : x - ⌊x⌋ < 1 / 2
    · rw [if_pos c1, if_neg (by linarith), if_pos (by linarith)]
      ring
    · by_cases c2 : x - ⌊x⌋ > 1 / 2
      · rw [if_neg c1, if_pos c2, if_pos (by linarith)]
        ring
      · have c3 : x - ⌊x⌋ = 1 / 2 := by
          push_neg at c1 c2
          linarith
        rw [if_neg c1, if_neg c2, if_neg (by linarith), if_neg (by linarith)]
        by_cases c4 : ⌊x⌋ % 2 = 0
        · rw [if_pos c4, if_neg (by omega)]
          ring
        · rw [if_neg c4, if_pos (by omega)]
          ring

theorem roundToDouble_neg_huge (q : ℚ) (h : q ≤ -(2 : ℚ) ^ 1024) :
    roundToDouble q = .negInf := by
  have hp := roundToDouble_huge (-q) (by linarith)
  have hq : q ≠ 0 := by
    intro h0
    rw [h0] at h
    have : (0 : ℚ) < 2 ^ 1024 := by positivity
    linarith
  have hq' : -q ≠ 0 := neg_ne_zero.mpr hq
  unfold roundToDouble at hp ⊢
  rw [if_neg hq'] at hp
  rw [if_neg hq]
  simp only [abs_neg] at hp
  simp only []
  generalize max (Int.log 2 |q|) (-1022) = e at hp ⊢
  have hu : (0 : ℚ) < 2 ^ (e - 52) := by positivity
  have hneg : (roundHalfEven (-q / 2 ^ (e - 52)) : ℚ) = -(roundHalfEven (q / 2 ^ (e - 52)) : ℚ) := by
    rw [neg_div, roundHalfEven_neg]
    push_cast
    ring
  rw [hneg] at hp
  have hbig : (0 : ℚ) < 2 ^ 1024 := by positivity
  by_cases c : -(roundHalfEven (q / 2 ^ (e - 52)) : ℚ) * 2 ^ (e - 52) ≥ 2 ^ 1024
  · rw [if_neg (by linarith), if_pos (by linarith)]
  · rw [if_neg c] at hp
    split_ifs at hp

theorem nearestScaled_cast (x : ℚ) (f : ℕ) (hx : 0 ≤ x) :
    ((nearestScaled x f : ℕ) : ℚ) = ((⌊x * 10 ^ f + 1 / 2⌋ : ℤ) : ℚ) := by
  have hy : (0 : ℚ) ≤ x * 10 ^ f + 1 / 2 := by positivity
  have hfl : (0 : ℤ) ≤ ⌊x * 10 ^ f + 1 / 2⌋ := Int.floor_nonneg.mpr hy
  unfold nearestScaled
  have h := Int.toNat_of_nonneg hfl
  exact_mod_cast congrArg (fun z : ℤ => (z : ℚ)) h

theorem nearestScaled_close (x : ℚ) (f : ℕ) (hx : 0 ≤ x) :
    |((nearestScaled x f : ℕ) : ℚ) / 10 ^ f - x| ≤ 1 / (2 * 10 ^ f) := by
  have hp : (0 : ℚ) < 10 ^ f := by positivity
  rw [nearestScaled_cast x f hx]
  have h1 := Int.floor_le (x * 10 ^ f + 1 / 2)
  have h2 := Int.lt_floor_add_one (x * 10 ^ f + 1 / 2)
  rw [abs_le]
  constructor
  · rw [le_sub_iff_add_le, le_div_iff₀ hp]
    have : (-(1 / (2 * 10 ^ f)) + x) * (10 : ℚ) ^ f = x * 10 ^ f - 1 / 2 := by
      field_simp
      ring
    rw [this]
    linarith
  · rw [sub_le_iff_le_add, div_le_iff₀ hp]
    have : (1 / (2 * 10 ^ f) + x) * (10 : ℚ) ^ f = x * 10 ^ f + 1 / 2 := by
      field_simp
      ring
    rw [this]
    linarith

theorem factorOf_unitName (k : ℕ) (hk : k < 6) : factorOf (unitName k) = 1 / unitDivisor k := by
  interval_cases k <;>
    simp [factorOf, unitName, validUnits, conversionFactors, unitDivisor] <;> norm_num

theorem decimalPlaces_unitName (k : ℕ) (hk : k < 6) :
    decimalPlaces (unitName k) = unitPrecision k := by
  interval_cases k <;> simp [decimalPlaces, unitName, validUnits, unitPrecision]

theorem sanitizeUnit_unitName (k : ℕ) (hk : k < 6) :
    sanitizeUnit (.str (unitName k)) = unitName k := by
  interval_cases k <;> simp [sanitizeUnit, includesUnit, unitName, validUnits]

theorem roundToDouble_ne_nan (q : ℚ) : roundToDouble q ≠ .nan := by
  unfold roundToDouble
  simp only []
  split_ifs <;> simp

theorem JSNum.add_zero (x : JSNum) : x.add (.fin 0) = x := by
  cases x with
  | fin a =>
    by_cases h : a = 0
    · simp [JSNum.add, h]
    · simp [JSNum.add, h]
  | nan => rfl
  | posInf => rfl
  | negInf => rfl

theorem JSNum.zero_add (x : JSNum) : (JSNum.fin 0).add x = x := by
  cases x with
  | fin a => simp [JSNum.add]
  | nan => rfl
  | posInf => rfl
  | negInf => rfl

theorem JSNum.add_intCast (a b : ℤ) (h : |a + b| ≤ 2 ^ 53) :
    (JSNum.fin a).add (.fin b) = .fin ((a + b : ℤ) : ℚ) := by
  simp only [JSNum.add]
  by_cases ha : (a : ℚ) = 0
  · rw [if_pos ha]
    have : a = 0 := by exact_mod_cast ha
    subst this
    simp
  · rw [if_neg ha]
    by_cases hb : (b : ℚ) = 0
    · rw [if_pos hb]
      have : b = 0 := by exact_mod_cast hb
      subst this
      simp
    · rw [if_neg hb]
      have e : ((a : ℚ) + b) = ((a + b : ℤ) : ℚ) := by push_cast; ring
      rw [e]
      exact roundToDouble_intCast (a + b) h

theorem orZero_roundToDouble (q : ℚ) :
    (if (JSVal.num (roundToDouble q)).truthy then roundToDouble q else .fin 0)
      = roundToDouble q := by
  split_ifs with h
  · rfl
  · cases hr : roundToDouble q with
    | nan => exact absurd hr (roundToDouble_ne_nan q)
    | posInf =>
      rw [hr] at h
      exact absurd rfl h
    | negInf =>
      rw [hr] at h
      exact absurd rfl h
    | fin r =>
      rw [hr] at h
      simp only [JSVal.truthy, ne_eq, decide_not, Bool.not_eq_true', decide_eq_false_iff_not,
        not_not, Bool.not_eq_true] at h
      rw [h]
theorem JSNum.sub_intCast (a b : ℤ) (h : |a - b| ≤ 2 ^ 53) :
    (JSNum.fin a).sub (.fin b) = .fin ((a - b : ℤ) : ℚ) := by
  have e := JSNum.add_intCast a (-b) (by rw [← sub_eq_add_neg]; exact h)
  unfold JSNum.sub JSNum.neg
  simp only [← sub_eq_add_neg, Int.cast_neg] at e
  exact e

theorem JSNum.mul_intCast (a b : ℤ) (h : |a * b| ≤ 2 ^ 53) :
    (JSNum.fin a).mul (.fin b) = .fin ((a * b : ℤ) : ℚ) := by
  simp only [JSNum.mul]
  have e : ((a : ℚ) * b) = ((a * b : ℤ) : ℚ) := by push_cast; ring
  rw [e]
  exact roundToDouble_intCast (a * b) h

theorem JSNum.div_intCast (a b c : ℤ) (hb : b ≠ 0) (hc : a = c * b) (h : |c| ≤ 2 ^ 53) :
    (JSNum.fin a).div (.fin b) = .fin (c : ℚ) := by
  have hb2 : (b : ℚ) ≠ 0 := by exact_mod_cast hb
  simp only [JSNum.div]
  rw [if_pos hb2]
  have e : (a : ℚ) / b = c := by
    rw [hc]
    push_cast
    field_simp
  rw [e]
  exact roundToDouble_intCast c h

/-! ### Digits, `toFixed` and the value of a decimal literal -/

theorem digitsToNat_append_single (xs : List ℕ) (d : ℕ) :
    digitsToNat 10 (xs ++ [d]) = 10 * digitsToNat 10 xs + d := by
  simp [digitsToNat, List.foldl_append]

theorem natDigitsAux_append (fuel n : ℕ) (acc : List ℕ) :
    natDigitsAux fuel n acc = natDigitsAux fuel n [] ++ acc := by
  induction fuel generalizing n acc with
  | zero => simp [natDigitsAux]
  | succ fuel ih =>
    simp only [natDigitsAux]
    split
    · simp
    · rw [ih (n / 10) (n % 10 :: acc), ih (n / 10) [n % 10]]
      simp

theorem digitsToNat_natDigitsAux (fuel n : ℕ) (h : n < fuel) :
    digitsToNat 10 (natDigitsAux fuel n []) = n := by
  induction fuel generalizing n with
  | zero => omega
  | succ fuel ih =>
    simp only [natDigitsAux]
    split
    · rename_i h0
      simp [digitsToNat]
      omega
    · rename_i h0
      rw [natDigitsAux_append, digitsToNat_append_single, ih (n / 10) (by omega)]
      omega

theorem digitsToNat_natDigits (n : ℕ) : digitsToNat 10 (natDigits n) = n :=
  digitsToNat_natDigitsAux (n + 1) n (Nat.lt_succ_self n)

theorem natDigitsAux_lt (fuel n : ℕ) : ∀ d ∈ natDigitsAux fuel n [], d < 10 := by
  induction fuel generalizing n with
  | zero => simp [natDigitsAux]
  | succ fuel ih =>
    simp only [natDigitsAux]
    split
    · intro d hd
      simp at hd
      omega
    · rw [natDigitsAux_append]
      intro d hd
      simp at hd
      rcases hd with hd | hd
      · exact ih _ d hd
      · omega

theorem natDigits_lt (n : ℕ) : ∀ d ∈ natDigits n, d < 10 := natDigitsAux_lt (n + 1) n

theorem natDigits_ne_nil (n : ℕ) : natDigits n ≠ [] := by
  unfold natDigits
  simp only [natDigitsAux]
  split
  · simp
  · rw [natDigitsAux_append]; simp

theorem digitValue_digitChar : ∀ d < 10, digitValue 10 (digitChar d) = some d := by decide

theorem digitChar_not_space : ∀ d < 10, isWhiteSpace (digitChar d) = false := by decide

theorem digitChar_ne_minus : ∀ d < 10, digitChar d ≠ Char.ofNat 45 := by decide
theorem digitChar_ne_plus : ∀ d < 10, digitChar d ≠ Char.ofNat 43 := by decide
theorem digitChar_ne_I : ∀ d < 10, digitChar d ≠ Char.ofNat 73 := by decide

theorem takeDigits_map_digitChar (ds : List ℕ) (rest : List Char) (h : ∀ d ∈ ds, d < 10) :
    takeDigits 10 (ds.map digitChar ++ rest) = ds ++ takeDigits 10 rest := by
  induction ds with
  | nil => simp
  | cons d ds ih =>
    have hd : d < 10 := h d (by simp)
    have ih2 := ih (fun x hx => h x (by simp [hx]))
    simp only [List.map_cons, List.cons_append]
    rw [takeDigits]
    simp only [digitValue_digitChar d hd, ih2]

theorem digitsToNat_replicate_zero (k : ℕ) (ds : List ℕ) :
    digitsToNat 10 (List.replicate k 0 ++ ds) = digitsToNat 10 ds := by
  induction k with
  | zero => simp
  | succ k ih =>
    simp only [List.replicate_succ, List.cons_append]
    unfold digitsToNat at ih ⊢
    simpa using ih

theorem takeDigits_dot (rest : List Char) : takeDigits 10 (Char.ofNat 46 :: rest) = [] := by
  rw [takeDigits]
  have : digitValue 10 (Char.ofNat 46) = none := by decide
  simp [this]

theorem takeDigits_nil (r : ℕ) : takeDigits r [] = [] := by
  rw [takeDigits]

theorem decimalValue_digits_dot_digits (a b : List ℕ) (ha : ∀ d ∈ a, d < 10)
    (hb : ∀ d ∈ b, d < 10) (hne : a ≠ []) :
    decimalValue (String.mk (a.map digitChar ++ Char.ofNat 46 :: b.map digitChar))
      = .fin ((digitsToNat 10 (a ++ b) : ℚ) / 10 ^ b.length) := by
  obtain ⟨d, a', rfl⟩ := List.exists_cons_of_ne_nil hne
  have hd : d < 10 := ha d (by simp)
  have hdrop : List.dropWhile isWhiteSpace
      ((d :: a').map digitChar ++ Char.ofNat 46 :: b.map digitChar)
      = (d :: a').map digitChar ++ Char.ofNat 46 :: b.map digitChar := by
    simp [List.dropWhile, digitChar_not_space d hd]
  have hsign : splitSign ((d :: a').map digitChar ++ Char.ofNat 46 :: b.map digitChar)
      = (false, (d :: a').map digitChar ++ Char.ofNat 46 :: b.map digitChar) := by
    simp [splitSign, digitChar_ne_minus d hd, digitChar_ne_plus d hd]
  have hinf : startsWithInfinity ((d :: a').map digitChar ++ Char.ofNat 46 :: b.map digitChar)
      = false := by
    simp only [startsWithInfinity, decide_eq_false_iff_not]
    intro h
    have h2 := congrArg List.head? h
    simp at h2
    exact digitChar_ne_I d hd h2
  have hint : takeDigits 10 ((d :: a').map digitChar ++ Char.ofNat 46 :: b.map digitChar)
      = d :: a' := by
    rw [takeDigits_map_digitChar _ _ ha, takeDigits_dot]; simp
  have hfrac0 : takeDigits 10 (b.map digitChar) = b := by
    have := takeDigits_map_digitChar b [] hb
    simpa [takeDigits_nil] using this
  have hrest : List.drop (d :: a').length
      ((d :: a').map digitChar ++ Char.ofNat 46 :: b.map digitChar)
      = Char.ofNat 46 :: b.map digitChar := by
    have : (d :: a').length = ((d :: a').map digitChar).length := by simp
    rw [this, List.drop_left]
  have hfrac : splitFraction (Char.ofNat 46 :: b.map digitChar) = (b, []) := by
    simp [splitFraction, hfrac0]
  simp only [decimalValue, hdrop, hsign, hinf, hint, hrest, hfrac, exponentPart]
  simp

theorem paddedDigits_length (n f : ℕ) : f + 1 ≤ (paddedDigits n f).length := by
  unfold paddedDigits
  split
  · simp; omega
  · omega

theorem paddedDigits_lt (n f : ℕ) : ∀ d ∈ paddedDigits n f, d < 10 := by
  unfold paddedDigits
  intro d hd
  split at hd
  · simp at hd
    rcases hd with ⟨_, rfl⟩ | hd
    · omega
    · exact natDigits_lt n d hd
  · exact natDigits_lt n d hd

theorem digitsToNat_paddedDigits (n f : ℕ) : digitsToNat 10 (paddedDigits n f) = n := by
  unfold paddedDigits
  split
  · rw [digitsToNat_replicate_zero, digitsToNat_natDigits]
  · exact digitsToNat_natDigits n

theorem decimalString_eq (n f : ℕ) (hf : f ≠ 0) :
    decimalString n f
      = String.mk (((paddedDigits n f).take ((paddedDigits n f).length - f)).map digitChar
          ++ Char.ofNat 46 :: ((paddedDigits n f).drop ((paddedDigits n f).length - f)).map digitChar) := by
  have hpad : (if ((natDigits n).map digitChar).length ≤ f then
        List.replicate (f + 1 - ((natDigits n).map digitChar).length) (digitChar 0)
          ++ (natDigits n).map digitChar
      else (natDigits n).map digitChar) = (paddedDigits n f).map digitChar := by
    unfold paddedDigits
    simp only [List.length_map]
    split
    · simp
    · rfl
  unfold decimalString
  simp only [if_neg hf]
  rw [hpad]
  simp only [List.length_map, List.map_take, List.map_drop]

theorem decimalValue_decimalString (n f : ℕ) (hf : f ≠ 0) :
    decimalValue (decimalString n f) = .fin ((n : ℚ) / 10 ^ f) := by
  have hlen := paddedDigits_length n f
  rw [decimalString_eq n f hf, decimalValue_digits_dot_digits]
  · rw [List.take_append_drop, digitsToNat_paddedDigits, List.length_drop]
    congr 3
    omega
  · exact fun d hd => paddedDigits_lt n f d (List.mem_of_mem_take hd)
  · exact fun d hd => paddedDigits_lt n f d (List.mem_of_mem_drop hd)
  · intro h
    have := congrArg List.length h
    simp at this
    omega

/-! ### The unit converter -/

theorem sanitizeUnit_unknown (u : JSVal) (hu : isUnknownUnit u) : sanitizeUnit u = "MB" := by
  cases u with
  | str s =>
    have hs : s ∉ validUnits := fun h => hu s h rfl
    simp [sanitizeUnit, includesUnit, hs]
  | _ => rfl

theorem convertUnits_MB_example :
    convertUnits (.num (.fin 8388608)) (.str "MB") = "1.00" := by
  simp [convertUnits, MAX_SAFE_INTEGER, sanitizeUnit, includesUnit, validUnits, factorOf,
    conversionFactors, decimalPlaces, toFixed, nearestScaled]
  norm_num
  decide

theorem convertUnits_unitName (b : ℚ) (k : ℕ) (hk : k < 6) (h0 : 0 ≤ b)
    (h1 : b ≤ MAX_SAFE_INTEGER) :
    convertUnits (.num (.fin b)) (.str (unitName k))
      = decimalString (nearestScaled (b / unitDivisor k) (unitPrecision k))
          (unitPrecision k) := by
  have hd : (0 : ℚ) < unitDivisor k := by unfold unitDivisor; positivity
  have hd1 : (1 : ℚ) ≤ unitDivisor k := by
    unfold unitDivisor
    have : (1 : ℚ) ≤ 1024 ^ k := one_le_pow₀ (by norm_num)
    linarith
  have hx : 0 ≤ b / unitDivisor k := div_nonneg h0 hd.le
  have hx1 : b / unitDivisor k ≤ MAX_SAFE_INTEGER := le_trans (div_le_self h0 hd1) h1
  have hmul : b * factorOf (unitName k) = b / unitDivisor k := by
    rw [factorOf_unitName k hk]; ring
  simp only [convertUnits, sanitizeUnit_unitName k hk, hmul, decimalPlaces_unitName k hk,
    toFixed]
  rw [if_neg (not_lt.mpr h0), if_neg (not_lt.mpr h1), if_neg]
  rintro (h | h)
  · exact absurd hx (not_le.mpr h)
  · exact absurd hx1 (not_le.mpr h)

theorem unitPrecision_ne_zero (k : ℕ) (hk : k < 6) : unitPrecision k ≠ 0 := by
  interval_cases k <;> simp [unitPrecision]

/-- C1: for finite `0 ≤ bits ≤ Number.MAX_SAFE_INTEGER` and the unit of index `k` among
B, KB, MB, GB, TB, PB, `convertUnits` returns the decimal string, with `d` fractional digits,
of the integer `n` nearest to `bits / (8 * 1024 ^ k) * 10 ^ d`: the string is the decimal
literal of value `n / 10 ^ d`, which is within `0.5 * 10 ^ (-d)` of `bits / (8 * 1024 ^ k)`, where `d` is
2, 2, 2, 3, 4, 6; and `convertUnits(8388608, 'MB')` is `'1.00'`. -/
theorem convertUnits_valid_unit (b : ℚ) (k : ℕ) (hk : k < 6) (h0 : 0 ≤ b)
    (h1 : b ≤ MAX_SAFE_INTEGER) :
    (convertUnits (.num (.fin b)) (.str (unitName k))
        = decimalString (nearestScaled (b / unitDivisor k) (unitPrecision k)) (unitPrecision k)
      ∧ decimalValue (convertUnits (.num (.fin b)) (.str (unitName k)))
        = .fin (((nearestScaled (b / unitDivisor k) (unitPrecision k) : ℕ) : ℚ)
            / 10 ^ unitPrecision k)
      ∧ |((nearestScaled (b / unitDivisor k) (unitPrecision k) : ℕ) : ℚ)
            / 10 ^ unitPrecision k - b / unitDivisor k| ≤ 1 / (2 * 10 ^ unitPrecision k))
    ∧ convertUnits (.num (.fin 8388608)) (.str "MB") = "1.00" := by
  have hd : (0 : ℚ) < unitDivisor k := by unfold unitDivisor; positivity
  have hx : 0 ≤ b / unitDivisor k := div_nonneg h0 hd.le
  have hconv := convertUnits_unitName b k hk h0 h1
  refine ⟨⟨hconv, ?_, nearestScaled_close _ _ hx⟩, convertUnits_MB_example⟩
  rw [hconv, decimalValue_decimalString _ _ (unitPrecision_ne_zero k hk)]

theorem convertUnits_valid_unit_witness :
    (0 : ℚ) ≤ 1000000 ∧ (1000000 : ℚ) ≤ MAX_SAFE_INTEGER
    ∧ convertUnits (.num (.fin 1000000)) (.str (unitName 3))
        = decimalString (nearestScaled (1000000 / unitDivisor 3) (unitPrecision 3))
            (unitPrecision 3)
    ∧ |((nearestScaled (1000000 / unitDivisor 3) (unitPrecision 3) : ℕ) : ℚ)
          / 10 ^ unitPrecision 3 - 1000000 / unitDivisor 3| ≤ 1 / (2 * 10 ^ unitPrecision 3) :=
  ⟨by norm_num, by unfold MAX_SAFE_INTEGER; norm_num,
    (convertUnits_valid_unit 1000000 3 (by decide) (by norm_num)
      (by unfold MAX_SAFE_INTEGER; norm_num)).1.1,
    (convertUnits_valid_unit 1000000 3 (by decide) (by norm_num)
      (by unfold MAX_SAFE_INTEGER; norm_num)).1.2.2⟩

/-- C2: when `bits` is not a number, is `NaN`, an infinity, negative, or above
`Number.MAX_SAFE_INTEGER`, then for every target unit `convertUnits` returns exactly
`'0.00'` and the monitor state after the call is the state before it. -/
theorem convertUnits_rejects (self : NetworkMonitor) (bits targetUnit : JSVal)
    (h : isRejectedBits bits) :
    self.convertUnits bits targetUnit = ("0.00", self) := by
  unfold NetworkMonitor.convertUnits
  congr 1
  cases bits with
  | num x =>
    cases x with
    | fin b =>
      simp only [isRejectedBits] at h
      unfold NetworkMonitorPro.convertUnits
      rcases h with h | h
      · simp [h]
      · simp [h]
    | _ => rfl
  | _ => rfl

theorem convertUnits_rejects_witness :
    isRejectedBits (.num (.fin (-5))) ∧
      NetworkMonitor.convertUnits
        { isMonitoring := true, monitoringMode := "chrome", dataUnits := "MB",
          updateIntervalMs := 200, colorTheme := "yellow",
          chromeData := ⟨.fin 0, .fin 0, .fin 0, 1⟩, deviceData := ⟨.fin 0, .fin 0, .fin 0, 1⟩,
          packetStats := PacketStats.zero, history := [], updateInterval := none,
          heartbeatInterval := none }
        (.num (.fin (-5))) (.str "GB")
      = ("0.00",
        { isMonitoring := true, monitoringMode := "chrome", dataUnits := "MB",
          updateIntervalMs := 200, colorTheme := "yellow",
          chromeData := ⟨.fin 0, .fin 0, .fin 0, 1⟩, deviceData := ⟨.fin 0, .fin 0, .fin 0, 1⟩,
          packetStats := PacketStats.zero, history := [], updateInterval := none,
          heartbeatInterval := none }) :=
  ⟨by simp [isRejectedBits], convertUnits_rejects _ _ _ (by simp [isRejectedBits])⟩

/-- C3: for finite `0 ≤ bits ≤ Number.MAX_SAFE_INTEGER` and every target unit that is none
of the six valid units (a string or any other value), `convertUnits` returns what it returns
for the default unit `'MB'`. -/
theorem convertUnits_unknown_unit_falls_back (b : ℚ) (targetUnit : JSVal) (_h0 : 0 ≤ b)
    (_h1 : b ≤ MAX_SAFE_INTEGER) (hu : isUnknownUnit targetUnit) :
    convertUnits (.num (.fin b)) targetUnit = convertUnits (.num (.fin b)) (.str "MB") := by
  have hMB : sanitizeUnit (.str "MB") = "MB" := by
    simp [sanitizeUnit, includesUnit, validUnits]
  simp only [convertUnits, sanitizeUnit_unknown targetUnit hu, hMB]

theorem convertUnits_unknown_unit_falls_back_witness :
    (0 : ℚ) ≤ 4096 ∧ (4096 : ℚ) ≤ MAX_SAFE_INTEGER ∧ isUnknownUnit (.str "XB") ∧
      convertUnits (.num (.fin 4096)) (.str "XB") = convertUnits (.num (.fin 4096)) (.str "MB") :=
  ⟨by norm_num, by unfold MAX_SAFE_INTEGER; norm_num,
    by simp [isUnknownUnit, validUnits],
    convertUnits_unknown_unit_falls_back 4096 (.str "XB") (by norm_num)
      (by unfold MAX_SAFE_INTEGER; norm_num) (by simp [isUnknownUnit, validUnits])⟩

/-- C4, as stated, fails: `'XB'` is not a valid unit and 8388608 is finite and non-negative,
yet `convertUnits(8388608, 'XB')` is `'1.00'`, not `'0.00'`. -/
theorem convertUnits_unknown_unit_not_zero :
    isUnknownUnit (.str "XB") ∧ (0 : ℚ) ≤ 8388608 ∧
      convertUnits (.num (.fin 8388608)) (.str "XB") = "1.00" ∧
      convertUnits (.num (.fin 8388608)) (.str "XB") ≠ "0.00" := by
  have h : convertUnits (.num (.fin 8388608)) (.str "XB") = "1.00" := by
    simp [convertUnits, MAX_SAFE_INTEGER, sanitizeUnit, includesUnit, validUnits, factorOf,
      conversionFactors, decimalPlaces, toFixed, nearestScaled]
    norm_num
    decide
  refine ⟨by simp [isUnknownUnit, validUnits], by norm_num, h, ?_⟩
  rw [h]
  decide

theorem decimalString_eq_zero_iff (n f : ℕ) (hf : f ≠ 0) :
    decimalString n f = decimalString 0 f ↔ n = 0 := by
  constructor
  · intro h
    have h2 := congrArg decimalValue h
    rw [decimalValue_decimalString n f hf, decimalValue_decimalString 0 f hf] at h2
    have h3 := JSNum.fin.inj h2
    have hp : (10 : ℚ) ^ f ≠ 0 := by positivity
    field_simp at h3
    exact_mod_cast h3
  · rintro rfl; rfl

theorem nearestScaled_eq_zero_iff (x : ℚ) (f : ℕ) :
    nearestScaled x f = 0 ↔ x * 10 ^ f < 1 / 2 := by
  unfold nearestScaled
  rw [Int.toNat_eq_zero, ← Int.lt_add_one_iff, Int.floor_lt]
  constructor
  · intro h; push_cast at h; linarith
  · intro h; push_cast; linarith

theorem convertToBytes_unitName (v : ℚ) (k : ℕ) (hk : k < 6) (hv : 0 ≤ v) :
    convertToBytes (.num (.fin v)) (.str (unitName k)) = v * 1024 ^ k := by
  have h1 : ¬ v < 0 := not_lt.mpr hv
  have hmax : ∀ y : ℚ, 0 ≤ y → max 0 y = y := fun y hy => max_eq_right hy
  interval_cases k
  all_goals simp only [convertToBytes, unitName, validUnits, h1, List.getD_cons_zero,
    List.getD_cons_succ, if_false]
  all_goals simp
  all_goals first | assumption | (rw [hmax _ (by positivity)]; ring)

/-- C4, amended: for finite `0 ≤ bits ≤ Number.MAX_SAFE_INTEGER` and a target unit that is
none of the six valid units, `convertUnits` returns the two-digit rendering of
`bits / (8 * 1024 ^ 2)`, the value in the default unit MB; that string is `'0.00'` exactly
when `bits < 41943.04`, that is when the MB value rounds to zero. -/
theorem convertUnits_unknown_unit_is_MB (b : ℚ) (targetUnit : JSVal) (h0 : 0 ≤ b)
    (h1 : b ≤ MAX_SAFE_INTEGER) (hu : isUnknownUnit targetUnit) :
    convertUnits (.num (.fin b)) targetUnit
        = decimalString (nearestScaled (b / (8 * 1024 ^ 2)) 2) 2
      ∧ (convertUnits (.num (.fin b)) targetUnit = "0.00" ↔ b * 200 < 8 * 1024 ^ 2) := by
  have hx : 0 ≤ b / (8 * 1024 ^ 2) := by positivity
  have hx1 : b / (8 * 1024 ^ 2) ≤ MAX_SAFE_INTEGER :=
    le_trans (div_le_self h0 (by norm_num)) h1
  have hf : factorOf "MB" = 1 / (8 * 1024 ^ 2) := by
    simp [factorOf, conversionFactors]; norm_num
  have hd : decimalPlaces "MB" = 2 := by simp [decimalPlaces]
  have hmul : b * factorOf "MB" = b / (8 * 1024 ^ 2) := by rw [hf]; ring
  have key : convertUnits (.num (.fin b)) targetUnit
      = decimalString (nearestScaled (b / (8 * 1024 ^ 2)) 2) 2 := by
    simp only [convertUnits, sanitizeUnit_unknown targetUnit hu, hmul, hd, toFixed]
    rw [if_neg (not_lt.mpr h0), if_neg (not_lt.mpr h1), if_neg]
    rintro (h | h)
    · exact absurd hx (not_le.mpr h)
    · exact absurd hx1 (not_le.mpr h)
  refine ⟨key, ?_⟩
  rw [key]
  have hz : ("0.00" : String) = decimalString 0 2 := by decide
  rw [hz, decimalString_eq_zero_iff _ 2 (by decide), nearestScaled_eq_zero_iff]
  constructor
  · intro h
    have : b / (8 * 1024 ^ 2) * 10 ^ 2 = b * 200 / (8 * 1024 ^ 2) / 2 := by ring
    rw [this] at h
    have h5 : b * 200 / (8 * 1024 ^ 2) < 1 := by linarith
    rwa [div_lt_one (by norm_num)] at h5
  · intro h
    have : b / (8 * 1024 ^ 2) * 10 ^ 2 = b * 200 / (8 * 1024 ^ 2) / 2 := by ring
    rw [this]
    have h5 : b * 200 / (8 * 1024 ^ 2) < 1 := by rwa [div_lt_one (by norm_num)]
    linarith

theorem convertUnits_unknown_unit_is_MB_witness :
    (0 : ℚ) ≤ 4096 ∧ (4096 : ℚ) ≤ MAX_SAFE_INTEGER ∧ isUnknownUnit (.bool true) ∧
      (convertUnits (.num (.fin 4096)) (.bool true)
          = decimalString (nearestScaled (4096 / (8 * 1024 ^ 2)) 2) 2
        ∧ (convertUnits (.num (.fin 4096)) (.bool true) = "0.00"
            ↔ (4096 : ℚ) * 200 < 8 * 1024 ^ 2)) :=
  ⟨by norm_num, by unfold MAX_SAFE_INTEGER; norm_num, by simp [isUnknownUnit],
    convertUnits_unknown_unit_is_MB 4096 (.bool true) (by norm_num)
      (by unfold MAX_SAFE_INTEGER; norm_num) (by simp [isUnknownUnit])⟩

/-! ### Round trip through the popup's inverse -/

theorem displayedValue_close (b : ℚ) (k : ℕ) (h0 : 0 ≤ b) :
    |displayedValue b k - b / unitDivisor k| ≤ 1 / (2 * 10 ^ unitPrecision k) := by
  have hd : (0 : ℚ) < unitDivisor k := by unfold unitDivisor; positivity
  exact nearestScaled_close _ _ (div_nonneg h0 hd.le)

theorem displayedValue_bounds (b : ℚ) (k : ℕ) (hk : k < 6) (h0 : 0 ≤ b)
    (h1 : b ≤ MAX_SAFE_INTEGER) :
    0 ≤ displayedValue b k ∧ displayedValue b k ≤ 2 ^ (1022 : ℤ)
    ∧ (displayedValue b k ≠ 0 → (2 : ℚ) ^ (-1022 : ℤ) ≤ displayedValue b k) := by
  have hd : (0 : ℚ) < unitDivisor k := by unfold unitDivisor; positivity
  have hd1 : (1 : ℚ) ≤ unitDivisor k := by
    unfold unitDivisor
    have : (1 : ℚ) ≤ 1024 ^ k := one_le_pow₀ (by norm_num)
    linarith
  have hx1 : b / unitDivisor k ≤ MAX_SAFE_INTEGER := le_trans (div_le_self h0 hd1) h1
  have hclose := displayedValue_close b k h0
  have hp : (0 : ℚ) < 10 ^ unitPrecision k := by positivity
  have hp1 : (1 : ℚ) ≤ 10 ^ unitPrecision k := one_le_pow₀ (by norm_num)
  have hp6 : (10 : ℚ) ^ unitPrecision k ≤ 10 ^ 6 := by
    apply pow_le_pow_right₀ (by norm_num)
    interval_cases k <;> simp [unitPrecision]
  have hnn : 0 ≤ displayedValue b k := by unfold displayedValue; positivity
  refine ⟨hnn, ?_, ?_⟩
  · have hhalf : 1 / (2 * (10 : ℚ) ^ unitPrecision k) ≤ 1 / 2 := by
      rw [div_le_div_iff₀ (by positivity) (by norm_num)]
      linarith
    rw [abs_le] at hclose
    have h2 : displayedValue b k ≤ MAX_SAFE_INTEGER + 1 / 2 := by linarith
    have h3 : (MAX_SAFE_INTEGER : ℚ) + 1 / 2 ≤ 2 ^ (1022 : ℤ) := by
      unfold MAX_SAFE_INTEGER
      norm_num
    linarith
  · intro hne
    unfold displayedValue at hne ⊢
    have hn : nearestScaled (b / unitDivisor k) (unitPrecision k) ≠ 0 := by
      intro h
      apply hne
      rw [h]
      simp
    have hn1 : (1 : ℚ) ≤ (nearestScaled (b / unitDivisor k) (unitPrecision k) : ℕ) := by
      exact_mod_cast Nat.one_le_iff_ne_zero.mpr hn
    have h4 : (1 : ℚ) / 10 ^ 6 ≤ (nearestScaled (b / unitDivisor k) (unitPrecision k) : ℕ)
        / 10 ^ unitPrecision k := by
      rw [div_le_div_iff₀ (by positivity) hp]
      nlinarith
    have h5 : (2 : ℚ) ^ (-1022 : ℤ) ≤ 1 / 10 ^ 6 := by
      have h6 : (2 : ℚ) ^ (-1022 : ℤ) ≤ 2 ^ (-20 : ℤ) := zpow_le_zpow_right₀ (by norm_num) (by norm_num)
      have h7 : (2 : ℚ) ^ (-20 : ℤ) ≤ 1 / 10 ^ 6 := by norm_num
      linarith
    linarith

theorem parseFloat_convertUnits (b : ℚ) (k : ℕ) (hk : k < 6) (h0 : 0 ≤ b)
    (h1 : b ≤ MAX_SAFE_INTEGER) :
    parseFloat (convertUnits (.num (.fin b)) (.str (unitName k)))
      = roundToDouble (displayedValue b k) := by
  unfold parseFloat
  rw [convertUnits_unitName b k hk h0 h1,
    decimalValue_decimalString _ _ (unitPrecision_ne_zero k hk)]
  rfl

theorem parseFloat_convertUnits_close (b : ℚ) (k : ℕ) (hk : k < 6) (h0 : 0 ≤ b)
    (h1 : b ≤ MAX_SAFE_INTEGER) :
    ∃ r : ℚ, parseFloat (convertUnits (.num (.fin b)) (.str (unitName k))) = .fin r ∧ 0 ≤ r
      ∧ |r - displayedValue b k| ≤ displayedValue b k / 2 ^ 53 := by
  obtain ⟨hnn, hle, hge⟩ := displayedValue_bounds b k hk h0 h1
  rw [parseFloat_convertUnits b k hk h0 h1]
  by_cases hz : displayedValue b k = 0
  · rw [hz]
    exact ⟨0, by simp [roundToDouble], le_rfl, by simp⟩
  · have habs : |displayedValue b k| = displayedValue b k := abs_of_nonneg hnn
    obtain ⟨r, hr, hc, hs⟩ := roundToDouble_close (displayedValue b k)
      (by rw [habs]; exact hge hz) (by rw [habs]; exact hle)
    rw [habs] at hc
    exact ⟨r, hr, hs hnn, hc⟩

/-- C5, as stated, fails, in two ways.  For 8388608 bits in MB the displayed value is
`'1.00'`, and `convertToBytes(parseFloat('1.00'), 'MB')` is 1048576, the number of bytes; it
differs from the 8388608 bits by far more than `0.5 * 10 ^ (-2) * 8 * 1024 ^ 2`.  For 1 bit in
B the displayed value is `'0.13'`, which `parseFloat` reads as the double
`4683743612465316 / 2 ^ 55`, a little above 0.13: `convertToBytes` returns that double, and
neither it nor eight times it is within the rounding precision of the unit (0.005 bytes,
0.04 bits) of the 1/8 byte, that is 1 bit, converted. -/
theorem convertToBytes_roundTrip_not_bits :
    (convertToBytes (.num (parseFloat (convertUnits (.num (.fin 8388608)) (.str (unitName 2)))))
        (.str (unitName 2)) = 1048576
      ∧ ¬ |convertToBytes
            (.num (parseFloat (convertUnits (.num (.fin 8388608)) (.str (unitName 2)))))
            (.str (unitName 2)) - 8388608|
          ≤ 1 / (2 * 10 ^ unitPrecision 2) * unitDivisor 2)
    ∧ (convertUnits (.num (.fin 1)) (.str (unitName 0)) = "0.13"
      ∧ parseFloat "0.13" = .fin (4683743612465316 / 2 ^ 55)
      ∧ convertToBytes (.num (parseFloat (convertUnits (.num (.fin 1)) (.str (unitName 0)))))
          (.str (unitName 0)) = 4683743612465316 / 2 ^ 55
      ∧ ¬ |convertToBytes (.num (parseFloat (convertUnits (.num (.fin 1)) (.str (unitName 0)))))
            (.str (unitName 0)) - 1 / 8|
          ≤ 1 / (2 * 10 ^ unitPrecision 0) * 1024 ^ 0
      ∧ ¬ |8 * convertToBytes
            (.num (parseFloat (convertUnits (.num (.fin 1)) (.str (unitName 0)))))
            (.str (unitName 0)) - 1|
          ≤ 1 / (2 * 10 ^ unitPrecision 0) * unitDivisor 0) := by
  have hM : (8388608 : ℚ) ≤ MAX_SAFE_INTEGER := by unfold MAX_SAFE_INTEGER; norm_num
  have h1M : (1 : ℚ) ≤ MAX_SAFE_INTEGER := by unfold MAX_SAFE_INTEGER; norm_num
  have d2 : displayedValue 8388608 2 = 1 := by
    have hn : nearestScaled ((8388608 : ℚ) / unitDivisor 2) (unitPrecision 2) = 100 := by
      simp [nearestScaled, unitDivisor, unitPrecision]
      norm_num
      rfl
    unfold displayedValue
    rw [hn]
    simp [unitPrecision]
    norm_num
  have d0 : displayedValue 1 0 = 13 / 100 := by
    have hn : nearestScaled ((1 : ℚ) / unitDivisor 0) (unitPrecision 0) = 13 := by
      simp [nearestScaled, unitDivisor, unitPrecision]
      norm_num
      rfl
    unfold displayedValue
    rw [hn]
    simp [unitPrecision]
    norm_num
  have r1 : roundToDouble (1 : ℚ) = .fin 1 := by
    have := roundToDouble_intCast 1 (by norm_num)
    simpa using this
  have r13 : roundToDouble (13 / 100 : ℚ) = .fin (4683743612465316 / 2 ^ 55) := by
    have hm : roundHalfEven ((13 / 100 : ℚ) / 2 ^ ((-3 : ℤ) - 52)) = 4683743612465316 := by
      apply roundHalfEven_of_lt
      norm_num [abs_lt]
    have := roundToDouble_eq (13 / 100) (-3) 4683743612465316 (by norm_num) (by norm_num)
      (by norm_num [abs_of_pos]) (by norm_num [abs_of_pos]) hm (by norm_num)
    rw [this]
    congr 1
    norm_num
  have v2 : convertToBytes
      (.num (parseFloat (convertUnits (.num (.fin 8388608)) (.str (unitName 2)))))
      (.str (unitName 2)) = 1048576 := by
    rw [parseFloat_convertUnits 8388608 2 (by decide) (by norm_num) hM, d2, r1,
      convertToBytes_unitName _ 2 (by decide) (by norm_num)]
    norm_num
  have s13 : convertUnits (.num (.fin 1)) (.str (unitName 0)) = "0.13" := by
    simp [convertUnits, MAX_SAFE_INTEGER, sanitizeUnit, includesUnit, validUnits, factorOf,
      conversionFactors, decimalPlaces, toFixed, nearestScaled, unitName]
    norm_num
    decide
  have p13 : parseFloat "0.13" = .fin (4683743612465316 / 2 ^ 55) := by
    rw [← s13, parseFloat_convertUnits 1 0 (by decide) (by norm_num) h1M, d0, r13]
  have v0 : convertToBytes
      (.num (parseFloat (convertUnits (.num (.fin 1)) (.str (unitName 0)))))
      (.str (unitName 0)) = 4683743612465316 / 2 ^ 55 := by
    rw [s13, p13, convertToBytes_unitName _ 0 (by decide) (by norm_num)]
    norm_num
  refine ⟨⟨v2, ?_⟩, s13, p13, v0, ?_, ?_⟩
  · rw [v2]
    simp [unitPrecision, unitDivisor]
    norm_num [abs_lt]
  · rw [v0]
    intro h
    have h2 := (abs_le.mp h).2
    simp [unitPrecision] at h2
    norm_num at h2
  · rw [v0]
    intro h
    have h2 := (abs_le.mp h).2
    simp [unitPrecision, unitDivisor] at h2
    norm_num at h2

/-- C5, amended: for finite `0 ≤ bits ≤ Number.MAX_SAFE_INTEGER` and the valid unit of index
`k` with precision `d`, `convertToBytes(parseFloat(convertUnits(bits, u)), u)` recovers the
byte count `bits / 8`: it differs from `bits / 8` by at most
`(0.5 * 10 ^ (-d) + v * 2 ^ (-53)) * 1024 ^ k`, where `v` is the displayed value, itself
within `0.5 * 10 ^ (-d)` of `bits / (8 * 1024 ^ k)`; the first term is the rounding precision of
the unit and the second the rounding of `parseFloat` to a double.  Equivalently, eight times
the result differs from `bits` by at most `(0.5 * 10 ^ (-d) + v * 2 ^ (-53)) * 8 * 1024 ^ k`. -/
theorem convertToBytes_roundTrip_bytes (b : ℚ) (k : ℕ) (hk : k < 6) (h0 : 0 ≤ b)
    (h1 : b ≤ MAX_SAFE_INTEGER) :
    |convertToBytes (.num (parseFloat (convertUnits (.num (.fin b)) (.str (unitName k)))))
        (.str (unitName k)) - b / 8|
      ≤ (1 / (2 * 10 ^ unitPrecision k) + displayedValue b k / 2 ^ 53) * 1024 ^ k
    ∧ |8 * convertToBytes
          (.num (parseFloat (convertUnits (.num (.fin b)) (.str (unitName k)))))
          (.str (unitName k)) - b|
      ≤ (1 / (2 * 10 ^ unitPrecision k) + displayedValue b k / 2 ^ 53) * unitDivisor k
    ∧ |displayedValue b k - b / unitDivisor k| ≤ 1 / (2 * 10 ^ unitPrecision k) := by
  have hd : (0 : ℚ) < unitDivisor k := by unfold unitDivisor; positivity
  have hp : (0 : ℚ) < 1024 ^ k := by positivity
  have hclose := displayedValue_close b k h0
  obtain ⟨r, hr, hr0, hrc⟩ := parseFloat_convertUnits_close b k hk h0 h1
  rw [hr, convertToBytes_unitName r k hk hr0]
  have htri : |r - b / unitDivisor k|
      ≤ 1 / (2 * 10 ^ unitPrecision k) + displayedValue b k / 2 ^ 53 := by
    have := abs_sub_le r (displayedValue b k) (b / unitDivisor k)
    linarith
  have e1 : r * 1024 ^ k - b / 8 = (r - b / unitDivisor k) * 1024 ^ k := by
    unfold unitDivisor
    field_simp
    ring
  have e2 : 8 * (r * 1024 ^ k) - b = (r - b / unitDivisor k) * unitDivisor k := by
    unfold unitDivisor
    field_simp
    ring
  refine ⟨?_, ?_, hclose⟩
  · rw [e1, abs_mul, abs_of_pos hp]
    exact mul_le_mul_of_nonneg_right htri hp.le
  · rw [e2, abs_mul, abs_of_pos hd]
    exact mul_le_mul_of_nonneg_right htri hd.le

theorem convertToBytes_roundTrip_bytes_witness :
    (0 : ℚ) ≤ 1 ∧ (1 : ℚ) ≤ MAX_SAFE_INTEGER ∧
    (|convertToBytes (.num (parseFloat (convertUnits (.num (.fin 1)) (.str (unitName 0)))))
        (.str (unitName 0)) - 1 / 8|
      ≤ (1 / (2 * 10 ^ unitPrecision 0) + displayedValue 1 0 / 2 ^ 53) * 1024 ^ 0
    ∧ |8 * convertToBytes
          (.num (parseFloat (convertUnits (.num (.fin 1)) (.str (unitName 0)))))
          (.str (unitName 0)) - 1|
      ≤ (1 / (2 * 10 ^ unitPrecision 0) + displayedValue 1 0 / 2 ^ 53) * unitDivisor 0
    ∧ |displayedValue 1 0 - 1 / unitDivisor 0| ≤ 1 / (2 * 10 ^ unitPrecision 0)) :=
  ⟨by norm_num, by unfold MAX_SAFE_INTEGER; norm_num,
    convertToBytes_roundTrip_bytes 1 0 (by decide) (by norm_num)
      (by unfold MAX_SAFE_INTEGER; norm_num)⟩

/-! ### The size estimator -/

theorem headerStep_toJS (t s : ℚ) (h : WFHeader) (hb : t + (h.size : ℚ) ≤ MAX_SAFE_SIZE)
    (ht : 0 ≤ t) : headerStep t s h.toJS = s + h.size := by
  have h1 : (jsLength h.name : ℚ) ≤ MAX_SAFE_SIZE := by
    have : ((h.size : ℕ) : ℚ) = jsLength h.name + jsLength h.value := by
      simp [WFHeader.size]
    have h3 : (0 : ℚ) ≤ jsLength h.value := Nat.cast_nonneg _
    linarith
  have h2 : (jsLength h.value : ℚ) ≤ MAX_SAFE_SIZE := by
    have : ((h.size : ℕ) : ℚ) = jsLength h.name + jsLength h.value := by
      simp [WFHeader.size]
    have h3 : (0 : ℚ) ≤ jsLength h.name := Nat.cast_nonneg _
    linarith
  have h4 : ¬ (t + ((jsLength h.name : ℚ) + jsLength h.value) > MAX_SAFE_SIZE) := by
    have : ((h.size : ℕ) : ℚ) = jsLength h.name + jsLength h.value := by
      simp [WFHeader.size]
    rw [← this]; exact not_lt.mpr hb
  have g1 : h.toJS.get "name" = .str h.name := rfl
  have g2 : h.toJS.get "value" = .str h.value := rfl
  have g3 : h.toJS.truthy = true := rfl
  have g4 : h.toJS.typeofObject = true := rfl
  simp only [headerStep, g1, g2, g3, g4, stringLengthOrZero]
  simp [not_lt.mpr h1, not_lt.mpr h2, h4, WFHeader.size]

theorem foldl_headerStep_toJS (t : ℚ) (ht : 0 ≤ t) (hs : List WFHeader) (s : ℚ)
    (hb : ∀ h ∈ hs, t + (h.size : ℚ) ≤ MAX_SAFE_SIZE) :
    (hs.map WFHeader.toJS).foldl (headerStep t) s = s + ((hs.map WFHeader.size).sum : ℕ) := by
  induction hs generalizing s with
  | nil => simp
  | cons h hs ih =>
    simp only [List.map_cons, List.foldl_cons, List.sum_cons]
    rw [headerStep_toJS t s h (hb h (by simp)) ht, ih _ (fun x hx => hb x (by simp [hx]))]
    push_cast
    ring

theorem rawStep_toJS (t s : ℚ) (u : UploadData) (hb : t + (u.size : ℚ) ≤ MAX_SAFE_SIZE)
    (ht : 0 ≤ t) : rawStep t s u.toJS = s + u.size := by
  cases u with
  | bytes n =>
    have hn : ¬ ((n : ℚ) > MAX_SAFE_SIZE) := by
      simp only [UploadData.size] at hb
      exact not_lt.mpr (by linarith)
    have hn0 : ¬ ((n : ℚ) < 0) := not_lt.mpr (Nat.cast_nonneg n)
    have h4 : ¬ (t + (n : ℚ) > MAX_SAFE_SIZE) := not_lt.mpr hb
    have g1 : (UploadData.bytes n).toJS.get "bytes" = .obj [("byteLength", .num (.fin n))] := rfl
    have g2 : (JSVal.obj [("byteLength", .num (.fin n))]).get "byteLength" = .num (.fin n) := rfl
    have g3 : (UploadData.bytes n).toJS.truthy = true := rfl
    have g4 : (UploadData.bytes n).toJS.typeofObject = true := rfl
    have hbl : byteLengthOf (UploadData.bytes n).toJS = .num (.fin n) := by
      simp only [byteLengthOf, g1, g2]
      by_cases hz : (n : ℚ) = 0
      · simp [JSVal.truthy, hz]
      · simp [JSVal.truthy, hz]
    simp only [rawStep, g3, g4, hbl]
    simp [hn, hn0, h4, UploadData.size]
  | file p =>
    have h0 : ¬ ((0 : ℚ) > MAX_SAFE_SIZE) := by unfold MAX_SAFE_SIZE MAX_SAFE_INTEGER; norm_num
    have h4 : ¬ (t > MAX_SAFE_SIZE) := by
      simp only [UploadData.size] at hb
      exact not_lt.mpr (by simpa using hb)
    have g1 : (UploadData.file p).toJS.get "bytes" = .undefined := rfl
    have g3 : (UploadData.file p).toJS.truthy = true := rfl
    have g4 : (UploadData.file p).toJS.typeofObject = true := rfl
    have hbl : byteLengthOf (UploadData.file p).toJS = .num (.fin 0) := by
      simp only [byteLengthOf, g1]
      simp [JSVal.truthy]
    simp only [rawStep, g3, g4, hbl]
    simp [h0, h4, UploadData.size]

theorem foldl_rawStep_toJS (t : ℚ) (ht : 0 ≤ t) (segs : List UploadData) (s : ℚ)
    (hb : ∀ u ∈ segs, t + (u.size : ℚ) ≤ MAX_SAFE_SIZE) :
    (segs.map UploadData.toJS).foldl (rawStep t) s = s + ((segs.map UploadData.size).sum : ℕ) := by
  induction segs generalizing s with
  | nil => simp
  | cons u us ih =>
    simp only [List.map_cons, List.foldl_cons, List.sum_cons]
    rw [rawStep_toJS t s u (hb u (by simp)) ht, ih _ (fun x hx => hb x (by simp [hx]))]
    push_cast
    ring

theorem MAX_SAFE_SIZE_pos : (0 : ℚ) < MAX_SAFE_SIZE := by
  unfold MAX_SAFE_SIZE MAX_SAFE_INTEGER; norm_num

theorem finalCheck_eq (T : ℚ) (h0 : 0 ≤ T) :
    (if T > MAX_SAFE_SIZE then (0 : ℚ)
      else if T * 8 < 0 ∨ T * 8 > MAX_SAFE_INTEGER then 0 else T * 8)
      = if T > MAX_SAFE_SIZE then 0 else 8 * T := by
  by_cases h : T > MAX_SAFE_SIZE
  · simp [h]
  · have h1 : ¬ (T * 8 < 0) := not_lt.mpr (by positivity)
    have h2 : ¬ (T * 8 > MAX_SAFE_INTEGER) := by
      unfold MAX_SAFE_SIZE at h
      have := not_lt.mp h
      exact not_lt.mpr (by linarith)
    rw [if_neg h, if_neg h, if_neg (by tauto)]
    ring

theorem headerTotal_toJS (r : WFRequest)
    (hH : ∀ hs, r.headers = some hs → ∀ h ∈ hs, ((h.size : ℕ) : ℚ) ≤ MAX_SAFE_SIZE) :
    (if (r.toJS.get "headers").truthy && (r.toJS.get "headers").isArray then
        (0 : ℚ) + (r.toJS.get "headers").items.foldl (headerStep 0) 0
      else 0) = (headerBytes r : ℚ) := by
  have g : r.toJS.get "headers" = optJS (fun hs => .arr (hs.map WFHeader.toJS)) r.headers := rfl
  rw [g]
  cases hh : r.headers with
  | none => simp [optJS, JSVal.truthy, headerBytes, hh]
  | some hs =>
    simp only [optJS, JSVal.truthy, JSVal.isArray, JSVal.items, Bool.and_self, if_true]
    rw [foldl_headerStep_toJS 0 le_rfl hs 0 (fun h hm => by simpa using hH hs hh h hm)]
    simp [headerBytes, hh]

theorem bodyBlock_toJS (jsonStringify : JSVal → Option String) (r : WFRequest)
    (hB : ∀ b segs, r.body = some b → b.raw = some segs →
      ∀ u ∈ segs, (headerBytes r : ℚ) + (u.size : ℚ) ≤ MAX_SAFE_SIZE)
    (hF : ∀ b, r.body = some b → b.raw = none →
      (bodyBytes jsonStringify r : ℚ) ≤ MAX_SAFE_SIZE) :
    bodyBlock jsonStringify (headerBytes r) (r.toJS.get "body")
      = .continues ((headerBytes r : ℚ) + (bodyBytes jsonStringify r : ℚ)) := by
  have g : r.toJS.get "body" = optJS WFBody.toJS r.body := rfl
  rw [g]
  cases hb : r.body with
  | none => simp [optJS, bodyBlock, JSVal.truthy, bodyBytes, hb]
  | some b =>
    have g1 : b.toJS.get "raw" = optJS (fun segs => .arr (segs.map UploadData.toJS)) b.raw := rfl
    have g2 : b.toJS.get "formData" = optJS formDataToJS b.formData := rfl
    have g3 : b.toJS.get "text" = optJS .str b.text := rfl
    have g4 : b.toJS.truthy = true := rfl
    have g5 : b.toJS.typeofObject = true := rfl
    simp only [optJS, bodyBlock, g1, g2, g3, g4, g5, Bool.and_self, if_true]
    have u1 : JSVal.undefined.truthy = false := rfl
    have a1 : ∀ l, (JSVal.arr l).truthy = true := fun _ => rfl
    have a2 : ∀ l, (JSVal.arr l).isArray = true := fun _ => rfl
    cases hraw : b.raw with
    | some segs =>
      simp only [optJS, a1, a2, JSVal.items, Bool.and_self, if_true]
      rw [foldl_rawStep_toJS _ (Nat.cast_nonneg _) segs 0 (hB b segs hb hraw)]
      simp [bodyBytes, hb, hraw]
    | none =>
      have hF' := hF b hb hraw
      simp only [optJS, u1, Bool.false_and, Bool.false_eq_true, if_false]
      cases hfd : b.formData with
      | some fd =>
        have t1 : (formDataToJS fd).truthy = true := rfl
        have t2 : (formDataToJS fd).typeofObject = true := rfl
        simp only [optJS, t1, t2, Bool.and_self, if_true]
        cases hs : jsonStringify (formDataToJS fd) with
        | none => simp [bodyBytes, hb, hraw, hfd, hs]
        | some s =>
          have hv : bodyBytes jsonStringify r = jsLength s := by
            simp [bodyBytes, hb, hraw, hfd, hs]
          rw [hv] at hF'
          simp [not_lt.mpr hF', hv]
      | none =>
        simp only [optJS, u1, Bool.false_and, Bool.false_eq_true, if_false]
        cases ht : b.text with
        | none => simp [optJS, bodyBytes, hb, hraw, hfd, ht]
        | some t =>
          simp only [optJS]
          by_cases hne : t = ""
          · simp [bodyBytes, hb, hraw, hfd, ht, hne]
          · have hv : bodyBytes jsonStringify r = t.utf8ByteSize := by
              simp [bodyBytes, hb, hraw, hfd, ht, hne]
            rw [hv] at hF'
            simp [hne, not_lt.mpr hF', hv]

theorem calculatePreciseSize_toJS (jsonStringify : JSVal → Option String) (r : WFRequest)
    (hH : ∀ hs, r.headers = some hs → ∀ h ∈ hs, ((h.size : ℕ) : ℚ) ≤ MAX_SAFE_SIZE)
    (hB : ∀ b segs, r.body = some b → b.raw = some segs →
      ∀ u ∈ segs, (headerBytes r : ℚ) + (u.size : ℚ) ≤ MAX_SAFE_SIZE)
    (hF : ∀ b, r.body = some b → b.raw = none →
      (bodyBytes jsonStringify r : ℚ) ≤ MAX_SAFE_SIZE) :
    calculatePreciseSize jsonStringify r.toJS
      = if (headerBytes r : ℚ) + (bodyBytes jsonStringify r : ℚ) > MAX_SAFE_SIZE then 0
        else 8 * ((headerBytes r : ℚ) + (bodyBytes jsonStringify r : ℚ)) := by
  have t1 : r.toJS.truthy = true := rfl
  have t2 : r.toJS.typeofObject = true := rfl
  have t3 : r.toJS.isArray = false := rfl
  unfold calculatePreciseSize
  simp only [t1, t2, t3, Bool.not_true, Bool.or_self, Bool.false_eq_true, if_false]
  rw [headerTotal_toJS r hH, bodyBlock_toJS jsonStringify r hB hF]
  exact finalCheck_eq _ (by positivity)

theorem size_le_sum_map {α : Type} (f : α → ℕ) (l : List α) (x : α) (hx : x ∈ l) :
    f x ≤ (l.map f).sum :=
  List.single_le_sum (fun _ _ => Nat.zero_le _) (f x) (List.mem_map_of_mem f hx)

/-- C7: for a well-formed request whose byte total `H + B` is at most
`Number.MAX_SAFE_INTEGER / 8`, `calculatePreciseSize` returns `8 * (H + B)`, with `H` the sum
over the headers of `name.length + value.length` and `B` the raw byte lengths when `body.raw`
is an array, otherwise the length of the serialized form data, otherwise the UTF-8 length of
a non-empty text, otherwise 0; when `body.raw` is present the result is `8 * (H + raw bytes)`
whatever `formData` and `text` hold. -/
theorem calculatePreciseSize_wellFormed (jsonStringify : JSVal → Option String) (r : WFRequest)
    (hle : ((headerBytes r + bodyBytes jsonStringify r : ℕ) : ℚ) ≤ MAX_SAFE_SIZE) :
    calculatePreciseSize jsonStringify r.toJS
        = 8 * ((headerBytes r + bodyBytes jsonStringify r : ℕ) : ℚ)
    ∧ ∀ b segs, r.body = some b → b.raw = some segs →
        calculatePreciseSize jsonStringify r.toJS
          = 8 * ((headerBytes r + (segs.map UploadData.size).sum : ℕ) : ℚ) := by
  have hle' : (headerBytes r : ℚ) + (bodyBytes jsonStringify r : ℚ) ≤ MAX_SAFE_SIZE := by
    exact_mod_cast hle
  have hB0 : (0 : ℚ) ≤ bodyBytes jsonStringify r := Nat.cast_nonneg _
  have hH0 : (0 : ℚ) ≤ headerBytes r := Nat.cast_nonneg _
  have key : calculatePreciseSize jsonStringify r.toJS
      = 8 * ((headerBytes r + bodyBytes jsonStringify r : ℕ) : ℚ) := by
    rw [calculatePreciseSize_toJS jsonStringify r, if_neg (not_lt.mpr hle')]
    · push_cast; ring
    · intro hs hh h hm
      have h1 : h.size ≤ headerBytes r := by
        simp only [headerBytes, hh]
        exact size_le_sum_map WFHeader.size hs h hm
      have h2 : ((h.size : ℕ) : ℚ) ≤ headerBytes r := by exact_mod_cast h1
      linarith
    · intro b segs hb hraw u hu
      have h1 : u.size ≤ bodyBytes jsonStringify r := by
        simp only [bodyBytes, hb, hraw]
        exact size_le_sum_map UploadData.size segs u hu
      have h2 : ((u.size : ℕ) : ℚ) ≤ bodyBytes jsonStringify r := by exact_mod_cast h1
      linarith
    · intro b _ _
      linarith
  refine ⟨key, ?_⟩
  intro b segs hb hraw
  rw [key]
  simp [bodyBytes, hb, hraw]

theorem IsNatural.add {a b : ℚ} (ha : IsNatural a) (hb : IsNatural b) : IsNatural (a + b) := by
  obtain ⟨m, rfl⟩ := ha
  obtain ⟨n, rfl⟩ := hb
  exact ⟨m + n, by push_cast; ring⟩

theorem IsNatural.nonneg {a : ℚ} (ha : IsNatural a) : 0 ≤ a := by
  obtain ⟨m, rfl⟩ := ha
  exact Nat.cast_nonneg m

theorem isNatural_zero : IsNatural 0 := ⟨0, by simp⟩

theorem isNatural_of_int_nonneg (q : ℚ) (z : ℤ) (h : q = z) (h0 : 0 ≤ q) : IsNatural q := by
  subst h
  have hz : 0 ≤ z := by exact_mod_cast h0
  exact ⟨z.toNat, by
    have := Int.toNat_of_nonneg hz
    exact_mod_cast this.symm⟩

theorem stringLengthOrZero_natural (v : JSVal) : IsNatural (stringLengthOrZero v) := by
  cases v <;> simp only [stringLengthOrZero]
  all_goals first | exact isNatural_zero | exact ⟨_, rfl⟩

theorem headerStep_natural (t s : ℚ) (h : JSVal) (hs : IsNatural s) :
    IsNatural (headerStep t s h) := by
  unfold headerStep
  split
  · exact hs
  · simp only []
    split
    · exact hs
    · split
      · exact hs
      · exact hs.add ((stringLengthOrZero_natural _).add (stringLengthOrZero_natural _))

theorem foldl_headerStep_natural (t : ℚ) (hs : List JSVal) (s : ℚ) (h : IsNatural s) :
    IsNatural (hs.foldl (headerStep t) s) := by
  induction hs generalizing s with
  | nil => exact h
  | cons x xs ih => exact ih _ (headerStep_natural t s x h)

theorem rawStep_nonneg (t s : ℚ) (item : JSVal) (hs : 0 ≤ s) : 0 ≤ rawStep t s item := by
  unfold rawStep
  split
  · exact hs
  · split
    · rename_i q hq
      split
      · exact hs
      · rename_i hneg
        split
        · exact hs
        · have : 0 ≤ q := by
            by_contra hc
            exact hneg (Or.inl (not_le.mp hc))
          linarith
    · exact hs

theorem foldl_rawStep_nonneg (t : ℚ) (items : List JSVal) (s : ℚ) (h : 0 ≤ s) :
    0 ≤ items.foldl (rawStep t) s := by
  induction items generalizing s with
  | nil => exact h
  | cons x xs ih => exact ih _ (rawStep_nonneg t s x h)

theorem rawStep_natural (t s : ℚ) (item : JSVal) (hs : IsNatural s)
    (hi : ∀ q : ℚ, byteLengthOf item = .num (.fin q) → ∃ z : ℤ, q = z) :
    IsNatural (rawStep t s item) := by
  unfold rawStep
  split
  · exact hs
  · split
    · rename_i q hq
      split
      · exact hs
      · rename_i hneg
        split
        · exact hs
        · have h0 : 0 ≤ q := by
            by_contra hc
            exact hneg (Or.inl (not_le.mp hc))
          obtain ⟨z, hz⟩ := hi q hq
          exact hs.add (isNatural_of_int_nonneg q z hz h0)
    · exact hs

theorem foldl_rawStep_natural (t : ℚ) (items : List JSVal) (s : ℚ) (h : IsNatural s)
    (hi : ∀ item ∈ items, ∀ q : ℚ, byteLengthOf item = .num (.fin q) → ∃ z : ℤ, q = z) :
    IsNatural (items.foldl (rawStep t) s) := by
  induction items generalizing s with
  | nil => exact h
  | cons x xs ih =>
    exact ih _ (rawStep_natural t s x h (hi x (by simp))) (fun i hm => hi i (by simp [hm]))

theorem bodyBlock_nonneg (js : JSVal → Option String) (t : ℚ) (body : JSVal) (ht : 0 ≤ t) :
    0 ≤ (bodyBlock js t body).value := by
  unfold bodyBlock
  split
  · simp only []
    split
    · exact add_nonneg ht (foldl_rawStep_nonneg _ _ _ le_rfl)
    · split
      · split
        · split
          · exact ht
          · exact add_nonneg ht (Nat.cast_nonneg _)
        · exact ht
      · split
        · split
          · split
            · exact ht
            · exact add_nonneg ht (Nat.cast_nonneg _)
          · exact ht
        · exact ht
  · exact ht

theorem bodyBlock_natural (js : JSVal → Option String) (t : ℚ) (body : JSVal)
    (ht : IsNatural t)
    (hi : ∀ item ∈ (body.get "raw").items,
      ∀ q : ℚ, byteLengthOf item = .num (.fin q) → ∃ z : ℤ, q = z) :
    IsNatural (bodyBlock js t body).value := by
  unfold bodyBlock
  split
  · simp only []
    split
    · exact ht.add (foldl_rawStep_natural _ _ _ isNatural_zero hi)
    · split
      · split
        · split
          · exact ht
          · exact ht.add ⟨_, rfl⟩
        · exact ht
      · split
        · split
          · split
            · exact ht
            · exact ht.add ⟨_, rfl⟩
          · exact ht
        · exact ht
  · exact ht

theorem bodyBlock_continues (js : JSVal → Option String) (t : ℚ) (body : JSVal)
    (h1 : ∀ s, js (body.get "formData") = some s → (jsLength s : ℚ) ≤ MAX_SAFE_SIZE)
    (h2 : ∀ x, body.get "text" = .str x → (x.utf8ByteSize : ℚ) ≤ MAX_SAFE_SIZE) :
    ∃ v, bodyBlock js t body = .continues v := by
  unfold bodyBlock
  split
  · simp only []
    split
    · exact ⟨_, rfl⟩
    · split
      · split
        · rename_i s hs
          rw [if_neg (not_lt.mpr (h1 s hs))]
          exact ⟨_, rfl⟩
        · exact ⟨_, rfl⟩
      · split
        · rename_i x hx
          split
          · rw [if_neg (not_lt.mpr (h2 x hx))]
            exact ⟨_, rfl⟩
          · exact ⟨_, rfl⟩
        · exact ⟨_, rfl⟩
  · exact ⟨_, rfl⟩

theorem headerTotal_natural (data : JSVal) :
    IsNatural (if (data.get "headers").truthy && (data.get "headers").isArray then
        (0 : ℚ) + (data.get "headers").items.foldl (headerStep 0) 0
      else 0) := by
  split
  · exact isNatural_zero.add (foldl_headerStep_natural _ _ _ isNatural_zero)
  · exact isNatural_zero

theorem finalCheck_nonneg (T : ℚ) :
    0 ≤ (if T > MAX_SAFE_SIZE then (0 : ℚ)
      else if T * 8 < 0 ∨ T * 8 > MAX_SAFE_INTEGER then 0 else T * 8) := by
  split
  · exact le_rfl
  · split
    · exact le_rfl
    · rename_i h
      push_neg at h
      exact h.1

theorem finalCheck_le (T : ℚ) :
    (if T > MAX_SAFE_SIZE then (0 : ℚ)
      else if T * 8 < 0 ∨ T * 8 > MAX_SAFE_INTEGER then 0 else T * 8) ≤ MAX_SAFE_INTEGER := by
  have h0 : (0 : ℚ) ≤ MAX_SAFE_INTEGER := by unfold MAX_SAFE_INTEGER; norm_num
  split
  · exact h0
  · split
    · exact h0
    · rename_i h
      push_neg at h
      exact h.2

theorem finalCheck_natural (T : ℚ) (hT : IsNatural T) :
    IsNatural (if T > MAX_SAFE_SIZE then (0 : ℚ)
      else if T * 8 < 0 ∨ T * 8 > MAX_SAFE_INTEGER then 0 else T * 8) := by
  split
  · exact isNatural_zero
  · split
    · exact isNatural_zero
    · obtain ⟨n, rfl⟩ := hT
      exact ⟨n * 8, by push_cast; ring⟩

/-- C6, amended: for every argument and every behaviour of `JSON.stringify`,
`calculatePreciseSize` returns a finite number `r ≥ 0`; `r ≤ Number.MAX_SAFE_INTEGER` when
the serialized form data and the encoded text are at most `Number.MAX_SAFE_INTEGER / 8` long;
and `r` is an integer when every `byteLength` read from a raw item is an integer. -/
theorem calculatePreciseSize_total (jsonStringify : JSVal → Option String) (data : JSVal) :
    0 ≤ calculatePreciseSize jsonStringify data
    ∧ (serializedWithinBound jsonStringify data →
        calculatePreciseSize jsonStringify data ≤ MAX_SAFE_INTEGER)
    ∧ (integralByteLengths data →
        ∃ n : ℕ, calculatePreciseSize jsonStringify data = n) := by
  unfold calculatePreciseSize
  split
  · exact ⟨le_rfl, fun _ => by unfold MAX_SAFE_INTEGER; norm_num, fun _ => ⟨0, by simp⟩⟩
  · simp only []
    have hT := headerTotal_natural data
    generalize (if (data.get "headers").truthy && (data.get "headers").isArray then
        (0 : ℚ) + (data.get "headers").items.foldl (headerStep 0) 0
      else 0) = T at hT
    have hnn := bodyBlock_nonneg jsonStringify T (data.get "body") hT.nonneg
    refine ⟨?_, ?_, ?_⟩
    · cases hb : bodyBlock jsonStringify T (data.get "body") with
      | returned v =>
        rw [hb] at hnn
        exact hnn
      | continues v => exact finalCheck_nonneg v
    · intro hs
      obtain ⟨v, hv⟩ := bodyBlock_continues jsonStringify T (data.get "body") hs.1 hs.2
      rw [hv]
      exact finalCheck_le v
    · intro hi
      have hnat := bodyBlock_natural jsonStringify T (data.get "body") hT hi
      cases hb : bodyBlock jsonStringify T (data.get "body") with
      | returned v =>
        rw [hb] at hnat
        exact hnat
      | continues v =>
        rw [hb] at hnat
        exact finalCheck_natural v hnat

theorem jsLength_lettersA (n : ℕ) : jsLength (lettersA n) = n := by
  unfold jsLength lettersA
  have h : (Char.ofNat 97).toNat < 65536 := by decide
  simp [h]

theorem utf8ByteSize_go_replicate (n : ℕ) :
    String.utf8ByteSize.go (List.replicate n (Char.ofNat 97)) = n := by
  induction n with
  | zero => rfl
  | succ k ih =>
    rw [List.replicate_succ, String.utf8ByteSize.go, ih]
    rfl

theorem utf8ByteSize_lettersA (n : ℕ) : (lettersA n).utf8ByteSize = n := by
  unfold lettersA String.utf8ByteSize
  exact utf8ByteSize_go_replicate n

theorem lettersA_ne_empty (n : ℕ) (h : n ≠ 0) : lettersA n ≠ "" := by
  intro he
  have := congrArg String.utf8ByteSize he
  rw [utf8ByteSize_lettersA] at this
  exact h this

theorem calculatePreciseSize_early_return (jsonStringify : JSVal → Option String)
    (name text : String) (hN : (jsLength name : ℚ) ≤ MAX_SAFE_SIZE)
    (hT : (text.utf8ByteSize : ℚ) > MAX_SAFE_SIZE) (hT0 : text ≠ "") :
    calculatePreciseSize jsonStringify (longHeadersRequest name text) = 9 * jsLength name := by
  have g1 : (longHeadersRequest name text).get "headers" = nineHeaders name := rfl
  have g2 : (longHeadersRequest name text).get "body" = .obj [("text", .str text)] := rfl
  have g3 : (JSVal.obj [("text", .str text)]).get "raw" = .undefined := rfl
  have g4 : (JSVal.obj [("text", .str text)]).get "formData" = .undefined := rfl
  have g5 : (JSVal.obj [("text", .str text)]).get "text" = .str text := rfl
  have hstep : ∀ sum : ℚ, headerStep 0 sum (.obj [("name", .str name), ("value", .str "")])
      = sum + jsLength name := by
    intro sum
    have n1 : (JSVal.obj [("name", .str name), ("value", .str "")]).get "name" = .str name := rfl
    have n2 : (JSVal.obj [("name", .str name), ("value", .str "")]).get "value" = .str "" := rfl
    have l0 : (jsLength "" : ℚ) = 0 := by simp [jsLength]
    have hpos : (0 : ℚ) ≤ MAX_SAFE_SIZE := le_of_lt MAX_SAFE_SIZE_pos
    simp only [headerStep, n1, n2, stringLengthOrZero, JSVal.truthy, JSVal.typeofObject, l0]
    simp only [Bool.not_true, Bool.or_self, Bool.false_eq_true, if_false, add_zero, zero_add]
    rw [if_neg, if_neg (not_lt.mpr hN)]
    rintro (h | h)
    · exact absurd hN (not_le.mpr h)
    · exact absurd hpos (not_le.mpr h)
  have hfold : (nineHeaders name).items.foldl (headerStep 0) 0 = 9 * jsLength name := by
    simp only [nineHeaders, JSVal.items, List.replicate, List.foldl, hstep]
    ring
  have t1 : (nineHeaders name).truthy = true := rfl
  have t2 : (nineHeaders name).isArray = true := rfl
  simp only [calculatePreciseSize, bodyBlock, g1, g2, g3, g4, g5, t1, t2, hfold]
  simp only [longHeadersRequest, JSVal.truthy, JSVal.typeofObject, JSVal.isArray]
  simp [hT, hT0]

/-- C6, as stated, fails, in two ways.  For `{ body: { raw: [{ bytes: { byteLength: 0.0625 }
}] } }` the result is `0.5`, which is not an integer.  For nine headers whose names are
`2 ^ 50 - 1` characters long and a body text of `2 ^ 50` bytes, the text branch leaves through
its early `return totalSize` with the header byte count `9 * (2 ^ 50 - 1)`, which is above
`Number.MAX_SAFE_INTEGER`. -/
theorem calculatePreciseSize_fractional :
    (calculatePreciseSize (fun _ => none)
        (.obj [("headers", .undefined),
               ("body", .obj [("raw", .arr [.obj [("bytes",
                  .obj [("byteLength", .num (.fin (1 / 16)))])]])])])
      = 1 / 2
    ∧ ¬ ∃ z : ℤ, (1 / 2 : ℚ) = z)
    ∧ (calculatePreciseSize (fun _ => none)
        (longHeadersRequest (lettersA 1125899906842623) (lettersA 1125899906842624))
      = 10133099161583607
    ∧ ¬ (10133099161583607 : ℚ) ≤ MAX_SAFE_INTEGER) := by
  refine ⟨⟨?_, ?_⟩, ?_, ?_⟩
  · have g1 : (JSVal.obj [("headers", .undefined),
               ("body", .obj [("raw", .arr [.obj [("bytes",
                  .obj [("byteLength", .num (.fin (1 / 16)))])]])])]).get "headers"
        = .undefined := rfl
    have g2 : (JSVal.obj [("headers", .undefined),
               ("body", .obj [("raw", .arr [.obj [("bytes",
                  .obj [("byteLength", .num (.fin (1 / 16)))])]])])]).get "body"
        = .obj [("raw", .arr [.obj [("bytes",
                  .obj [("byteLength", .num (.fin (1 / 16)))])]])] := rfl
    have g3 : (JSVal.obj [("raw", .arr [.obj [("bytes",
                  .obj [("byteLength", .num (.fin (1 / 16)))])]])]).get "raw"
        = .arr [.obj [("bytes", .obj [("byteLength", .num (.fin (1 / 16)))])]] := rfl
    have g4 : (JSVal.obj [("bytes", .obj [("byteLength", .num (.fin (1 / 16)))])]).get "bytes"
        = .obj [("byteLength", .num (.fin (1 / 16)))] := rfl
    have g5 : (JSVal.obj [("byteLength", .num (.fin (1 / 16)))]).get "byteLength"
        = .num (.fin (1 / 16)) := rfl
    simp only [calculatePreciseSize, bodyBlock, g1, g2, g3, JSVal.truthy, JSVal.typeofObject,
      JSVal.isArray, JSVal.items, List.foldl, rawStep, byteLengthOf, g4, g5]
    simp [MAX_SAFE_SIZE, MAX_SAFE_INTEGER]
    norm_num
  · rintro ⟨z, hz⟩
    have h2 : (2 : ℚ) * z = 1 := by linarith
    have h3 : (2 : ℤ) * z = 1 := by exact_mod_cast h2
    omega
  · rw [calculatePreciseSize_early_return (fun _ => none) (lettersA 1125899906842623)
      (lettersA 1125899906842624)
      (by rw [jsLength_lettersA]; unfold MAX_SAFE_SIZE MAX_SAFE_INTEGER; norm_num)
      (by rw [utf8ByteSize_lettersA]; unfold MAX_SAFE_SIZE MAX_SAFE_INTEGER; norm_num)
      (lettersA_ne_empty _ (by norm_num)), jsLength_lettersA]
    norm_num
  · unfold MAX_SAFE_INTEGER
    norm_num

theorem foldl_skip {α β : Type} (f : β → α → β) (bad : α) (h : ∀ s, f s bad = s)
    (pre post : List α) (s : β) :
    (pre ++ bad :: post).foldl f s = (pre ++ post).foldl f s := by
  simp [List.foldl_append, h]

theorem headerStep_skipped (bad : JSVal) (h : isSkippedHeader bad) (s : ℚ) :
    headerStep 0 s bad = s := by
  unfold headerStep
  rcases h with h | h | h | h | h
  · simp [h]
  · simp [h]
  · split
    · rfl
    · simp [h]
  · split
    · rfl
    · simp [h]
  · split
    · rfl
    · simp only [zero_add, if_pos h]
      split <;> rfl

theorem rawStep_skipped (t : ℚ) (bad : JSVal) (h : isSkippedRawItem bad) (s : ℚ) :
    rawStep t s bad = s := by
  unfold rawStep
  rcases h with h | h | h
  · simp [h]
  · simp [h]
  · split
    · rfl
    · split
      · rename_i q hq
        rw [if_pos (h q hq)]
      · rfl

theorem calculatePreciseSize_not_object (jsonStringify : JSVal → Option String) (data : JSVal)
    (h : data.truthy = false ∨ data.typeofObject = false ∨ data.isArray = true) :
    calculatePreciseSize jsonStringify data = 0 := by
  unfold calculatePreciseSize
  rw [if_pos]
  rcases h with h | h | h <;> simp [h]

theorem calculatePreciseSize_skip_header (jsonStringify : JSVal → Option String)
    (pre post : List JSVal) (bad body : JSVal) (h : isSkippedHeader bad) :
    calculatePreciseSize jsonStringify (requestData (.arr (pre ++ bad :: post)) body)
      = calculatePreciseSize jsonStringify (requestData (.arr (pre ++ post)) body) := by
  have g1 : ∀ hs, (requestData hs body).get "headers" = hs := fun _ => rfl
  have g2 : ∀ hs, (requestData hs body).get "body" = body := fun _ => rfl
  have t1 : ∀ hs, (requestData hs body).truthy = true := fun _ => rfl
  have t2 : ∀ hs, (requestData hs body).typeofObject = true := fun _ => rfl
  have t3 : ∀ hs, (requestData hs body).isArray = false := fun _ => rfl
  have a1 : ∀ l, (JSVal.arr l).truthy = true := fun _ => rfl
  have a2 : ∀ l, (JSVal.arr l).isArray = true := fun _ => rfl
  simp only [calculatePreciseSize, g1, g2, t1, t2, t3, a1, a2, JSVal.items]
  rw [foldl_skip (headerStep 0) bad (headerStep_skipped bad h)]

theorem calculatePreciseSize_skip_raw (jsonStringify : JSVal → Option String)
    (pre post : List JSVal) (bad headers : JSVal) (rest : List (String × JSVal))
    (h : isSkippedRawItem bad) :
    calculatePreciseSize jsonStringify
        (requestData headers (.obj (("raw", .arr (pre ++ bad :: post)) :: rest)))
      = calculatePreciseSize jsonStringify
        (requestData headers (.obj (("raw", .arr (pre ++ post)) :: rest))) := by
  have g1 : ∀ b, (requestData headers b).get "headers" = headers := fun _ => rfl
  have g2 : ∀ b, (requestData headers b).get "body" = b := fun _ => rfl
  have t1 : ∀ b, (requestData headers b).truthy = true := fun _ => rfl
  have t2 : ∀ b, (requestData headers b).typeofObject = true := fun _ => rfl
  have t3 : ∀ b, (requestData headers b).isArray = false := fun _ => rfl
  have r1 : ∀ l, (JSVal.obj (("raw", .arr l) :: rest)).get "raw" = .arr l := fun _ => by
    simp [JSVal.get, List.lookup]
  have r2 : ∀ l, (JSVal.obj (("raw", .arr l) :: rest)).truthy = true := fun _ => rfl
  have r3 : ∀ l, (JSVal.obj (("raw", .arr l) :: rest)).typeofObject = true := fun _ => rfl
  have a1 : ∀ l, (JSVal.arr l).truthy = true := fun _ => rfl
  have a2 : ∀ l, (JSVal.arr l).isArray = true := fun _ => rfl
  simp only [calculatePreciseSize, g1, g2, t1, t2, t3, bodyBlock, r1, r2, r3, a1, a2,
    JSVal.items, Bool.and_self, if_true]
  rw [foldl_skip (rawStep _) bad (rawStep_skipped _ bad h)]

/-- C8, as stated, fails: with the header list `[5, { name: 'a', value: 'b' }]` one header
entry is not an object, yet the result is 16 (the bits of the other entry), not 0. -/
theorem calculatePreciseSize_bad_header_not_zero :
    (JSVal.num (.fin 5)).typeofObject = false
    ∧ calculatePreciseSize (fun _ => none)
        (requestData (.arr [.num (.fin 5), .obj [("name", .str "a"), ("value", .str "b")]])
          .undefined) = 16
    ∧ (16 : ℚ) ≠ 0 := by
  refine ⟨rfl, ?_, by norm_num⟩
  have h := calculatePreciseSize_skip_header (fun _ => none) []
    [.obj [("name", .str "a"), ("value", .str "b")]] (.num (.fin 5)) .undefined
    (Or.inr (Or.inl rfl))
  simp only [List.nil_append] at h
  rw [h]
  have e : requestData (.arr [.obj [("name", .str "a"), ("value", .str "b")]]) .undefined
      = WFRequest.toJS { headers := some [⟨"a", "b"⟩], body := none } := rfl
  rw [e, calculatePreciseSize_toJS]
  · simp [headerBytes, bodyBytes, WFHeader.size, jsLength, MAX_SAFE_SIZE, MAX_SAFE_INTEGER]
    norm_num
  · intro hs hh h hm
    simp at hh
    subst hh
    simp at hm
    subst hm
    simp [WFHeader.size, jsLength, MAX_SAFE_SIZE, MAX_SAFE_INTEGER]
    norm_num
  · intro b segs hb
    simp at hb
  · intro b hb
    simp at hb

theorem sampleRequest_within_bound :
    ((headerBytes sampleRequest + bodyBytes (fun _ => some "{}") sampleRequest : ℕ) : ℚ)
      ≤ MAX_SAFE_SIZE := by
  simp [headerBytes, bodyBytes, sampleRequest, WFHeader.size, UploadData.size, jsLength,
    MAX_SAFE_SIZE, MAX_SAFE_INTEGER]
  norm_num

theorem overflowingRequest_hB : ∀ b segs, overflowingRequest.body = some b → b.raw = some segs →
      ∀ u ∈ segs, (headerBytes overflowingRequest : ℚ) + (u.size : ℚ) ≤ MAX_SAFE_SIZE := by
  intro b segs hb hraw u hu
  simp [overflowingRequest] at hb
  subst hb
  simp at hraw
  subst hraw
  simp at hu
  rcases hu with rfl | rfl <;>
    simp [headerBytes, overflowingRequest, UploadData.size, MAX_SAFE_SIZE, MAX_SAFE_INTEGER] <;>
    norm_num

theorem overflowingRequest_over :
    (headerBytes overflowingRequest : ℚ) + (bodyBytes (fun _ => none) overflowingRequest : ℚ)
      > MAX_SAFE_SIZE := by
  simp [headerBytes, bodyBytes, overflowingRequest, UploadData.size, MAX_SAFE_SIZE,
    MAX_SAFE_INTEGER]
  norm_num

theorem integralByteLengths_toJS (r : WFRequest) : integralByteLengths r.toJS := by
  intro item hm q hq
  have gb : r.toJS.get "body" = optJS WFBody.toJS r.body := rfl
  rw [gb] at hm
  cases hb : r.body with
  | none =>
    rw [hb] at hm
    simp [optJS, JSVal.get, JSVal.items] at hm
  | some b =>
    rw [hb] at hm
    have gr : (optJS WFBody.toJS (some b)).get "raw"
        = optJS (fun segs => .arr (segs.map UploadData.toJS)) b.raw := rfl
    rw [gr] at hm
    cases hr : b.raw with
    | none =>
      rw [hr] at hm
      simp [optJS, JSVal.items] at hm
    | some segs =>
      rw [hr] at hm
      simp only [optJS, JSVal.items, List.mem_map] at hm
      obtain ⟨u, _, rfl⟩ := hm
      cases u with
      | bytes n =>
        have g1 : (UploadData.toJS (.bytes n)).get "bytes"
            = .obj [("byteLength", .num (.fin n))] := rfl
        have g2 : (JSVal.obj [("byteLength", .num (.fin n))]).get "byteLength"
            = .num (.fin n) := rfl
        simp only [byteLengthOf, g1, g2] at hq
        split_ifs at hq
        · exact ⟨n, by injection hq with h; injection h with h; rw [← h]; simp⟩
        · exact ⟨0, by injection hq with h; injection h with h; rw [← h]; simp⟩
      | file p =>
        have g1 : (UploadData.toJS (.file p)).get "bytes" = .undefined := rfl
        simp only [byteLengthOf, g1] at hq
        have t : JSVal.undefined.truthy = false := rfl
        simp only [t, Bool.false_eq_true, if_false] at hq
        exact ⟨0, by injection hq with h; injection h with h; rw [← h]; simp⟩

theorem sampleRequest_serializedWithinBound :
    serializedWithinBound (fun _ => some "{}") sampleRequest.toJS := by
  constructor
  · intro s hs
    have : s = "{}" := by
      injection hs with h
      exact h.symm
    subst this
    simp [jsLength, MAX_SAFE_SIZE, MAX_SAFE_INTEGER]
    norm_num
  · intro t ht
    have e : (sampleRequest.toJS.get "body").get "text" = .str "hello" := rfl
    rw [e] at ht
    injection ht with h
    subst h
    have : ("hello" : String).utf8ByteSize = 5 := by decide
    rw [this]
    unfold MAX_SAFE_SIZE MAX_SAFE_INTEGER
    norm_num

theorem formRequest_serializedWithinBound :
    serializedWithinBound (fun _ => some "{}") formRequest.toJS := by
  constructor
  · intro s hs
    have : s = "{}" := by
      injection hs with h
      exact h.symm
    subst this
    simp [jsLength, MAX_SAFE_SIZE, MAX_SAFE_INTEGER]
    norm_num
  · intro t ht
    have e : (formRequest.toJS.get "body").get "text" = .undefined := rfl
    rw [e] at ht
    cases ht

theorem calculatePreciseSize_total_witness :
    (serializedWithinBound (fun _ => some "{}") sampleRequest.toJS
      ∧ integralByteLengths sampleRequest.toJS
      ∧ 0 ≤ calculatePreciseSize (fun _ => some "{}") sampleRequest.toJS
      ∧ calculatePreciseSize (fun _ => some "{}") sampleRequest.toJS ≤ MAX_SAFE_INTEGER
      ∧ ∃ n : ℕ, calculatePreciseSize (fun _ => some "{}") sampleRequest.toJS = n)
    ∧ (serializedWithinBound (fun _ => some "{}") formRequest.toJS
      ∧ integralByteLengths formRequest.toJS
      ∧ 0 ≤ calculatePreciseSize (fun _ => some "{}") formRequest.toJS
      ∧ calculatePreciseSize (fun _ => some "{}") formRequest.toJS ≤ MAX_SAFE_INTEGER
      ∧ ∃ n : ℕ, calculatePreciseSize (fun _ => some "{}") formRequest.toJS = n) :=
  ⟨⟨sampleRequest_serializedWithinBound, integralByteLengths_toJS sampleRequest,
      (calculatePreciseSize_total _ _).1,
      (calculatePreciseSize_total _ _).2.1 sampleRequest_serializedWithinBound,
      (calculatePreciseSize_total _ _).2.2 (integralByteLengths_toJS sampleRequest)⟩,
    ⟨formRequest_serializedWithinBound, integralByteLengths_toJS formRequest,
      (calculatePreciseSize_total _ _).1,
      (calculatePreciseSize_total _ _).2.1 formRequest_serializedWithinBound,
      (calculatePreciseSize_total _ _).2.2 (integralByteLengths_toJS formRequest)⟩⟩

theorem calculatePreciseSize_wellFormed_witness :
    ((headerBytes sampleRequest + bodyBytes (fun _ => some "{}") sampleRequest : ℕ) : ℚ)
        ≤ MAX_SAFE_SIZE
    ∧ calculatePreciseSize (fun _ => some "{}") sampleRequest.toJS
        = 8 * ((headerBytes sampleRequest + bodyBytes (fun _ => some "{}") sampleRequest : ℕ) : ℚ) :=
  ⟨sampleRequest_within_bound,
    (calculatePreciseSize_wellFormed (fun _ => some "{}") sampleRequest
      sampleRequest_within_bound).1⟩

/-- C8, amended: `calculatePreciseSize` returns 0 when its argument is `null`, a primitive
or an array, and when the entries it counts are each within the bound but their total
`H + B` exceeds `Number.MAX_SAFE_INTEGER / 8`.  A header entry that is not an object, or whose
name, value or size is over the bound, and a raw item that is not an object or whose
`byteLength` is not a number, is negative or is over the bound, is passed over: the result is
the one for the list without that entry, so the remaining entries are still counted. -/
theorem calculatePreciseSize_zero_or_skip (jsonStringify : JSVal → Option String)
    (data badHeader badItem headers body : JSVal) (pre post : List JSVal)
    (rest : List (String × JSVal)) (r : WFRequest) :
    (data.truthy = false ∨ data.typeofObject = false ∨ data.isArray = true →
        calculatePreciseSize jsonStringify data = 0)
    ∧ (isSkippedHeader badHeader →
        calculatePreciseSize jsonStringify (requestData (.arr (pre ++ badHeader :: post)) body)
          = calculatePreciseSize jsonStringify (requestData (.arr (pre ++ post)) body))
    ∧ (isSkippedRawItem badItem →
        calculatePreciseSize jsonStringify
            (requestData headers (.obj (("raw", .arr (pre ++ badItem :: post)) :: rest)))
          = calculatePreciseSize jsonStringify
            (requestData headers (.obj (("raw", .arr (pre ++ post)) :: rest))))
    ∧ ((∀ hs, r.headers = some hs → ∀ h ∈ hs, ((h.size : ℕ) : ℚ) ≤ MAX_SAFE_SIZE) →
        (∀ b segs, r.body = some b → b.raw = some segs →
          ∀ u ∈ segs, (headerBytes r : ℚ) + (u.size : ℚ) ≤ MAX_SAFE_SIZE) →
        (∀ b, r.body = some b → b.raw = none →
          (bodyBytes jsonStringify r : ℚ) ≤ MAX_SAFE_SIZE) →
        (headerBytes r : ℚ) + (bodyBytes jsonStringify r : ℚ) > MAX_SAFE_SIZE →
        calculatePreciseSize jsonStringify r.toJS = 0) := by
  refine ⟨calculatePreciseSize_not_object jsonStringify data,
    calculatePreciseSize_skip_header jsonStringify pre post badHeader body,
    calculatePreciseSize_skip_raw jsonStringify pre post badItem headers rest, ?_⟩
  intro hH hB hF hover
  rw [calculatePreciseSize_toJS jsonStringify r hH hB hF, if_pos hover]

theorem calculatePreciseSize_zero_or_skip_witness :
    calculatePreciseSize (fun _ => none) (.arr []) = 0
    ∧ calculatePreciseSize (fun _ => none)
          (requestData (.arr ([] ++ JSVal.num (.fin 5) :: [WFHeader.toJS ⟨"a", "b"⟩])) .undefined)
        = calculatePreciseSize (fun _ => none)
          (requestData (.arr ([] ++ [WFHeader.toJS ⟨"a", "b"⟩])) .undefined)
    ∧ calculatePreciseSize (fun _ => none)
          (requestData .undefined
            (.obj (("raw", .arr ([] ++ JSVal.str "x" :: [UploadData.toJS (.bytes 4)])) :: [])))
        = calculatePreciseSize (fun _ => none)
          (requestData .undefined
            (.obj (("raw", .arr ([] ++ [UploadData.toJS (.bytes 4)])) :: [])))
    ∧ calculatePreciseSize (fun _ => none) overflowingRequest.toJS = 0 :=
  ⟨(calculatePreciseSize_zero_or_skip (fun _ => none) (.arr []) (.num (.fin 5)) (.str "x")
      .undefined .undefined [] [WFHeader.toJS ⟨"a", "b"⟩] [] overflowingRequest).1
      (Or.inr (Or.inr rfl)),
    (calculatePreciseSize_zero_or_skip (fun _ => none) (.arr []) (.num (.fin 5)) (.str "x")
      .undefined .undefined [] [WFHeader.toJS ⟨"a", "b"⟩] [] overflowingRequest).2.1
      (Or.inr (Or.inl rfl)),
    (calculatePreciseSize_zero_or_skip (fun _ => none) (.arr []) (.num (.fin 5)) (.str "x")
      .undefined .undefined [] [UploadData.toJS (.bytes 4)] [] overflowingRequest).2.2.1
      (Or.inr (Or.inl rfl)),
    (calculatePreciseSize_zero_or_skip (fun _ => none) (.arr []) (.num (.fin 5)) (.str "x")
      .undefined .undefined [] [] [] overflowingRequest).2.2.2
      (fun hs hh => by simp [overflowingRequest] at hh) overflowingRequest_hB
      (fun b hb hraw => by
        simp [overflowingRequest] at hb
        subst hb
        simp at hraw)
      overflowingRequest_over⟩

/-! ### Request and response handlers -/

theorem performMemoryCleanup_chromeData (s : NetworkMonitor) :
    s.performMemoryCleanup.chromeData = s.chromeData := by
  unfold NetworkMonitor.performMemoryCleanup; split <;> rfl

theorem performMemoryCleanup_deviceData (s : NetworkMonitor) :
    s.performMemoryCleanup.deviceData = s.deviceData := by
  unfold NetworkMonitor.performMemoryCleanup; split <;> rfl

theorem performMemoryCleanup_history (s : NetworkMonitor) :
    s.performMemoryCleanup.history = s.history := by
  unfold NetworkMonitor.performMemoryCleanup; split <;> rfl

theorem updatePacketStats_chromeData (s : NetworkMonitor) (type : String) (size : JSNum) :
    (s.updatePacketStats type size).chromeData = s.chromeData := by
  unfold NetworkMonitor.updatePacketStats; split_ifs <;> rfl

theorem updatePacketStats_deviceData (s : NetworkMonitor) (type : String) (size : JSNum) :
    (s.updatePacketStats type size).deviceData = s.deviceData := by
  unfold NetworkMonitor.updatePacketStats; split_ifs <;> rfl

theorem updatePacketStats_history (s : NetworkMonitor) (type : String) (size : JSNum) :
    (s.updatePacketStats type size).history = s.history := by
  unfold NetworkMonitor.updatePacketStats; split_ifs <;> rfl

theorem updateHistory_chromeData (s : NetworkMonitor) (now : ℤ) :
    (s.updateHistory now).chromeData = s.chromeData := by
  unfold NetworkMonitor.updateHistory
  simp only []
  split_ifs <;> simp only [performMemoryCleanup_chromeData]

theorem updateHistory_deviceData (s : NetworkMonitor) (now : ℤ) :
    (s.updateHistory now).deviceData = s.deviceData := by
  unfold NetworkMonitor.updateHistory
  simp only []
  split_ifs <;> simp only [performMemoryCleanup_deviceData]

theorem updateHistory_history (s : NetworkMonitor) (now : ℤ) :
    (s.updateHistory now).history = appendBounded s.history (s.dataPoint now) := by
  have hd : (if (s.history ++ [s.dataPoint now]).length > maxHistoryPoints then
        (s.history ++ [s.dataPoint now]).drop
          ((s.history ++ [s.dataPoint now]).length - maxHistoryPoints)
      else s.history ++ [s.dataPoint now]) = appendBounded s.history (s.dataPoint now) := by
    unfold appendBounded
    split
    · rfl
    · rename_i h
      have : (s.history ++ [s.dataPoint now]).length - maxHistoryPoints = 0 := by omega
      rw [this, List.drop_zero]
  unfold NetworkMonitor.updateHistory
  simp only [hd]
  split
  · rw [performMemoryCleanup_history]
  · rfl

theorem appendBounded_of_lt (history : List DataPoint) (point : DataPoint)
    (h : history.length < maxHistoryPoints) : appendBounded history point = history ++ [point] := by
  unfold appendBounded
  have : (history ++ [point]).length - maxHistoryPoints = 0 := by
    simp only [List.length_append, List.length_singleton]; omega
  rw [this, List.drop_zero]

theorem appendBounded_getLast (history : List DataPoint) (point : DataPoint) :
    (appendBounded history point).getLast? = some point := by
  unfold appendBounded
  have hlt : (history ++ [point]).length - maxHistoryPoints < (history ++ [point]).length := by
    simp only [List.length_append, List.length_singleton, maxHistoryPoints]; omega
  rw [List.getLast?_drop]
  rw [if_neg (by omega)]
  simp

theorem handleResponse_chromeData (self : NetworkMonitor) (details : ResponseDetails) (now : ℤ)
    (hm : self.isMonitoring = true) (hc : self.monitoringMode = "chrome") :
    (self.handleResponse details now).chromeData
      = { self.chromeData with
          received := self.chromeData.received.add (responseSize details)
          total := self.chromeData.sent.add
            (self.chromeData.received.add (responseSize details)) } := by
  unfold NetworkMonitor.handleResponse
  simp only [hm, hc, Bool.not_true, ne_eq, not_true_eq_false, decide_False, Bool.or_self,
    Bool.false_eq_true, if_false]
  rw [updateHistory_chromeData, updatePacketStats_chromeData]

theorem responseSize_parsed (details : ResponseDetails) (hs : List HttpHeader) (h : HttpHeader)
    (s : String) (n : ℤ) (h1 : details.responseHeaders = some hs)
    (h2 : hs.find? (fun h => toLowerCase h.name = "content-length") = some h)
    (h3 : h.value = some s) (h4 : parseIntString s = some n) :
    responseSize details = roundToDouble n := by
  unfold responseSize
  simp only [h1, h2, h3, parseInt, h4]
  exact orZero_roundToDouble n

theorem responseSize_zero (details : ResponseDetails)
    (h : details.responseHeaders = none
      ∨ (∃ hs, details.responseHeaders = some hs
          ∧ hs.find? (fun h => toLowerCase h.name = "content-length") = none)
      ∨ (∃ hs h, details.responseHeaders = some hs
          ∧ hs.find? (fun h => toLowerCase h.name = "content-length") = some h
          ∧ parseInt h.value = .nan)) : responseSize details = .fin 0 := by
  unfold responseSize
  rcases h with h | ⟨hs, h1, h2⟩ | ⟨hs, h, h1, h2, h3⟩
  · simp only [h]
  · simp only [h1, h2]
  · simp only [h1, h2, h3]
    rfl

/-- C9, amended: with monitoring enabled in chrome mode, `handleResponse` sets
`chromeData.received` to the Number sum `received + size`, leaves `sent`, and sets `total` to
the Number sum `sent + received`; the size is the Number `parseInt` returns for the value of
the first header named `content-length` in any letter case, that is the double nearest to the
integer read: the integer itself when it is at most `2 ^ 53` in size, `Infinity` from
`2 ^ 1024` on and `-Infinity` from `-2 ^ 1024` down; when `responseHeaders` is absent, no
such header exists, or `parseInt` returns `NaN` for its value, the size is 0, `received`
keeps its value and `total` is set to `sent + received`, so it keeps its value when it
already was that sum. -/
theorem handleResponse_content_length (self : NetworkMonitor) (details : ResponseDetails)
    (now : ℤ) (hm : self.isMonitoring = true) (hc : self.monitoringMode = "chrome") :
    (self.handleResponse details now).chromeData.received
        = self.chromeData.received.add (responseSize details)
    ∧ (self.handleResponse details now).chromeData.sent = self.chromeData.sent
    ∧ (self.handleResponse details now).chromeData.total
        = (self.handleResponse details now).chromeData.sent.add
          (self.handleResponse details now).chromeData.received
    ∧ (∀ hs h s n, details.responseHeaders = some hs →
        hs.find? (fun h => toLowerCase h.name = "content-length") = some h →
        h.value = some s → parseIntString s = some n →
        responseSize details = roundToDouble n
        ∧ (|n| ≤ 2 ^ 53 → responseSize details = .fin n)
        ∧ ((2 : ℚ) ^ 1024 ≤ n → responseSize details = .posInf)
        ∧ ((n : ℚ) ≤ -(2 : ℚ) ^ 1024 → responseSize details = .negInf))
    ∧ ((details.responseHeaders = none
        ∨ (∃ hs, details.responseHeaders = some hs
            ∧ hs.find? (fun h => toLowerCase h.name = "content-length") = none)
        ∨ (∃ hs h, details.responseHeaders = some hs
            ∧ hs.find? (fun h => toLowerCase h.name = "content-length") = some h
            ∧ parseInt h.value = .nan)) →
        responseSize details = .fin 0
        ∧ (self.handleResponse details now).chromeData.received = self.chromeData.received
        ∧ (self.handleResponse details now).chromeData.total
            = self.chromeData.sent.add self.chromeData.received
        ∧ (self.chromeData.total = self.chromeData.sent.add self.chromeData.received →
            (self.handleResponse details now).chromeData.total = self.chromeData.total)) := by
  rw [handleResponse_chromeData self details now hm hc]
  refine ⟨rfl, rfl, rfl, ?_, ?_⟩
  · intro hs h s n h1 h2 h3 h4
    have hp := responseSize_parsed details hs h s n h1 h2 h3 h4
    refine ⟨hp, ?_, ?_, ?_⟩
    · intro hn
      rw [hp]
      exact roundToDouble_intCast n hn
    · intro hn
      rw [hp]
      exact roundToDouble_huge _ hn
    · intro hn
      rw [hp]
      exact roundToDouble_neg_huge _ hn
  · intro h
    have hz := responseSize_zero details h
    refine ⟨hz, ?_, ?_, ?_⟩
    · simp only [hz, JSNum.add_zero]
    · simp only [hz, JSNum.add_zero]
    · intro ht
      simp only [hz, JSNum.add_zero]
      exact ht.symm

theorem handleRequest_chromeData (jsonStringify : JSVal → Option String) (self : NetworkMonitor)
    (details : RequestDetails) (now : ℤ)
    (hm : self.isMonitoring = true) (hc : self.monitoringMode = "chrome") :
    (self.handleRequest jsonStringify details now).chromeData
      = { sent := self.chromeData.sent.add
            (.fin (calculatePreciseSize jsonStringify
                (requestData details.requestHeaders details.requestBody)))
          received := self.chromeData.received
          total := (self.chromeData.sent.add
            (.fin (calculatePreciseSize jsonStringify
                (requestData details.requestHeaders details.requestBody)))).add
            self.chromeData.received
          packetCount := self.chromeData.packetCount + 1 } := by
  unfold NetworkMonitor.handleRequest
  simp only [hm, hc, Bool.not_true, Bool.false_eq_true, if_false, if_true]
  rw [updateHistory_chromeData, updatePacketStats_chromeData]

theorem handleRequest_deviceData (jsonStringify : JSVal → Option String) (self : NetworkMonitor)
    (details : RequestDetails) (now : ℤ) :
    (self.handleRequest jsonStringify details now).deviceData = self.deviceData := by
  unfold NetworkMonitor.handleRequest
  simp only []
  split_ifs <;> simp only [updateHistory_deviceData, updatePacketStats_deviceData]

theorem handleRequest_history (jsonStringify : JSVal → Option String) (self : NetworkMonitor)
    (details : RequestDetails) (now : ℤ)
    (hm : self.isMonitoring = true) (hc : self.monitoringMode = "chrome") :
    (self.handleRequest jsonStringify details now).history
      = appendBounded self.history
          { timestamp := now
            chrome := (self.handleRequest jsonStringify details now).chromeData
            device := self.deviceData
            total := (self.handleRequest jsonStringify details now).chromeData.total.add
              self.deviceData.total } := by
  rw [handleRequest_chromeData jsonStringify self details now hm hc]
  unfold NetworkMonitor.handleRequest
  simp only [hm, hc, Bool.not_true, Bool.false_eq_true, if_false, if_true]
  rw [updateHistory_history]
  simp only [NetworkMonitor.dataPoint, updatePacketStats_chromeData, updatePacketStats_deviceData,
    updatePacketStats_history]

/-- C10: with monitoring enabled in chrome mode, `handleRequest` increases
`chromeData.sent` by exactly `calculatePreciseSize({ headers, body })` (the Number sum, which
is the exact sum while the counter stays an integer of at most `2 ^ 53`), sets `total` to the
new `sent + received`, increases `packetCount` by exactly 1, leaves `received` and all of
`deviceData` unchanged, and appends to the history exactly one data point carrying the new
counters: it is the last entry, and the history is the old one followed by it (cut to its
last 100 entries once the capacity is reached). -/
theorem handleRequest_records_sent (jsonStringify : JSVal → Option String)
    (self : NetworkMonitor) (details : RequestDetails) (now : ℤ)
    (hm : self.isMonitoring = true) (hc : self.monitoringMode = "chrome") :
    (self.handleRequest jsonStringify details now).chromeData.sent
        = self.chromeData.sent.add
          (.fin (calculatePreciseSize jsonStringify
              (requestData details.requestHeaders details.requestBody)))
    ∧ (∀ a b : ℤ, self.chromeData.sent = .fin a →
        calculatePreciseSize jsonStringify
          (requestData details.requestHeaders details.requestBody) = b →
        |a + b| ≤ 2 ^ 53 →
        (self.handleRequest jsonStringify details now).chromeData.sent = .fin ((a + b : ℤ) : ℚ))
    ∧ (self.handleRequest jsonStringify details now).chromeData.total
        = (self.handleRequest jsonStringify details now).chromeData.sent.add
          self.chromeData.received
    ∧ (self.handleRequest jsonStringify details now).chromeData.packetCount
        = self.chromeData.packetCount + 1
    ∧ (self.handleRequest jsonStringify details now).chromeData.received
        = self.chromeData.received
    ∧ (self.handleRequest jsonStringify details now).deviceData = self.deviceData
    ∧ (self.handleRequest jsonStringify details now).history
        = appendBounded self.history
            { timestamp := now
              chrome := (self.handleRequest jsonStringify details now).chromeData
              device := self.deviceData
              total := (self.handleRequest jsonStringify details now).chromeData.total.add
                self.deviceData.total }
    ∧ (self.handleRequest jsonStringify details now).history.getLast?
        = some
            { timestamp := now
              chrome := (self.handleRequest jsonStringify details now).chromeData
              device := self.deviceData
              total := (self.handleRequest jsonStringify details now).chromeData.total.add
                self.deviceData.total }
    ∧ (self.history.length < maxHistoryPoints →
        (self.handleRequest jsonStringify details now).history
          = self.history ++
            [{ timestamp := now
               chrome := (self.handleRequest jsonStringify details now).chromeData
               device := self.deviceData
               total := (self.handleRequest jsonStringify details now).chromeData.total.add
                 self.deviceData.total }]) := by
  have hh := handleRequest_history jsonStringify self details now hm hc
  have hcd := handleRequest_chromeData jsonStringify self details now hm hc
  refine ⟨by rw [hcd], ?_, by rw [hcd], by rw [hcd], by rw [hcd],
    handleRequest_deviceData jsonStringify self details now, hh, ?_, ?_⟩
  · intro a b ha hb hab
    rw [hcd]
    simp only [ha, hb]
    exact JSNum.add_intCast a b hab
  · rw [hh]
    exact appendBounded_getLast _ _
  · intro hlt
    rw [hh]
    exact appendBounded_of_lt _ _ hlt

theorem sampleHeaders_size :
    calculatePreciseSize (fun _ => none) (requestData sampleRequestHeaders .undefined)
      = ((120 : ℤ) : ℚ) := by
  have e : requestData sampleRequestHeaders .undefined
      = WFRequest.toJS { headers := some [⟨"Host", "example.com"⟩], body := none } := rfl
  rw [e, calculatePreciseSize_toJS]
  · simp [headerBytes, bodyBytes, WFHeader.size, jsLength, MAX_SAFE_SIZE, MAX_SAFE_INTEGER]
    norm_num
  · intro hs hh u hu
    simp at hh
    subst hh
    simp at hu
    subst hu
    simp [WFHeader.size, jsLength, MAX_SAFE_SIZE, MAX_SAFE_INTEGER]
    norm_num
  · intro b segs hb
    simp at hb
  · intro b hb
    simp at hb

theorem handleRequest_records_sent_witness :
    activeMonitor.isMonitoring = true ∧ activeMonitor.monitoringMode = "chrome"
    ∧ (activeMonitor.handleRequest (fun _ => none) ⟨sampleRequestHeaders, .undefined⟩
          1000).chromeData.sent
        = activeMonitor.chromeData.sent.add
          (.fin (calculatePreciseSize (fun _ => none)
            (requestData sampleRequestHeaders .undefined)))
    ∧ (activeMonitor.handleRequest (fun _ => none) ⟨sampleRequestHeaders, .undefined⟩
          1000).chromeData.sent = .fin (((0 + 120 : ℤ)) : ℚ)
    ∧ (activeMonitor.handleRequest (fun _ => none) ⟨sampleRequestHeaders, .undefined⟩
          1000).chromeData.packetCount
        = activeMonitor.chromeData.packetCount + 1 :=
  ⟨rfl, rfl,
    (handleRequest_records_sent (fun _ => none) activeMonitor
      ⟨sampleRequestHeaders, .undefined⟩ 1000 rfl rfl).1,
    (handleRequest_records_sent (fun _ => none) activeMonitor
      ⟨sampleRequestHeaders, .undefined⟩ 1000 rfl rfl).2.1 0 120 rfl sampleHeaders_size
      (by norm_num),
    (handleRequest_records_sent (fun _ => none) activeMonitor
      ⟨sampleRequestHeaders, .undefined⟩ 1000 rfl rfl).2.2.2.1⟩

theorem handleResponse_content_length_witness :
    activeMonitor.isMonitoring = true ∧ activeMonitor.monitoringMode = "chrome"
    ∧ (activeMonitor.handleResponse sampleResponse 1000).chromeData.received
        = activeMonitor.chromeData.received.add (responseSize sampleResponse)
    ∧ (activeMonitor.handleResponse sampleResponse 1000).chromeData.total
        = (activeMonitor.handleResponse sampleResponse 1000).chromeData.sent.add
          (activeMonitor.handleResponse sampleResponse 1000).chromeData.received
    ∧ responseSize sampleResponse = .fin ((4096 : ℤ) : ℚ)
    ∧ responseSize ⟨none⟩ = .fin 0
    ∧ (activeMonitor.handleResponse ⟨none⟩ 1000).chromeData.received
        = activeMonitor.chromeData.received :=
  ⟨rfl, rfl,
    (handleResponse_content_length activeMonitor sampleResponse 1000 rfl rfl).1,
    (handleResponse_content_length activeMonitor sampleResponse 1000 rfl rfl).2.2.1,
    ((handleResponse_content_length activeMonitor sampleResponse 1000 rfl rfl).2.2.2.1
      [⟨"Server", some "nginx"⟩, ⟨"Content-LENGTH", some "4096"⟩]
      ⟨"Content-LENGTH", some "4096"⟩ "4096" 4096 rfl (by decide) rfl (by decide)).2.1
      (by norm_num),
    ((handleResponse_content_length activeMonitor ⟨none⟩ 1000 rfl rfl).2.2.2.2
      (Or.inl rfl)).1,
    ((handleResponse_content_length activeMonitor ⟨none⟩ 1000 rfl rfl).2.2.2.2
      (Or.inl rfl)).2.1⟩

/-! ### Counters, packet counts, history, speed and messages -/

theorem updateHistory_frame (s : NetworkMonitor) (now : ℤ) :
    (s.updateHistory now).isMonitoring = s.isMonitoring
    ∧ (s.updateHistory now).monitoringMode = s.monitoringMode
    ∧ (s.updateHistory now).dataUnits = s.dataUnits
    ∧ (s.updateHistory now).updateIntervalMs = s.updateIntervalMs
    ∧ (s.updateHistory now).colorTheme = s.colorTheme := by
  unfold NetworkMonitor.updateHistory NetworkMonitor.performMemoryCleanup
  simp only []
  split_ifs <;> exact ⟨rfl, rfl, rfl, rfl, rfl⟩

theorem handleResponse_deviceData (self : NetworkMonitor) (details : ResponseDetails) (now : ℤ) :
    (self.handleResponse details now).deviceData = self.deviceData := by
  unfold NetworkMonitor.handleResponse
  simp only []
  split_ifs <;> simp only [updateHistory_deviceData, updatePacketStats_deviceData]

theorem handleResponse_history (self : NetworkMonitor) (details : ResponseDetails) (now : ℤ)
    (hm : self.isMonitoring = true) (hc : self.monitoringMode = "chrome") :
    (self.handleResponse details now).history
      = appendBounded self.history
          { timestamp := now
            chrome := (self.handleResponse details now).chromeData
            device := self.deviceData
            total := (self.handleResponse details now).chromeData.total.add
              self.deviceData.total } := by
  rw [handleResponse_chromeData self details now hm hc]
  unfold NetworkMonitor.handleResponse
  simp only [hm, hc, Bool.not_true, ne_eq, not_true_eq_false, decide_False, Bool.or_self,
    Bool.false_eq_true, if_false]
  rw [updateHistory_history]
  simp only [NetworkMonitor.dataPoint, updatePacketStats_chromeData, updatePacketStats_deviceData,
    updatePacketStats_history]

/-- C11, as stated, fails: in a monitoring state in chrome mode with packet count 1, handling
a response with a content length of 4096 leaves `chromeData.packetCount` at 1; it is not
incremented. -/
theorem handleResponse_packetCount_not_incremented :
    activeMonitor.isMonitoring = true ∧ activeMonitor.monitoringMode = "chrome"
    ∧ activeMonitor.chromeData.packetCount = 1
    ∧ (activeMonitor.handleResponse sampleResponse 1000).chromeData.packetCount = 1
    ∧ (activeMonitor.handleResponse sampleResponse 1000).chromeData.packetCount
        ≠ activeMonitor.chromeData.packetCount + 1 := by
  have h : (activeMonitor.handleResponse sampleResponse 1000).chromeData.packetCount = 1 := by
    rw [handleResponse_chromeData _ _ _ rfl rfl]
    rfl
  refine ⟨rfl, rfl, rfl, h, ?_⟩
  rw [h]
  decide

/-- C11, amended: with monitoring enabled in chrome mode, `handleResponse` increases
`chromeData.received` by the size of the response (the Number sum, which is the exact sum
while the counter stays an integer of at most `2 ^ 53`), sets `total` to `sent + received`,
leaves `sent`, `chromeData.packetCount` and all of `deviceData` unchanged, and appends to the
history exactly one data point carrying the new counters: it is the last entry, and the
history is the old one followed by it (cut to its last 100 entries once the capacity is
reached). -/
theorem handleResponse_records_received (self : NetworkMonitor) (details : ResponseDetails)
    (now : ℤ) (hm : self.isMonitoring = true) (hc : self.monitoringMode = "chrome") :
    (self.handleResponse details now).chromeData.received
        = self.chromeData.received.add (responseSize details)
    ∧ (∀ a b : ℤ, self.chromeData.received = .fin a → responseSize details = .fin b →
        |a + b| ≤ 2 ^ 53 →
        (self.handleResponse details now).chromeData.received = .fin ((a + b : ℤ) : ℚ))
    ∧ (self.handleResponse details now).chromeData.total
        = self.chromeData.sent.add (self.handleResponse details now).chromeData.received
    ∧ (self.handleResponse details now).chromeData.sent = self.chromeData.sent
    ∧ (self.handleResponse details now).chromeData.packetCount = self.chromeData.packetCount
    ∧ (self.handleResponse details now).deviceData = self.deviceData
    ∧ (self.handleResponse details now).history
        = appendBounded self.history
            { timestamp := now
              chrome := (self.handleResponse details now).chromeData
              device := self.deviceData
              total := (self.handleResponse details now).chromeData.total.add
                self.deviceData.total }
    ∧ (self.handleResponse details now).history.getLast?
        = some
            { timestamp := now
              chrome := (self.handleResponse details now).chromeData
              device := self.deviceData
              total := (self.handleResponse details now).chromeData.total.add
                self.deviceData.total }
    ∧ (self.history.length < maxHistoryPoints →
        (self.handleResponse details now).history
          = self.history ++
            [{ timestamp := now
               chrome := (self.handleResponse details now).chromeData
               device := self.deviceData
               total := (self.handleResponse details now).chromeData.total.add
                 self.deviceData.total }]) := by
  have hh := handleResponse_history self details now hm hc
  have hcd := handleResponse_chromeData self details now hm hc
  refine ⟨by rw [hcd], ?_, by rw [hcd], by rw [hcd], by rw [hcd],
    handleResponse_deviceData self details now, hh, ?_, ?_⟩
  · intro a b ha hb hab
    rw [hcd]
    simp only [ha, hb]
    exact JSNum.add_intCast a b hab
  · rw [hh]
    exact appendBounded_getLast _ _
  · intro hlt
    rw [hh]
    exact appendBounded_of_lt _ _ hlt

theorem sampleResponse_size : responseSize sampleResponse = .fin ((4096 : ℤ) : ℚ) := by
  rw [responseSize_parsed sampleResponse
    [⟨"Server", some "nginx"⟩, ⟨"Content-LENGTH", some "4096"⟩]
    ⟨"Content-LENGTH", some "4096"⟩ "4096" 4096 rfl (by decide) rfl (by decide)]
  exact roundToDouble_intCast 4096 (by norm_num)

theorem handleResponse_records_received_witness :
    activeMonitor.isMonitoring = true ∧ activeMonitor.monitoringMode = "chrome"
    ∧ (activeMonitor.handleResponse sampleResponse 1000).chromeData.received
        = activeMonitor.chromeData.received.add (responseSize sampleResponse)
    ∧ (activeMonitor.handleResponse sampleResponse 1000).chromeData.received
        = .fin ((0 + 4096 : ℤ) : ℚ)
    ∧ (activeMonitor.handleResponse sampleResponse 1000).chromeData.packetCount
        = activeMonitor.chromeData.packetCount :=
  ⟨rfl, rfl,
    (handleResponse_records_received activeMonitor sampleResponse 1000 rfl rfl).1,
    (handleResponse_records_received activeMonitor sampleResponse 1000 rfl rfl).2.1 0 4096
      rfl sampleResponse_size (by norm_num),
    (handleResponse_records_received activeMonitor sampleResponse 1000 rfl rfl).2.2.2.2.1⟩

theorem handleRequest_settings (jsonStringify : JSVal → Option String) (self : NetworkMonitor)
    (details : RequestDetails) (now : ℤ) :
    (self.handleRequest jsonStringify details now).isMonitoring = self.isMonitoring
    ∧ (self.handleRequest jsonStringify details now).monitoringMode = self.monitoringMode := by
  unfold NetworkMonitor.handleRequest
  simp only []
  split_ifs
  · exact ⟨rfl, rfl⟩
  · exact ⟨by rw [(updateHistory_frame _ _).1]; simp [NetworkMonitor.updatePacketStats],
      by rw [(updateHistory_frame _ _).2.1]; simp [NetworkMonitor.updatePacketStats]⟩
  · exact ⟨by rw [(updateHistory_frame _ _).1], by rw [(updateHistory_frame _ _).2.1]⟩

theorem handleResponse_settings (self : NetworkMonitor) (details : ResponseDetails)
    (now : ℤ) :
    (self.handleResponse details now).isMonitoring = self.isMonitoring
    ∧ (self.handleResponse details now).monitoringMode = self.monitoringMode := by
  unfold NetworkMonitor.handleResponse
  simp only []
  split_ifs
  · exact ⟨rfl, rfl⟩
  · exact ⟨by rw [(updateHistory_frame _ _).1]; simp [NetworkMonitor.updatePacketStats],
      by rw [(updateHistory_frame _ _).2.1]; simp [NetworkMonitor.updatePacketStats]⟩

theorem kilobyteRequest_size :
    calculatePreciseSize (fun _ => none)
      (requestData kilobyteRequest.requestHeaders kilobyteRequest.requestBody) = 8192 := by
  have e : requestData kilobyteRequest.requestHeaders kilobyteRequest.requestBody
      = WFRequest.toJS
          { headers := none
            body := some { raw := some [.bytes 1024], formData := none, text := none } } := rfl
  rw [e, calculatePreciseSize_toJS]
  · simp [headerBytes, bodyBytes, UploadData.size, MAX_SAFE_SIZE, MAX_SAFE_INTEGER]
    norm_num
  · intro hs hh
    simp at hh
  · intro b segs hb hraw u hu
    simp at hb
    subst hb
    simp at hraw
    subst hraw
    simp at hu
    subst hu
    simp [headerBytes, UploadData.size, MAX_SAFE_SIZE, MAX_SAFE_INTEGER]
    norm_num
  · intro b hb hraw
    simp at hb
    subst hb
    simp at hraw

/-- C12: from a freshly reset store (`sent = received = total = 0`, `packetCount = 1`, empty
history) with monitoring enabled in chrome mode, `handleRequest` on a request of estimated
size `s` followed by `handleResponse` on a response of size `r` yields `sent = s`,
`received = r`, `total = s + r` (the Number sum, which is the exact sum for integers with a
sum of at most `2 ^ 53`) and `packetCount = 2`. -/
theorem request_then_response_scenario (jsonStringify : JSVal → Option String)
    (self : NetworkMonitor) (request : RequestDetails) (response : ResponseDetails)
    (now later : ℤ) (s : ℚ) (r : JSNum) (hm : self.isMonitoring = true)
    (hc : self.monitoringMode = "chrome")
    (hfresh : self.chromeData
      = { sent := .fin 0, received := .fin 0, total := .fin 0, packetCount := 1 })
    (_hempty : self.history = [])
    (hs : calculatePreciseSize jsonStringify
      (requestData request.requestHeaders request.requestBody) = s)
    (hr : responseSize response = r) :
    ((self.handleRequest jsonStringify request now).handleResponse response later).chromeData
      = { sent := .fin s, received := r, total := (JSNum.fin s).add r, packetCount := 2 }
    ∧ (∀ a b : ℤ, s = a → r = .fin b → |a + b| ≤ 2 ^ 53 →
        ((self.handleRequest jsonStringify request now).handleResponse response
            later).chromeData
          = { sent := .fin a, received := .fin b, total := .fin ((a + b : ℤ) : ℚ),
              packetCount := 2 }) := by
  have hset := handleRequest_settings jsonStringify self request now
  have key : ((self.handleRequest jsonStringify request now).handleResponse response
      later).chromeData
      = { sent := .fin s, received := r, total := (JSNum.fin s).add r, packetCount := 2 } := by
    rw [handleResponse_chromeData _ _ _ (hset.1.trans hm) (hset.2.trans hc),
      handleRequest_chromeData _ _ _ _ hm hc, hfresh, hs, hr]
    simp only [JSNum.zero_add, JSNum.add_zero]
    rfl
  refine ⟨key, ?_⟩
  intro a b ha hb hab
  rw [key, ha, hb, JSNum.add_intCast a b hab]

theorem request_then_response_scenario_witness :
    activeMonitor.isMonitoring = true ∧ activeMonitor.monitoringMode = "chrome"
    ∧ activeMonitor.history = []
    ∧ ((activeMonitor.handleRequest (fun _ => none) kilobyteRequest 1000).handleResponse
          sampleResponse 1200).chromeData
        = { sent := .fin ((8192 : ℤ) : ℚ), received := .fin ((4096 : ℤ) : ℚ),
            total := .fin ((8192 + 4096 : ℤ) : ℚ), packetCount := 2 } :=
  ⟨rfl, rfl, rfl,
    (request_then_response_scenario (fun _ => none) activeMonitor kilobyteRequest
      sampleResponse 1000 1200 8192 (.fin ((4096 : ℤ) : ℚ)) rfl rfl rfl rfl
      kilobyteRequest_size sampleResponse_size).2 8192 4096 (by norm_num) rfl (by norm_num)⟩

theorem handleRequest_chromeData_idle (jsonStringify : JSVal → Option String)
    (self : NetworkMonitor) (details : RequestDetails) (now : ℤ)
    (h : ¬ (self.isMonitoring = true ∧ self.monitoringMode = "chrome")) :
    (self.handleRequest jsonStringify details now).chromeData
      = { self.chromeData with packetCount := self.chromeData.packetCount + 1 } := by
  unfold NetworkMonitor.handleRequest
  simp only []
  by_cases hm : self.isMonitoring = true
  · have hc : ¬ self.monitoringMode = "chrome" := fun hc => h ⟨hm, hc⟩
    simp only [hm, Bool.not_true, Bool.false_eq_true, if_false, hc]
    rw [updateHistory_chromeData]
  · simp [hm]

theorem handleResponse_idle (self : NetworkMonitor) (details : ResponseDetails) (now : ℤ)
    (h : ¬ (self.isMonitoring = true ∧ self.monitoringMode = "chrome")) :
    self.handleResponse details now = self := by
  unfold NetworkMonitor.handleResponse
  rw [if_pos]
  by_cases hm : self.isMonitoring = true
  · have hc : ¬ self.monitoringMode = "chrome" := fun hc => h ⟨hm, hc⟩
    simp [hc]
  · simp [hm]

theorem handleCompleted_chromeData (self : NetworkMonitor) (now : ℤ) :
    (self.handleCompleted now).chromeData
      = { self.chromeData with packetCount := self.chromeData.packetCount + 1 } := by
  unfold NetworkMonitor.handleCompleted
  simp only []
  split_ifs <;> simp only [updateHistory_chromeData, updatePacketStats_chromeData]

theorem handleCompleted_deviceData (self : NetworkMonitor) (now : ℤ) :
    (self.handleCompleted now).deviceData = self.deviceData := by
  unfold NetworkMonitor.handleCompleted
  simp only []
  split_ifs <;> simp only [updateHistory_deviceData, updatePacketStats_deviceData]

theorem monitoringTick_chromeData (self : NetworkMonitor) (mock : ℚ) (now : ℤ) :
    (self.monitoringTick mock now).chromeData
      = { self.chromeData with
          packetCount := self.chromeData.packetCount
            + (if self.monitoringMode = "device" then 2 else 1) } := by
  unfold NetworkMonitor.monitoringTick
  simp only [updateHistory_chromeData]
  split_ifs
  · simp only [NetworkMonitor.updateDeviceData]
    congr 1
    ring
  · rfl

theorem monitoringTick_deviceData (self : NetworkMonitor) (mock : ℚ) (now : ℤ) :
    (self.monitoringTick mock now).deviceData
      = if self.monitoringMode = "device" then
          { sent := self.deviceData.sent.add (.fin mock)
            received := self.deviceData.received.add
              ((JSNum.fin mock).mul (roundToDouble (4 / 5)))
            total := (self.deviceData.sent.add (.fin mock)).add
              (self.deviceData.received.add ((JSNum.fin mock).mul (roundToDouble (4 / 5))))
            packetCount := self.deviceData.packetCount + 2 }
        else self.deviceData := by
  unfold NetworkMonitor.monitoringTick
  simp only [updateHistory_deviceData]
  split_ifs
  · simp only [NetworkMonitor.updateDeviceData]
    congr 1
    ring
  · rfl

theorem totalsRecomputed_preserved (jsonStringify : JSVal → Option String)
    (self : NetworkMonitor) (request : RequestDetails) (response : ResponseDetails)
    (mock : ℚ) (now : ℤ) (h : self.totalsRecomputed) :
    NetworkMonitor.initial.totalsRecomputed
    ∧ (self.handleRequest jsonStringify request now).totalsRecomputed
    ∧ (self.handleResponse response now).totalsRecomputed
    ∧ (self.handleCompleted now).totalsRecomputed
    ∧ self.heartbeatTick.totalsRecomputed
    ∧ (self.monitoringTick mock now).totalsRecomputed
    ∧ (self.updateDeviceData mock).totalsRecomputed
    ∧ self.resetData.totalsRecomputed
    ∧ self.clearCachedData.totalsRecomputed
    ∧ self.resetToDefaults.totalsRecomputed := by
  obtain ⟨hc, hd⟩ := h
  refine ⟨⟨rfl, rfl⟩, ?_, ?_, ?_, ⟨hc, hd⟩, ?_, ⟨hc, rfl⟩, ⟨rfl, rfl⟩, ⟨rfl, rfl⟩, ⟨rfl, rfl⟩⟩
  · refine ⟨?_, by rw [handleRequest_deviceData]; exact hd⟩
    by_cases hmc : self.isMonitoring = true ∧ self.monitoringMode = "chrome"
    · rw [handleRequest_chromeData jsonStringify self request now hmc.1 hmc.2]
    · rw [handleRequest_chromeData_idle jsonStringify self request now hmc]
      exact hc
  · by_cases hmc : self.isMonitoring = true ∧ self.monitoringMode = "chrome"
    · refine ⟨?_, by rw [handleResponse_deviceData]; exact hd⟩
      rw [handleResponse_chromeData self response now hmc.1 hmc.2]
    · rw [handleResponse_idle self response now hmc]
      exact ⟨hc, hd⟩
  · refine ⟨?_, by rw [handleCompleted_deviceData]; exact hd⟩
    rw [handleCompleted_chromeData]
    exact hc
  · refine ⟨?_, ?_⟩
    · rw [monitoringTick_chromeData]
      exact hc
    · rw [monitoringTick_deviceData]
      split_ifs
      · rfl
      · exact hd

set_option maxRecDepth 100000 in
theorem parseIntString_nines : parseIntString (nines 400) = some (10 ^ 400 - 1) := by
  decide

set_option maxRecDepth 100000 in
theorem parseIntString_minus_nines :
    parseIntString (String.mk (Char.ofNat 45 :: (nines 400).data))
      = some (-(10 ^ 400 - 1)) := by
  decide

theorem hugeLengthResponse_size : responseSize hugeLengthResponse = .posInf := by
  rw [responseSize_parsed hugeLengthResponse [⟨"Content-Length", some (nines 400)⟩]
    ⟨"Content-Length", some (nines 400)⟩ (nines 400) (10 ^ 400 - 1) rfl rfl rfl
    parseIntString_nines]
  exact roundToDouble_huge _ (by norm_num)

theorem negativeHugeLengthResponse_size :
    responseSize negativeHugeLengthResponse = .negInf := by
  rw [responseSize_parsed negativeHugeLengthResponse
    [⟨"Content-Length", some (String.mk (Char.ofNat 45 :: (nines 400).data))⟩]
    ⟨"Content-Length", some (String.mk (Char.ofNat 45 :: (nines 400).data))⟩
    (String.mk (Char.ofNat 45 :: (nines 400).data)) (-(10 ^ 400 - 1)) rfl rfl rfl
    parseIntString_minus_nines]
  exact roundToDouble_neg_huge _ (by norm_num)

theorem negativeLengthResponse_size : responseSize negativeLengthResponse = .fin (-5) := by
  rw [responseSize_parsed negativeLengthResponse [⟨"Content-Length", some "-5"⟩]
    ⟨"Content-Length", some "-5"⟩ "-5" (-5) rfl (by decide) rfl (by decide)]
  have := roundToDouble_intCast (-5) (by norm_num)
  simpa using this

theorem startMonitoring_initial :
    NetworkMonitor.initial.startMonitoring.isMonitoring = true
    ∧ NetworkMonitor.initial.startMonitoring.monitoringMode = "chrome"
    ∧ NetworkMonitor.initial.startMonitoring.chromeData
        = { sent := .fin 0, received := .fin 0, total := .fin 0, packetCount := 1 }
    ∧ NetworkMonitor.initial.startMonitoring.deviceData
        = { sent := .fin 0, received := .fin 0, total := .fin 0, packetCount := 1 }
    ∧ NetworkMonitor.initial.startMonitoring.history = [] := by
  refine ⟨?_, ?_, ?_, ?_, ?_⟩ <;> simp [NetworkMonitor.startMonitoring, NetworkMonitor.initial]

/-- C13, the code at the failing input: from the constructor's state, `startMonitoring()`,
a response whose `Content-Length` is 400 digits 9 and a response whose `Content-Length` is
the same digits after a minus sign.  The first size is `Infinity` and leaves
`received = total = Infinity`; the second size is `-Infinity` and leaves `received = NaN`
and `total = NaN`, so that `total == sent + received` is false for `chromeData`. -/
theorem totals_become_NaN :
    NetworkMonitor.initial.totalsConsistent
    ∧ responseSize hugeLengthResponse = .posInf
    ∧ responseSize negativeHugeLengthResponse = .negInf
    ∧ (NetworkMonitor.run (fun _ => none) NetworkMonitor.initial
        [.startMonitoring, .response hugeLengthResponse 1000]).chromeData
        = { sent := .fin 0, received := .posInf, total := .posInf, packetCount := 1 }
    ∧ (NetworkMonitor.run (fun _ => none) NetworkMonitor.initial
        [.startMonitoring, .response hugeLengthResponse 1000,
          .response negativeHugeLengthResponse 2000]).chromeData
        = { sent := .fin 0, received := .nan, total := .nan, packetCount := 1 }
    ∧ ¬ (NetworkMonitor.run (fun _ => none) NetworkMonitor.initial
        [.startMonitoring, .response hugeLengthResponse 1000,
          .response negativeHugeLengthResponse 2000]).totalsConsistent := by
  obtain ⟨m0, c0, d0, _, _⟩ := startMonitoring_initial
  have r1 : NetworkMonitor.run (fun _ => none) NetworkMonitor.initial
      [.startMonitoring, .response hugeLengthResponse 1000]
      = NetworkMonitor.initial.startMonitoring.handleResponse hugeLengthResponse 1000 := rfl
  have r2 : NetworkMonitor.run (fun _ => none) NetworkMonitor.initial
      [.startMonitoring, .response hugeLengthResponse 1000,
        .response negativeHugeLengthResponse 2000]
      = (NetworkMonitor.initial.startMonitoring.handleResponse hugeLengthResponse
          1000).handleResponse negativeHugeLengthResponse 2000 := rfl
  have s1 : (NetworkMonitor.initial.startMonitoring.handleResponse hugeLengthResponse
      1000).isMonitoring = true
      ∧ (NetworkMonitor.initial.startMonitoring.handleResponse hugeLengthResponse
      1000).monitoringMode = "chrome" := by
    rw [(handleResponse_settings _ _ _).1, (handleResponse_settings _ _ _).2]
    exact ⟨m0, c0⟩
  have h1 : (NetworkMonitor.initial.startMonitoring.handleResponse hugeLengthResponse
      1000).chromeData
      = { sent := .fin 0, received := .posInf, total := .posInf, packetCount := 1 } := by
    rw [handleResponse_chromeData _ _ _ m0 c0, d0, hugeLengthResponse_size]
    rfl
  have h2 : ((NetworkMonitor.initial.startMonitoring.handleResponse hugeLengthResponse
      1000).handleResponse negativeHugeLengthResponse 2000).chromeData
      = { sent := .fin 0, received := .nan, total := .nan, packetCount := 1 } := by
    rw [handleResponse_chromeData _ _ _ s1.1 s1.2, h1, negativeHugeLengthResponse_size]
    rfl
  refine ⟨⟨by decide, by decide⟩, hugeLengthResponse_size, negativeHugeLengthResponse_size,
    by rw [r1, h1], by rw [r2, h2], ?_⟩
  rw [r2]
  intro hcons
  have := hcons.1
  rw [h2] at this
  exact absurd this (by decide)

theorem handleRequest_packetCount (jsonStringify : JSVal → Option String)
    (self : NetworkMonitor) (details : RequestDetails) (now : ℤ) :
    (self.handleRequest jsonStringify details now).chromeData.packetCount
      = self.chromeData.packetCount + 1 := by
  by_cases hmc : self.isMonitoring = true ∧ self.monitoringMode = "chrome"
  · rw [handleRequest_chromeData jsonStringify self details now hmc.1 hmc.2]
  · rw [handleRequest_chromeData_idle jsonStringify self details now hmc]

theorem handleResponse_packetCount (self : NetworkMonitor) (details : ResponseDetails)
    (now : ℤ) :
    (self.handleResponse details now).chromeData.packetCount = self.chromeData.packetCount := by
  by_cases hmc : self.isMonitoring = true ∧ self.monitoringMode = "chrome"
  · rw [handleResponse_chromeData self details now hmc.1 hmc.2]
  · rw [handleResponse_idle self details now hmc]

theorem startMonitoring_packetCounts (self : NetworkMonitor) (h : self.packetCountsPositive) :
    self.startMonitoring.chromeData = self.chromeData
    ∧ self.startMonitoring.deviceData = self.deviceData := by
  have h0 : self.chromeData.packetCount ≠ 0 := by
    have := h.1
    omega
  unfold NetworkMonitor.startMonitoring
  split_ifs <;> simp_all

theorem stopMonitoring_packetCounts (self : NetworkMonitor) :
    self.stopMonitoring.chromeData = self.chromeData
    ∧ self.stopMonitoring.deviceData = self.deviceData := by
  unfold NetworkMonitor.stopMonitoring
  simp only []
  split_ifs <;> exact ⟨rfl, rfl⟩

theorem step_packetCounts (jsonStringify : JSVal → Option String) (self : NetworkMonitor)
    (e : Event) (h : self.packetCountsPositive) :
    self.chromeData.packetCount ≤ (self.step jsonStringify e).chromeData.packetCount
    ∧ self.deviceData.packetCount ≤ (self.step jsonStringify e).deviceData.packetCount := by
  cases e with
  | request details now =>
    simp only [NetworkMonitor.step, handleRequest_packetCount, handleRequest_deviceData]
    omega
  | response details now =>
    simp only [NetworkMonitor.step, handleResponse_packetCount, handleResponse_deviceData]
    omega
  | completed now =>
    simp only [NetworkMonitor.step, handleCompleted_chromeData, handleCompleted_deviceData]
    omega
  | heartbeat =>
    simp only [NetworkMonitor.step, NetworkMonitor.heartbeatTick]
    omega
  | monitoringTick mock now =>
    simp only [NetworkMonitor.step, monitoringTick_chromeData, monitoringTick_deviceData]
    split_ifs
    · exact ⟨by show _ ≤ _ + 2; omega, by show _ ≤ _ + 2; omega⟩
    · exact ⟨by show _ ≤ _ + 1; omega, le_rfl⟩
  | deviceUpdate mock =>
    simp only [NetworkMonitor.step, NetworkMonitor.updateDeviceData]
    omega
  | startMonitoring =>
    simp only [NetworkMonitor.step, (startMonitoring_packetCounts self h).1,
      (startMonitoring_packetCounts self h).2]
    omega
  | stopMonitoring =>
    simp only [NetworkMonitor.step, (stopMonitoring_packetCounts self).1,
      (stopMonitoring_packetCounts self).2]
    omega

theorem step_packetCountsPositive (jsonStringify : JSVal → Option String)
    (self : NetworkMonitor) (e : Event) (h : self.packetCountsPositive) :
    (self.step jsonStringify e).packetCountsPositive := by
  have hs := step_packetCounts jsonStringify self e h
  exact ⟨le_trans h.1 hs.1, le_trans h.2 hs.2⟩

theorem run_packetCounts (jsonStringify : JSVal → Option String) (events : List Event)
    (self : NetworkMonitor) (h : self.packetCountsPositive) :
    (self.run jsonStringify events).packetCountsPositive
    ∧ self.chromeData.packetCount ≤ (self.run jsonStringify events).chromeData.packetCount
    ∧ self.deviceData.packetCount ≤ (self.run jsonStringify events).deviceData.packetCount := by
  induction events generalizing self with
  | nil => exact ⟨h, le_rfl, le_rfl⟩
  | cons e es ih =>
    have hs := step_packetCounts jsonStringify self e h
    have ih' := ih (self.step jsonStringify e) (step_packetCountsPositive jsonStringify self e h)
    simp only [NetworkMonitor.run, List.foldl_cons] at ih' ⊢
    exact ⟨ih'.1, le_trans hs.1 ih'.2.1, le_trans hs.2 ih'.2.2⟩

theorem initial_packetCountsPositive : NetworkMonitor.initial.packetCountsPositive := by
  simp [NetworkMonitor.packetCountsPositive, NetworkMonitor.initial]

/-- C14: in every state reached from the constructor's initial state by a sequence of
`handleRequest`, `handleResponse`, `handleCompleted`, heartbeat ticks, monitoring ticks,
`updateDeviceData`, `startMonitoring` and `stopMonitoring`, both packet counts are at least
1, and in every later state of the sequence each is at least what it was. -/
theorem packetCount_monotone (jsonStringify : JSVal → Option String)
    (earlier later : List Event) :
    1 ≤ (NetworkMonitor.initial.run jsonStringify earlier).chromeData.packetCount
    ∧ 1 ≤ (NetworkMonitor.initial.run jsonStringify earlier).deviceData.packetCount
    ∧ (NetworkMonitor.initial.run jsonStringify earlier).chromeData.packetCount
        ≤ (NetworkMonitor.initial.run jsonStringify (earlier ++ later)).chromeData.packetCount
    ∧ (NetworkMonitor.initial.run jsonStringify earlier).deviceData.packetCount
        ≤ (NetworkMonitor.initial.run jsonStringify (earlier ++ later)).deviceData.packetCount := by
  have h1 := run_packetCounts jsonStringify earlier NetworkMonitor.initial
    initial_packetCountsPositive
  have h2 := run_packetCounts jsonStringify later
    (NetworkMonitor.initial.run jsonStringify earlier) h1.1
  have e : NetworkMonitor.initial.run jsonStringify (earlier ++ later)
      = (NetworkMonitor.initial.run jsonStringify earlier).run jsonStringify later := by
    simp only [NetworkMonitor.run, List.foldl_append]
  rw [e]
  exact ⟨h1.1.1, h1.1.2, h2.2.1, h2.2.2⟩

/-- C16: a heartbeat tick increases `chromeData.packetCount` and `deviceData.packetCount`
by exactly 1 each and changes nothing else (not `sent`, `received`, `total` of either
source, not the history, not a setting), whatever `isMonitoring` is; and when
`isMonitoring` is false, `handleRequest` and `handleCompleted` each increase
`chromeData.packetCount` by exactly 1 and leave every other field of the state unchanged. -/
theorem packetOnly_increments (jsonStringify : JSVal → Option String) (self : NetworkMonitor)
    (details : RequestDetails) (now : ℤ) :
    (self.heartbeatTick
        = { self with
            chromeData := { self.chromeData with packetCount := self.chromeData.packetCount + 1 }
            deviceData := { self.deviceData with packetCount := self.deviceData.packetCount + 1 } }
      ∧ self.heartbeatTick.chromeData.packetCount = self.chromeData.packetCount + 1
      ∧ self.heartbeatTick.deviceData.packetCount = self.deviceData.packetCount + 1
      ∧ self.heartbeatTick.chromeData.sent = self.chromeData.sent
      ∧ self.heartbeatTick.chromeData.received = self.chromeData.received
      ∧ self.heartbeatTick.chromeData.total = self.chromeData.total
      ∧ self.heartbeatTick.deviceData.sent = self.deviceData.sent
      ∧ self.heartbeatTick.deviceData.received = self.deviceData.received
      ∧ self.heartbeatTick.deviceData.total = self.deviceData.total
      ∧ self.heartbeatTick.history = self.history
      ∧ self.heartbeatTick.isMonitoring = self.isMonitoring
      ∧ self.heartbeatTick.monitoringMode = self.monitoringMode
      ∧ self.heartbeatTick.dataUnits = self.dataUnits
      ∧ self.heartbeatTick.updateIntervalMs = self.updateIntervalMs
      ∧ self.heartbeatTick.colorTheme = self.colorTheme)
    ∧ (self.isMonitoring = false →
        self.handleRequest jsonStringify details now
          = { self with
              chromeData :=
                { self.chromeData with packetCount := self.chromeData.packetCount + 1 } }
        ∧ self.handleCompleted now
          = { self with
              chromeData :=
                { self.chromeData with packetCount := self.chromeData.packetCount + 1 } }) := by
  refine ⟨⟨rfl, rfl, rfl, rfl, rfl, rfl, rfl, rfl, rfl, rfl, rfl, rfl, rfl, rfl, rfl⟩, ?_⟩
  intro hm
  constructor
  · unfold NetworkMonitor.handleRequest
    simp [hm]
  · unfold NetworkMonitor.handleCompleted
    simp [hm]

theorem packetOnly_increments_witness :
    NetworkMonitor.initial.isMonitoring = false
    ∧ NetworkMonitor.initial.handleRequest (fun _ => none) ⟨.undefined, .undefined⟩ 1000
        = { NetworkMonitor.initial with
            chromeData :=
              { NetworkMonitor.initial.chromeData with
                packetCount := NetworkMonitor.initial.chromeData.packetCount + 1 } }
    ∧ NetworkMonitor.initial.handleCompleted 1000
        = { NetworkMonitor.initial with
            chromeData :=
              { NetworkMonitor.initial.chromeData with
                packetCount := NetworkMonitor.initial.chromeData.packetCount + 1 } } :=
  ⟨rfl,
    ((packetOnly_increments (fun _ => none) NetworkMonitor.initial ⟨.undefined, .undefined⟩
      1000).2 rfl).1,
    ((packetOnly_increments (fun _ => none) NetworkMonitor.initial ⟨.undefined, .undefined⟩
      1000).2 rfl).2⟩

theorem appendBounded_lastN (l : List DataPoint) (p : DataPoint) :
    appendBounded (lastN maxHistoryPoints l) p = lastN maxHistoryPoints (l ++ [p]) := by
  unfold appendBounded lastN
  by_cases h : l.length ≤ maxHistoryPoints
  · have : l.length - maxHistoryPoints = 0 := by omega
    rw [this, List.drop_zero]
  · have hlen : (List.drop (l.length - maxHistoryPoints) l).length = maxHistoryPoints := by
      rw [List.length_drop]
      omega
    have e1 : (List.drop (l.length - maxHistoryPoints) l ++ [p]).length - maxHistoryPoints
        = 1 := by
      rw [List.length_append, hlen]
      simp
    have e2 : (l ++ [p]).length - maxHistoryPoints = (l.length - maxHistoryPoints) + 1 := by
      simp only [List.length_append, List.length_singleton]
      omega
    have e3 : List.drop (l.length - maxHistoryPoints) (l ++ [p])
        = List.drop (l.length - maxHistoryPoints) l ++ [p] :=
      List.drop_append_of_le_length (by omega)
    rw [e1, e2, ← List.drop_drop, e3]

theorem appendRun_length (steps : List ((NetworkMonitor → NetworkMonitor) × ℤ))
    (self : NetworkMonitor) : (self.appendRun steps).2.length = steps.length := by
  induction steps generalizing self with
  | nil => rfl
  | cons step rest ih =>
    simp only [NetworkMonitor.appendRun, List.length_cons, ih]

theorem appendRun_history (steps : List ((NetworkMonitor → NetworkMonitor) × ℤ))
    (hframe : ∀ step ∈ steps, ∀ s : NetworkMonitor, (step.1 s).history = s.history)
    (self : NetworkMonitor) (l : List DataPoint)
    (h : self.history = lastN maxHistoryPoints l) :
    (self.appendRun steps).1.history
      = lastN maxHistoryPoints (l ++ (self.appendRun steps).2) := by
  induction steps generalizing self l with
  | nil => simpa [NetworkMonitor.appendRun] using h
  | cons step rest ih =>
    simp only [NetworkMonitor.appendRun]
    have h1 : ((step.1 self).updateHistory step.2).history
        = lastN maxHistoryPoints (l ++ [(step.1 self).dataPoint step.2]) := by
      rw [updateHistory_history, hframe step (by simp) self, h, appendBounded_lastN]
    have := ih (fun s hs => hframe s (by simp [hs])) _ _ h1
    rw [this]
    simp

/-- C17: starting from an empty history, after `n` calls of `updateHistory` (with any
changes of the state in between that leave the history alone) the history is the last
`min(n, 100)` appended snapshots in their order, so its length is `min(n, 100)` and never
above 100; after 150 calls its length is 100 and it holds the snapshots 51 to 150. -/
theorem history_bounded_fifo (steps : List ((NetworkMonitor → NetworkMonitor) × ℤ))
    (self : NetworkMonitor)
    (hframe : ∀ step ∈ steps, ∀ s : NetworkMonitor, (step.1 s).history = s.history)
    (hempty : self.history = []) :
    (self.appendRun steps).2.length = steps.length
    ∧ (self.appendRun steps).1.history = lastN 100 (self.appendRun steps).2
    ∧ (self.appendRun steps).1.history.length = min steps.length 100
    ∧ (self.appendRun steps).1.history.length ≤ 100
    ∧ (steps.length = 150 →
        (self.appendRun steps).1.history.length = 100
        ∧ (self.appendRun steps).1.history = (self.appendRun steps).2.drop 50) := by
  have hlen := appendRun_length steps self
  have hh : (self.appendRun steps).1.history = lastN 100 (self.appendRun steps).2 := by
    have := appendRun_history steps hframe self [] (by rw [hempty]; rfl)
    simpa [maxHistoryPoints] using this
  have hl : (self.appendRun steps).1.history.length = min steps.length 100 := by
    rw [hh, lastN, List.length_drop, hlen]
    omega
  refine ⟨hlen, hh, hl, by rw [hl]; omega, ?_⟩
  intro h150
  refine ⟨by rw [hl, h150]; rfl, ?_⟩
  rw [hh, lastN, hlen, h150]

theorem longRun_frame :
    ∀ step ∈ longRun, ∀ s : NetworkMonitor, (step.1 s).history = s.history := by
  intro step hs s
  simp only [longRun, List.mem_map] at hs
  obtain ⟨i, _, rfl⟩ := hs
  rfl

theorem longRun_length : longRun.length = 150 := by
  unfold longRun
  rw [List.length_map, List.length_range]

theorem history_bounded_fifo_witness :
    NetworkMonitor.initial.history = []
    ∧ (NetworkMonitor.initial.appendRun longRun).1.history
        = lastN 100 (NetworkMonitor.initial.appendRun longRun).2
    ∧ (NetworkMonitor.initial.appendRun longRun).1.history.length = 100
    ∧ (NetworkMonitor.initial.appendRun longRun).1.history
        = (NetworkMonitor.initial.appendRun longRun).2.drop 50 :=
  ⟨rfl,
    (history_bounded_fifo longRun NetworkMonitor.initial longRun_frame rfl).2.1,
    ((history_bounded_fifo longRun NetworkMonitor.initial longRun_frame rfl).2.2.2.2
      longRun_length).1,
    ((history_bounded_fifo longRun NetworkMonitor.initial longRun_frame rfl).2.2.2.2
      longRun_length).2⟩

theorem currentSpeed_last_two (self : NetworkMonitor) (init : List DataPoint)
    (previous latest : DataPoint) (hm : self.isMonitoring = true)
    (hh : self.history = init ++ [previous, latest]) :
    self.currentSpeed
      = if (JSNum.fin 0).lt
            ((JSNum.fin ((latest.timestamp - previous.timestamp : ℤ) : ℚ)).div (.fin 1000))
        then
          ((latest.total.sub previous.total).div
            ((JSNum.fin ((latest.timestamp - previous.timestamp : ℤ) : ℚ)).div
              (.fin 1000))).mul (.fin 8)
        else .fin 0 := by
  have hlen : self.history.length = init.length + 2 := by rw [hh]; simp
  have h1 : self.history[self.history.length - 1]? = some latest := by
    have e : init.length + 2 - 1 = init.length + 1 := by omega
    rw [hlen, hh, e, List.getElem?_append_right (Nat.le_add_right _ _)]
    simp
  have h2 : self.history[self.history.length - 2]? = some previous := by
    have e : init.length + 2 - 2 = init.length := by omega
    rw [hlen, hh, e, List.getElem?_append_right le_rfl]
    simp
  unfold NetworkMonitor.currentSpeed
  rw [if_pos ⟨hm, by omega⟩, h1, h2]

theorem timeDiff_not_positive (d : ℤ) (h : d ≤ 0) :
    (JSNum.fin 0).lt ((JSNum.fin (d : ℚ)).div (.fin 1000)) = false := by
  have h0 : (d : ℚ) / 1000 ≤ 0 :=
    div_nonpos_of_nonpos_of_nonneg (by exact_mod_cast h) (by norm_num)
  have e : (JSNum.fin (d : ℚ)).div (.fin 1000) = roundToDouble ((d : ℚ) / 1000) := by
    simp only [JSNum.div]
    rw [if_pos (by norm_num)]
  rw [e]
  rcases roundToDouble_nonpos _ h0 with hr | ⟨r, hr, hr0⟩
  · rw [hr]
    rfl
  · rw [hr]
    simp only [JSNum.lt, decide_eq_false_iff_not, not_lt]
    exact hr0

/-- C18: the `speed` of `getCurrentData` is exactly 0 whenever `isMonitoring` is false, or
the history holds fewer than 2 snapshots, or the timestamp of the last snapshot is not above
that of the one before it. -/
theorem speed_zero (self : NetworkMonitor)
    (h : self.isMonitoring = false ∨ self.history.length < 2
      ∨ ∃ init previous latest, self.history = init ++ [previous, latest]
          ∧ latest.timestamp ≤ previous.timestamp) :
    self.getCurrentData.speed = .fin 0 := by
  show self.currentSpeed = .fin 0
  rcases h with h | h | ⟨init, previous, latest, hh, ht⟩
  · unfold NetworkMonitor.currentSpeed
    rw [if_neg]
    simp [h]
  · unfold NetworkMonitor.currentSpeed
    rw [if_neg]
    intro hc
    omega
  · by_cases hm : self.isMonitoring = true
    · rw [currentSpeed_last_two self init previous latest hm hh,
        timeDiff_not_positive _ (sub_nonpos.mpr ht)]
      rfl
    · unfold NetworkMonitor.currentSpeed
      rw [if_neg]
      exact fun hc => hm hc.1

theorem speed_zero_witness :
    NetworkMonitor.initial.isMonitoring = false
    ∧ NetworkMonitor.initial.getCurrentData.speed = .fin 0 :=
  ⟨rfl, speed_zero NetworkMonitor.initial (Or.inl rfl)⟩

/-- C19, the code at the failing input: from the constructor's state, `startMonitoring()`
and two requests with one raw body of 1024 bytes each, at the times 0 ms and 1000 ms.  The
history then holds the totals 8192 and 16384 bits one second apart: 8192 bits were sent in
that second, and the quotient of the rate formula is 8192.  The speed of `getCurrentData` is
65536: the quotient, which is in bits per second already, is multiplied by 8. -/
theorem speed_multiplied_by_eight :
    (NetworkMonitor.run (fun _ => none) NetworkMonitor.initial
        [.startMonitoring, .request kilobyteRequest 0,
          .request kilobyteRequest 1000]).isMonitoring = true
    ∧ (NetworkMonitor.run (fun _ => none) NetworkMonitor.initial
        [.startMonitoring, .request kilobyteRequest 0, .request kilobyteRequest 1000]).history
        = [{ timestamp := 0, chrome := ⟨.fin 8192, .fin 0, .fin 8192, 2⟩,
             device := ⟨.fin 0, .fin 0, .fin 0, 1⟩, total := .fin 8192 },
           { timestamp := 1000, chrome := ⟨.fin 16384, .fin 0, .fin 16384, 3⟩,
             device := ⟨.fin 0, .fin 0, .fin 0, 1⟩, total := .fin 16384 }]
    ∧ ((JSNum.fin 16384).sub (.fin 8192)).div
        ((JSNum.fin ((1000 - 0 : ℤ) : ℚ)).div (.fin 1000)) = .fin 8192
    ∧ (NetworkMonitor.run (fun _ => none) NetworkMonitor.initial
        [.startMonitoring, .request kilobyteRequest 0,
          .request kilobyteRequest 1000]).getCurrentData.speed = .fin 65536
    ∧ (NetworkMonitor.run (fun _ => none) NetworkMonitor.initial
        [.startMonitoring, .request kilobyteRequest 0,
          .request kilobyteRequest 1000]).getCurrentData.speed
        ≠ ((JSNum.fin 16384).sub (.fin 8192)).div
            ((JSNum.fin ((1000 - 0 : ℤ) : ℚ)).div (.fin 1000)) := by
  obtain ⟨m0, c0, d0, e0, h0⟩ := startMonitoring_initial
  have r : NetworkMonitor.run (fun _ => none) NetworkMonitor.initial
      [.startMonitoring, .request kilobyteRequest 0, .request kilobyteRequest 1000]
      = (NetworkMonitor.initial.startMonitoring.handleRequest (fun _ => none) kilobyteRequest
          0).handleRequest (fun _ => none) kilobyteRequest 1000 := rfl
  have a1 : (JSNum.fin 8192).add (.fin 8192) = .fin 16384 := by
    have e := JSNum.add_intCast 8192 8192 (by norm_num)
    norm_num at e
    exact e
  have a2 : (JSNum.fin 16384).sub (.fin 8192) = .fin 8192 := by
    have e := JSNum.sub_intCast 16384 8192 (by norm_num)
    norm_num at e
    exact e
  have a3 : (JSNum.fin ((1000 - 0 : ℤ) : ℚ)).div (.fin 1000) = .fin 1 := by
    have e := JSNum.div_intCast 1000 1000 1 (by norm_num) (by norm_num) (by norm_num)
    norm_num at e
    norm_num
    exact e
  have a4 : (JSNum.fin 8192).div (.fin 1) = .fin 8192 := by
    have e := JSNum.div_intCast 8192 1 8192 (by norm_num) (by norm_num) (by norm_num)
    norm_num at e
    exact e
  have a5 : (JSNum.fin 8192).mul (.fin 8) = .fin 65536 := by
    have e := JSNum.mul_intCast 8192 8 (by norm_num)
    norm_num at e
    exact e
  have s1 := handleRequest_settings (fun _ => none) NetworkMonitor.initial.startMonitoring
    kilobyteRequest 0
  have m1 := s1.1.trans m0
  have c1 := s1.2.trans c0
  have k1 : (NetworkMonitor.initial.startMonitoring.handleRequest (fun _ => none)
      kilobyteRequest 0).chromeData = ⟨.fin 8192, .fin 0, .fin 8192, 2⟩ := by
    rw [handleRequest_chromeData _ _ _ _ m0 c0, d0, kilobyteRequest_size]
    simp only [JSNum.zero_add, JSNum.add_zero]
    rfl
  have v1 : (NetworkMonitor.initial.startMonitoring.handleRequest (fun _ => none)
      kilobyteRequest 0).deviceData = ⟨.fin 0, .fin 0, .fin 0, 1⟩ := by
    rw [handleRequest_deviceData, e0]
  have l1 : (NetworkMonitor.initial.startMonitoring.handleRequest (fun _ => none)
      kilobyteRequest 0).history
      = [{ timestamp := 0, chrome := ⟨.fin 8192, .fin 0, .fin 8192, 2⟩,
           device := ⟨.fin 0, .fin 0, .fin 0, 1⟩, total := .fin 8192 }] := by
    rw [handleRequest_history _ _ _ _ m0 c0, k1, h0, e0]
    simp only [JSNum.add_zero]
    rfl
  have k2 : ((NetworkMonitor.initial.startMonitoring.handleRequest (fun _ => none)
      kilobyteRequest 0).handleRequest (fun _ => none) kilobyteRequest 1000).chromeData
      = ⟨.fin 16384, .fin 0, .fin 16384, 3⟩ := by
    rw [handleRequest_chromeData _ _ _ _ m1 c1, k1, kilobyteRequest_size]
    simp only [a1, JSNum.add_zero]
    rfl
  have l2 : ((NetworkMonitor.initial.startMonitoring.handleRequest (fun _ => none)
      kilobyteRequest 0).handleRequest (fun _ => none) kilobyteRequest 1000).history
      = [{ timestamp := 0, chrome := ⟨.fin 8192, .fin 0, .fin 8192, 2⟩,
           device := ⟨.fin 0, .fin 0, .fin 0, 1⟩, total := .fin 8192 },
         { timestamp := 1000, chrome := ⟨.fin 16384, .fin 0, .fin 16384, 3⟩,
           device := ⟨.fin 0, .fin 0, .fin 0, 1⟩, total := .fin 16384 }] := by
    rw [handleRequest_history _ _ _ _ m1 c1, k2, l1, v1]
    simp only [JSNum.add_zero]
    rfl
  have m2 : ((NetworkMonitor.initial.startMonitoring.handleRequest (fun _ => none)
      kilobyteRequest 0).handleRequest (fun _ => none) kilobyteRequest 1000).isMonitoring
      = true := (handleRequest_settings _ _ _ _).1.trans m1
  have q : ((JSNum.fin 16384).sub (.fin 8192)).div
      ((JSNum.fin ((1000 - 0 : ℤ) : ℚ)).div (.fin 1000)) = .fin 8192 := by
    rw [a2, a3, a4]
  have sp : ((NetworkMonitor.initial.startMonitoring.handleRequest (fun _ => none)
      kilobyteRequest 0).handleRequest (fun _ => none) kilobyteRequest
      1000).getCurrentData.speed = .fin 65536 := by
    have g : ∀ s : NetworkMonitor, s.getCurrentData.speed = s.currentSpeed := fun _ => rfl
    rw [g, currentSpeed_last_two _ [] _ _ m2 l2]
    simp only [a2, a3, a4, a5]
    rfl
  rw [r]
  refine ⟨m2, l2, q, sp, ?_⟩
  rw [sp, q]
  intro h
  injection h with h
  norm_num at h

theorem handleMessage_resetData (fractionToString : ℚ → String) (self : NetworkMonitor) :
    self.handleMessage fractionToString (actionRequest "resetData")
      = (self.resetData.clearCachedData, [.success]) := by
  have g : (actionRequest "resetData").get "action" = .str "resetData" := rfl
  have t1 : (actionRequest "resetData").truthy = true := rfl
  have t2 : (actionRequest "resetData").typeofObject = true := rfl
  have t3 : (JSVal.str "resetData").truthy = true := by decide
  have a : includedString allowedActions (.str "resetData") = some "resetData" := by decide
  unfold NetworkMonitor.handleMessage
  simp only [g, t1, t2, t3, a, Bool.not_true, Bool.or_self, Bool.false_eq_true, if_false]
  simp [NetworkMonitor.dispatch]

/-- C15, the code at the failing input: from packet counts 5 and 7, `resetData()` alone
keeps 5 and 7, but the `resetData` message, which calls `clearCachedData()` after it,
answers `{ success: true }` with zero counters, an empty history and both packet counts
at 1. -/
theorem resetData_message_reseeds_packetCount :
    busyMonitor.chromeData.packetCount = 5 ∧ busyMonitor.deviceData.packetCount = 7
    ∧ (busyMonitor.handleMessage (fun _ => "") (actionRequest "resetData")).2 = [.success]
    ∧ (busyMonitor.handleMessage (fun _ => "") (actionRequest "resetData")).1.chromeData
        = { sent := .fin 0, received := .fin 0, total := .fin 0, packetCount := 1 }
    ∧ (busyMonitor.handleMessage (fun _ => "") (actionRequest "resetData")).1.deviceData
        = { sent := .fin 0, received := .fin 0, total := .fin 0, packetCount := 1 }
    ∧ (busyMonitor.handleMessage (fun _ => "") (actionRequest "resetData")).1.history = []
    ∧ busyMonitor.resetData.chromeData.packetCount = 5
    ∧ busyMonitor.resetData.deviceData.packetCount = 7 := by
  rw [handleMessage_resetData]
  refine ⟨rfl, rfl, rfl, rfl, rfl, rfl, ?_, ?_⟩ <;>
    simp [NetworkMonitor.resetData, keptPacketCount, busyMonitor, activeMonitor]

/-- C20: for a request whose action is a string outside the allow-list, a request that is
not an object, and a request without an action, `handleMessage` sends exactly one response,
an error with the message `Unauthorized action` or `Invalid request format`, and returns
the monitor state unchanged. -/
theorem handleMessage_rejects (fractionToString : ℚ → String) (self : NetworkMonitor)
    (request : JSVal)
    (h : (∃ action, request.get "action" = .str action ∧ action ∉ allowedActions)
      ∨ (request.truthy = false ∨ request.typeofObject = false)
      ∨ request.get "action" = .undefined) :
    (self.handleMessage fractionToString request).1 = self
    ∧ ∃ message, (self.handleMessage fractionToString request).2 = [.error message]
        ∧ (message = "Unauthorized action" ∨ message = "Invalid request format") := by
  unfold NetworkMonitor.handleMessage
  by_cases hbad : (!request.truthy || !request.typeofObject || !(request.get "action").truthy)
      = true
  · rw [if_pos hbad]
    exact ⟨rfl, _, rfl, Or.inr rfl⟩
  · rw [if_neg hbad]
    rcases h with ⟨action, ha, hn⟩ | h | h
    · have key : includedString allowedActions (.str action) = none := by
        simp [includedString, hn]
      rw [ha, key]
      exact ⟨rfl, _, rfl, Or.inl rfl⟩
    · exfalso
      apply hbad
      rcases h with h | h <;> simp [h]
    · exfalso
      apply hbad
      rw [h]
      simp [JSVal.truthy]

theorem handleMessage_rejects_witness :
    (NetworkMonitor.initial.handleMessage (fun _ => "") (actionRequest "deleteEverything")).1
        = NetworkMonitor.initial
    ∧ (NetworkMonitor.initial.handleMessage (fun _ => "") (.str "getData")).1
        = NetworkMonitor.initial
    ∧ (NetworkMonitor.initial.handleMessage (fun _ => "") (.obj [])).1
        = NetworkMonitor.initial :=
  ⟨(handleMessage_rejects (fun _ => "") NetworkMonitor.initial
      (actionRequest "deleteEverything")
      (Or.inl ⟨"deleteEverything", rfl, by decide⟩)).1,
    (handleMessage_rejects (fun _ => "") NetworkMonitor.initial (.str "getData")
      (Or.inr (Or.inl (Or.inr rfl)))).1,
    (handleMessage_rejects (fun _ => "") NetworkMonitor.initial (.obj [])
      (Or.inr (Or.inr rfl))).1⟩

/-! ### Settings, persistence and the popup -/

theorem get_str_object (request : JSVal) (key s : String) (h : request.get key = .str s) :
    request.truthy = true ∧ request.typeofObject = true := by
  cases request <;> first | exact ⟨rfl, rfl⟩ | (simp [JSVal.get] at h)

theorem handleMessage_allowed (fractionToString : ℚ → String) (self : NetworkMonitor)
    (request : JSVal) (action : String) (ha : request.get "action" = .str action)
    (hin : action ∈ allowedActions) :
    self.handleMessage fractionToString request
      = self.dispatch fractionToString request action := by
  obtain ⟨ht, ho⟩ := get_str_object request "action" action ha
  have hne : action ≠ "" := by
    intro h
    rw [h] at hin
    revert hin
    decide
  have t : (JSVal.str action).truthy = true := by simp [JSVal.truthy, hne]
  unfold NetworkMonitor.handleMessage
  rw [ha, if_neg (by simp [ht, ho, t])]
  simp [includedString, hin]

theorem includedString_mem (list : List String) (value : JSVal) (s : String)
    (h : includedString list value = some s) : s ∈ list ∧ value = .str s := by
  cases value <;> simp [includedString] at h
  obtain ⟨h1, h2⟩ := h
  subst h2
  exact ⟨h1, rfl⟩

theorem includedString_none (list : List String) (value : JSVal) (h : notIncluded list value) :
    includedString list value = none := by
  cases hv : includedString list value with
  | none => rfl
  | some s =>
    obtain ⟨h1, h2⟩ := includedString_mem list value s hv
    exact absurd h2 (h s h1)

theorem handleMessage_interval (fractionToString : ℚ → String) (self : NetworkMonitor)
    (request : JSVal) (ha : request.get "action" = .str "setUpdateInterval") :
    self.handleMessage fractionToString request
      = match parseIntValue fractionToString (request.get "interval") with
        | some interval =>
          if interval ≥ 200 ∧ interval ≤ 2000 then
            (if ({ self with updateIntervalMs := interval } : NetworkMonitor).updateInterval.isSome
              then ({ self with updateIntervalMs := interval } : NetworkMonitor).stopMonitoring.startMonitoring
              else { self with updateIntervalMs := interval }, [.success])
          else (self, [.error "Invalid update interval"])
        | none => (self, [.error "Invalid update interval"]) := by
  rw [handleMessage_allowed fractionToString self request "setUpdateInterval" ha (by decide)]
  unfold NetworkMonitor.dispatch
  simp only [show ("setUpdateInterval" = "getData") = False from by decide,
    show ("setUpdateInterval" = "startMonitoring") = False from by decide,
    show ("setUpdateInterval" = "stopMonitoring") = False from by decide,
    show ("setUpdateInterval" = "setMonitoringMode") = False from by decide,
    show ("setUpdateInterval" = "setDataUnits") = False from by decide,
    show ("setUpdateInterval" = "setColorTheme") = False from by decide, if_false, if_true]

theorem startMonitoring_settings (self : NetworkMonitor) :
    self.startMonitoring.updateIntervalMs = self.updateIntervalMs
    ∧ self.startMonitoring.monitoringMode = self.monitoringMode
    ∧ self.startMonitoring.dataUnits = self.dataUnits
    ∧ self.startMonitoring.colorTheme = self.colorTheme := by
  unfold NetworkMonitor.startMonitoring
  simp only []
  split_ifs <;> exact ⟨rfl, rfl, rfl, rfl⟩

theorem stopMonitoring_settings (self : NetworkMonitor) :
    self.stopMonitoring.updateIntervalMs = self.updateIntervalMs
    ∧ self.stopMonitoring.monitoringMode = self.monitoringMode
    ∧ self.stopMonitoring.dataUnits = self.dataUnits
    ∧ self.stopMonitoring.colorTheme = self.colorTheme := by
  unfold NetworkMonitor.stopMonitoring
  simp only []
  split_ifs <;> exact ⟨rfl, rfl, rfl, rfl⟩

theorem startMonitoring_settingsValid (self : NetworkMonitor) (h : self.settingsValid) :
    self.startMonitoring.settingsValid := by
  obtain ⟨a, b, c, d⟩ := startMonitoring_settings self
  unfold NetworkMonitor.settingsValid
  rw [a, b, c, d]
  exact h

theorem stopMonitoring_settingsValid (self : NetworkMonitor) (h : self.settingsValid) :
    self.stopMonitoring.settingsValid := by
  obtain ⟨a, b, c, d⟩ := stopMonitoring_settings self
  unfold NetworkMonitor.settingsValid
  rw [a, b, c, d]
  exact h

theorem dispatch_settingsValid (fractionToString : ℚ → String) (self : NetworkMonitor)
    (request : JSVal) (action : String) (h : self.settingsValid) :
    (self.dispatch fractionToString request action).1.settingsValid := by
  unfold NetworkMonitor.dispatch
  by_cases h1 : action = "getData"
  · rw [if_pos h1]
    exact h
  rw [if_neg h1]
  by_cases h2 : action = "startMonitoring"
  · rw [if_pos h2]
    exact startMonitoring_settingsValid self h
  rw [if_neg h2]
  by_cases h3 : action = "stopMonitoring"
  · rw [if_pos h3]
    exact stopMonitoring_settingsValid self h
  rw [if_neg h3]
  by_cases h4 : action = "setMonitoringMode"
  · rw [if_pos h4]
    cases hv : includedString ["chrome", "device"] (request.get "mode") with
    | none => exact h
    | some mode => exact ⟨(includedString_mem _ _ _ hv).1, h.2⟩
  rw [if_neg h4]
  by_cases h5 : action = "setDataUnits"
  · rw [if_pos h5]
    cases hv : includedString ["B", "KB", "MB", "GB", "TB", "PB"] (request.get "units") with
    | none => exact h
    | some units => exact ⟨h.1, (includedString_mem _ _ _ hv).1, h.2.2⟩
  rw [if_neg h5]
  by_cases h6 : action = "setColorTheme"
  · rw [if_pos h6]
    cases hv : includedString ["yellow", "white"] (request.get "theme") with
    | none => exact h
    | some theme => exact ⟨h.1, h.2.1, (includedString_mem _ _ _ hv).1, h.2.2.2⟩
  rw [if_neg h6]
  by_cases h7 : action = "setUpdateInterval"
  · rw [if_pos h7]
    cases hv : parseIntValue fractionToString (request.get "interval") with
    | none => exact h
    | some interval =>
      simp only []
      split_ifs with hr hs
      · apply startMonitoring_settingsValid
        apply stopMonitoring_settingsValid
        exact ⟨h.1, h.2.1, h.2.2.1, hr.1, hr.2⟩
      · exact ⟨h.1, h.2.1, h.2.2.1, hr.1, hr.2⟩
      · exact h
  rw [if_neg h7]
  split_ifs
  · exact h
  · exact h
  · exact h

theorem handleMessage_settingsValid (fractionToString : ℚ → String) (self : NetworkMonitor)
    (request : JSVal) (h : self.settingsValid) :
    (self.handleMessage fractionToString request).1.settingsValid := by
  unfold NetworkMonitor.handleMessage
  split_ifs
  · exact h
  · cases includedString allowedActions (request.get "action") with
    | none => exact h
    | some action => exact dispatch_settingsValid fractionToString self request action h

theorem runMessages_settingsValid (fractionToString : ℚ → String) (requests : List JSVal) :
    ∀ self : NetworkMonitor, self.settingsValid →
      (self.runMessages fractionToString requests).settingsValid := by
  induction requests with
  | nil => intro self h; exact h
  | cons request rest ih =>
    intro self h
    exact ih _ (handleMessage_settingsValid fractionToString self request h)

theorem initial_settingsValid : NetworkMonitor.initial.settingsValid := by
  unfold NetworkMonitor.settingsValid NetworkMonitor.initial
  simp

/-- C21: for a request whose action is `setUpdateInterval`, when `parseInt(interval)` is
not an integer in `[200, 2000]` (it is `NaN`, below 200 or above 2000) `handleMessage`
answers with the error `Invalid update interval` and returns the state unchanged; when it is
an integer `n` in `[200, 2000]` the answer is `{ success: true }` and `updateIntervalMs` is
`n` afterwards. -/
theorem setUpdateInterval_validated (fractionToString : ℚ → String) (self : NetworkMonitor)
    (request : JSVal) (ha : request.get "action" = .str "setUpdateInterval") :
    ((∀ n, parseIntValue fractionToString (request.get "interval") = some n →
          n < 200 ∨ 2000 < n) →
        self.handleMessage fractionToString request
          = (self, [.error "Invalid update interval"]))
    ∧ (∀ n, parseIntValue fractionToString (request.get "interval") = some n →
        200 ≤ n → n ≤ 2000 →
        (self.handleMessage fractionToString request).2 = [.success]
        ∧ (self.handleMessage fractionToString request).1.updateIntervalMs = n) := by
  rw [handleMessage_interval fractionToString self request ha]
  constructor
  · intro h
    cases hp : parseIntValue fractionToString (request.get "interval") with
    | none => rfl
    | some n =>
      simp only []
      rw [if_neg]
      rintro ⟨h1, h2⟩
      rcases h n hp with h3 | h3 <;> omega
  · intro n hp h1 h2
    rw [hp]
    simp only []
    rw [if_pos ⟨h1, h2⟩]
    refine ⟨rfl, ?_⟩
    simp only []
    split_ifs
    · rw [(startMonitoring_settings _).1, (stopMonitoring_settings _).1]
    · rfl

theorem parseIntValue_fifty : parseIntValue (fun _ => "") (.num (.fin 50)) = some 50 := by
  have h : jsToString (fun _ => "") (.num (.fin 50)) = "50" := by
    simp [jsToString, numberToString, intToString]
    decide
  unfold parseIntValue
  rw [h]
  decide

theorem parseIntValue_five_hundred :
    parseIntValue (fun _ => "") (.str "500") = some 500 := by
  decide

theorem setUpdateInterval_validated_witness :
    NetworkMonitor.initial.handleMessage (fun _ => "") (intervalRequest (.num (.fin 50)))
        = (NetworkMonitor.initial, [.error "Invalid update interval"])
    ∧ (NetworkMonitor.initial.handleMessage (fun _ => "") (intervalRequest (.str "500"))).2
        = [.success]
    ∧ (NetworkMonitor.initial.handleMessage (fun _ => "")
        (intervalRequest (.str "500"))).1.updateIntervalMs = 500 :=
  ⟨(setUpdateInterval_validated (fun _ => "") NetworkMonitor.initial
      (intervalRequest (.num (.fin 50))) rfl).1
      (fun n hn => by
        rw [show (intervalRequest (.num (.fin 50))).get "interval" = .num (.fin 50) from rfl,
          parseIntValue_fifty] at hn
        have := Option.some.inj hn
        omega),
    ((setUpdateInterval_validated (fun _ => "") NetworkMonitor.initial
      (intervalRequest (.str "500")) rfl).2 500
      parseIntValue_five_hundred (by decide) (by decide)).1,
    ((setUpdateInterval_validated (fun _ => "") NetworkMonitor.initial
      (intervalRequest (.str "500")) rfl).2 500
      parseIntValue_five_hundred (by decide) (by decide)).2⟩

/-- C22: in every state reached from the constructor's state by a sequence of
`handleMessage` calls with arbitrary requests, `monitoringMode` is `chrome` or `device`,
`dataUnits` is one of the six units, `colorTheme` is `yellow` or `white` and
`200 <= updateIntervalMs <= 2000`; and a `setMonitoringMode`, `setDataUnits` or
`setColorTheme` request whose value is outside the allowed set is answered with an error and
returns the state unchanged. -/
theorem settings_valid_invariant (fractionToString : ℚ → String) :
    (∀ requests : List JSVal,
        (NetworkMonitor.initial.runMessages fractionToString requests).settingsValid)
    ∧ (∀ (self : NetworkMonitor) (request : JSVal),
        request.get "action" = .str "setMonitoringMode" →
        notIncluded ["chrome", "device"] (request.get "mode") →
        self.handleMessage fractionToString request
          = (self, [.error "Invalid monitoring mode"]))
    ∧ (∀ (self : NetworkMonitor) (request : JSVal),
        request.get "action" = .str "setDataUnits" →
        notIncluded ["B", "KB", "MB", "GB", "TB", "PB"] (request.get "units") →
        self.handleMessage fractionToString request = (self, [.error "Invalid data units"]))
    ∧ (∀ (self : NetworkMonitor) (request : JSVal),
        request.get "action" = .str "setColorTheme" →
        notIncluded ["yellow", "white"] (request.get "theme") →
        self.handleMessage fractionToString request = (self, [.error "Invalid color theme"])) := by
  refine ⟨fun requests => runMessages_settingsValid fractionToString requests _
    initial_settingsValid, ?_, ?_, ?_⟩
  · intro self request ha hv
    rw [handleMessage_allowed fractionToString self request _ ha (by decide)]
    unfold NetworkMonitor.dispatch
    simp only [show ("setMonitoringMode" = "getData") = False from by decide,
      show ("setMonitoringMode" = "startMonitoring") = False from by decide,
      show ("setMonitoringMode" = "stopMonitoring") = False from by decide, if_false, if_true,
      includedString_none _ _ hv]
  · intro self request ha hv
    rw [handleMessage_allowed fractionToString self request _ ha (by decide)]
    unfold NetworkMonitor.dispatch
    simp only [show ("setDataUnits" = "getData") = False from by decide,
      show ("setDataUnits" = "startMonitoring") = False from by decide,
      show ("setDataUnits" = "stopMonitoring") = False from by decide,
      show ("setDataUnits" = "setMonitoringMode") = False from by decide, if_false, if_true,
      includedString_none _ _ hv]
  · intro self request ha hv
    rw [handleMessage_allowed fractionToString self request _ ha (by decide)]
    unfold NetworkMonitor.dispatch
    simp only [show ("setColorTheme" = "getData") = False from by decide,
      show ("setColorTheme" = "startMonitoring") = False from by decide,
      show ("setColorTheme" = "stopMonitoring") = False from by decide,
      show ("setColorTheme" = "setMonitoringMode") = False from by decide,
      show ("setColorTheme" = "setDataUnits") = False from by decide, if_false, if_true,
      includedString_none _ _ hv]

theorem settings_valid_invariant_witness :
    (NetworkMonitor.initial.runMessages (fun _ => "") sampleMessages).settingsValid
    ∧ NetworkMonitor.initial.handleMessage (fun _ => "")
          (setterRequest "setMonitoringMode" "mode" (.str "wifi"))
        = (NetworkMonitor.initial, [.error "Invalid monitoring mode"])
    ∧ NetworkMonitor.initial.handleMessage (fun _ => "")
          (setterRequest "setDataUnits" "units" (.num (.fin 3)))
        = (NetworkMonitor.initial, [.error "Invalid data units"])
    ∧ NetworkMonitor.initial.handleMessage (fun _ => "")
          (setterRequest "setColorTheme" "theme" .undefined)
        = (NetworkMonitor.initial, [.error "Invalid color theme"]) :=
  ⟨(settings_valid_invariant (fun _ => "")).1 sampleMessages,
    (settings_valid_invariant (fun _ => "")).2.1 NetworkMonitor.initial
      (setterRequest "setMonitoringMode" "mode" (.str "wifi")) rfl
      (by
        intro s hs h
        rw [show (setterRequest "setMonitoringMode" "mode" (.str "wifi")).get "mode"
          = .str "wifi" from rfl] at h
        injection h with h
        subst h
        revert hs
        decide),
    (settings_valid_invariant (fun _ => "")).2.2.1 NetworkMonitor.initial
      (setterRequest "setDataUnits" "units" (.num (.fin 3))) rfl
      (by
        intro s hs h
        rw [show (setterRequest "setDataUnits" "units" (.num (.fin 3))).get "units"
          = .num (.fin 3) from rfl] at h
        cases h),
    (settings_valid_invariant (fun _ => "")).2.2.2 NetworkMonitor.initial
      (setterRequest "setColorTheme" "theme" .undefined) rfl
      (by
        intro s hs h
        rw [show (setterRequest "setColorTheme" "theme" .undefined).get "theme"
          = .undefined from rfl] at h
        cases h)⟩

/-- C23: the `startMonitoring` message in a state where `isMonitoring` is already true
answers `{ success: true }` and returns the very same state, and so does the
`stopMonitoring` message where `isMonitoring` is already false; hence starting twice equals
starting once and stopping twice equals stopping once. -/
theorem monitoring_idempotent (fractionToString : ℚ → String) (self : NetworkMonitor) :
    (self.isMonitoring = true →
        self.handleMessage fractionToString (actionRequest "startMonitoring")
          = (self, [.success]))
    ∧ (self.isMonitoring = false →
        self.handleMessage fractionToString (actionRequest "stopMonitoring")
          = (self, [.success]))
    ∧ self.startMonitoring.startMonitoring = self.startMonitoring
    ∧ self.stopMonitoring.stopMonitoring = self.stopMonitoring := by
  have hs : ∀ s : NetworkMonitor, s.isMonitoring = true → s.startMonitoring = s := by
    intro s h
    unfold NetworkMonitor.startMonitoring
    rw [if_pos h]
  have hp : ∀ s : NetworkMonitor, s.isMonitoring = false → s.stopMonitoring = s := by
    intro s h
    unfold NetworkMonitor.stopMonitoring
    rw [if_pos (by simp [h])]
  have hs1 : self.startMonitoring.isMonitoring = true := by
    unfold NetworkMonitor.startMonitoring
    simp only []
    split_ifs with h <;> first | exact h | rfl
  have hp1 : self.stopMonitoring.isMonitoring = false := by
    unfold NetworkMonitor.stopMonitoring
    simp only []
    split_ifs with h <;> first | (simp at h; exact h) | rfl
  refine ⟨?_, ?_, hs _ hs1, hp _ hp1⟩
  · intro h
    rw [handleMessage_allowed fractionToString self (actionRequest "startMonitoring")
      "startMonitoring" rfl (by decide)]
    unfold NetworkMonitor.dispatch
    simp only [show ("startMonitoring" = "getData") = False from by decide, if_false, if_true,
      hs self h]
  · intro h
    rw [handleMessage_allowed fractionToString self (actionRequest "stopMonitoring")
      "stopMonitoring" rfl (by decide)]
    unfold NetworkMonitor.dispatch
    simp only [show ("stopMonitoring" = "getData") = False from by decide,
      show ("stopMonitoring" = "startMonitoring") = False from by decide, if_false, if_true,
      hp self h]

theorem monitoring_idempotent_witness :
    activeMonitor.handleMessage (fun _ => "") (actionRequest "startMonitoring")
        = (activeMonitor, [.success])
    ∧ NetworkMonitor.initial.handleMessage (fun _ => "") (actionRequest "stopMonitoring")
        = (NetworkMonitor.initial, [.success]) :=
  ⟨(monitoring_idempotent (fun _ => "") activeMonitor).1 rfl,
    (monitoring_idempotent (fun _ => "") NetworkMonitor.initial).2.1 rfl⟩

theorem lookup_filter_mem (keys : List String) (key : String) (hk : key ∈ keys)
    (entries : List (String × JSVal)) :
    List.lookup key (entries.filter fun entry => decide (entry.1 ∈ keys))
      = List.lookup key entries := by
  induction entries with
  | nil => rfl
  | cons entry rest ih =>
    obtain ⟨k, v⟩ := entry
    by_cases hin : k ∈ keys
    · rw [List.filter_cons_of_pos (by simpa using hin)]
      by_cases he : key = k
      · subst he
        simp [List.lookup]
      · have hb : (key == k) = false := by simpa using he
        simp only [List.lookup, hb, ih]
    · rw [List.filter_cons_of_neg (by simpa using hin)]
      have he : key ≠ k := fun h => hin (h ▸ hk)
      have hb : (key == k) = false := by simpa using he
      simp only [List.lookup, hb, ih]

theorem lookup_filter_not_mem (keys : List String) (key : String) (hk : key ∉ keys)
    (entries : List (String × JSVal)) :
    List.lookup key (entries.filter fun entry => decide (entry.1 ∈ keys)) = none := by
  induction entries with
  | nil => rfl
  | cons entry rest ih =>
    obtain ⟨k, v⟩ := entry
    by_cases hin : k ∈ keys
    · rw [List.filter_cons_of_pos (by simpa using hin)]
      have he : key ≠ k := fun h => hk (h ▸ hin)
      have hb : (key == k) = false := by simpa using he
      simp only [List.lookup, hb, ih]
    · rw [List.filter_cons_of_neg (by simpa using hin)]
      exact ih

theorem storageGet_get (keys : List String) (key : String) (hk : key ∈ keys)
    (entries : List (String × JSVal)) :
    (storageGet keys entries).get key = storedValue entries key := by
  unfold storageGet storedValue JSVal.get
  simp only []
  rw [lookup_filter_mem keys key hk entries]

theorem storageGet_get_other (keys : List String) (key : String) (hk : key ∉ keys)
    (entries : List (String × JSVal)) :
    (storageGet keys entries).get key = .undefined := by
  unfold storageGet JSVal.get
  simp only []
  rw [lookup_filter_not_mem keys key hk entries]
  rfl

theorem loadSettings_settings (fractionToString : ℚ → String) (self : NetworkMonitor)
    (entries : List (String × JSVal)) :
    (self.loadSettings fractionToString (some entries)).isMonitoring
        = (storedValue entries "isMonitoring").truthy
    ∧ (self.loadSettings fractionToString (some entries)).monitoringMode
        = (includedString ["chrome", "device"] (storedValue entries "monitoringMode")).getD
            "chrome"
    ∧ (self.loadSettings fractionToString (some entries)).dataUnits
        = (includedString ["B", "KB", "MB", "GB", "TB", "PB"]
            (storedValue entries "dataUnits")).getD "MB"
    ∧ (self.loadSettings fractionToString (some entries)).updateIntervalMs
        = max 200 (min 2000
            (parseIntOr fractionToString (storedValue entries "updateIntervalMs") 200))
    ∧ (self.loadSettings fractionToString (some entries)).colorTheme = "yellow" := by
  have e1 := storageGet_get loadedKeys "isMonitoring" (by decide) entries
  have e2 := storageGet_get loadedKeys "monitoringMode" (by decide) entries
  have e3 := storageGet_get loadedKeys "dataUnits" (by decide) entries
  have e4 := storageGet_get loadedKeys "updateIntervalMs" (by decide) entries
  have e5 := storageGet_get_other loadedKeys "colorTheme" (by decide) entries
  unfold NetworkMonitor.loadSettings
  simp only [e1, e2, e3, e4, e5]
  split_ifs <;> exact ⟨rfl, rfl, rfl, rfl, rfl⟩

theorem loadCounter_nonneg (fractionToString : ℚ → String) (value : JSVal) :
    (JSNum.fin 0).le (loadCounter fractionToString value) = true := by
  unfold loadCounter
  cases hp : parseIntNumber fractionToString value with
  | nan => rfl
  | posInf => rfl
  | negInf => rfl
  | fin b =>
    by_cases hb : b = 0
    · simp [JSVal.truthy, JSNum.max, JSNum.le, hb]
    · simp [JSVal.truthy, JSNum.max, JSNum.le, hb]

theorem loadCounters_safe (fractionToString : ℚ → String) (stored : JSVal) :
    (loadCounters fractionToString stored).safe := by
  unfold TrafficCounters.safe loadCounters
  simp only []
  exact ⟨loadCounter_nonneg _ _, loadCounter_nonneg _ _, loadCounter_nonneg _ _,
    le_max_left _ _⟩

theorem loadSettings_counters (fractionToString : ℚ → String) (self : NetworkMonitor)
    (entries : List (String × JSVal)) :
    (self.loadSettings fractionToString (some entries)).chromeData
        = (if (storedValue entries "chromeData").truthy
              && (storedValue entries "chromeData").typeofObject
            then loadCounters fractionToString (storedValue entries "chromeData")
            else self.chromeData)
    ∧ (self.loadSettings fractionToString (some entries)).deviceData
        = (if (storedValue entries "deviceData").truthy
              && (storedValue entries "deviceData").typeofObject
            then loadCounters fractionToString (storedValue entries "deviceData")
            else self.deviceData) := by
  have e1 := storageGet_get loadedKeys "chromeData" (by decide) entries
  have e2 := storageGet_get loadedKeys "deviceData" (by decide) entries
  unfold NetworkMonitor.loadSettings
  simp only [e1, e2]
  split_ifs <;> exact ⟨rfl, rfl⟩

theorem resetToDefaults_settingsValid (self : NetworkMonitor) :
    self.resetToDefaults.settingsValid := by
  unfold NetworkMonitor.settingsValid NetworkMonitor.resetToDefaults
  simp

theorem parseIntOr_clamp (fractionToString : ℚ → String) (value : JSVal) :
    (∀ n, parseIntValue fractionToString value = some n →
        max 200 (min 2000 (parseIntOr fractionToString value 200)) = max 200 (min 2000 n))
    ∧ (parseIntValue fractionToString value = none →
        max 200 (min 2000 (parseIntOr fractionToString value 200)) = 200) := by
  constructor
  · intro n hn
    unfold parseIntOr
    rw [hn]
    simp only []
    split_ifs with h
    · rfl
    · have : n = 0 := by simpa using h
      subst this
      rfl
  · intro hn
    unfold parseIntOr
    rw [hn]
    rfl

/-- C24: after `loadSettings` reads any storage area, `monitoringMode` is the stored value
when that is `chrome` or `device` and `chrome` otherwise; `dataUnits` is the stored value
when that is one of the six units and `MB` otherwise; `updateIntervalMs` is `parseInt` of the
stored value clamped into `[200, 2000]`, and 200 when it does not parse; `isMonitoring` is
the boolean `Boolean(stored)`; `colorTheme` is `yellow` or `white`; for a stored counter
object `sent`, `received` and `total` are at least 0 and `packetCount` at least 1; all
settings are valid; and a read that fails ends in `resetToDefaults()`, with valid settings
as well. -/
theorem loadSettings_coerces (fractionToString : ℚ → String) (self : NetworkMonitor)
    (entries : List (String × JSVal)) :
    (∀ mode ∈ ["chrome", "device"], storedValue entries "monitoringMode" = .str mode →
        (self.loadSettings fractionToString (some entries)).monitoringMode = mode)
    ∧ (notIncluded ["chrome", "device"] (storedValue entries "monitoringMode") →
        (self.loadSettings fractionToString (some entries)).monitoringMode = "chrome")
    ∧ (∀ units ∈ ["B", "KB", "MB", "GB", "TB", "PB"],
        storedValue entries "dataUnits" = .str units →
        (self.loadSettings fractionToString (some entries)).dataUnits = units)
    ∧ (notIncluded ["B", "KB", "MB", "GB", "TB", "PB"] (storedValue entries "dataUnits") →
        (self.loadSettings fractionToString (some entries)).dataUnits = "MB")
    ∧ (∀ n, parseIntValue fractionToString (storedValue entries "updateIntervalMs") = some n →
        (self.loadSettings fractionToString (some entries)).updateIntervalMs
          = max 200 (min 2000 n))
    ∧ (parseIntValue fractionToString (storedValue entries "updateIntervalMs") = none →
        (self.loadSettings fractionToString (some entries)).updateIntervalMs = 200)
    ∧ (self.loadSettings fractionToString (some entries)).isMonitoring
        = (storedValue entries "isMonitoring").truthy
    ∧ (self.loadSettings fractionToString (some entries)).colorTheme ∈ ["yellow", "white"]
    ∧ ((storedValue entries "chromeData").truthy = true →
        (storedValue entries "chromeData").typeofObject = true →
        (self.loadSettings fractionToString (some entries)).chromeData.safe)
    ∧ ((storedValue entries "deviceData").truthy = true →
        (storedValue entries "deviceData").typeofObject = true →
        (self.loadSettings fractionToString (some entries)).deviceData.safe)
    ∧ (self.loadSettings fractionToString (some entries)).settingsValid
    ∧ self.loadSettings fractionToString none = self.resetToDefaults
    ∧ (self.loadSettings fractionToString none).settingsValid := by
  obtain ⟨s1, s2, s3, s4, s5⟩ := loadSettings_settings fractionToString self entries
  obtain ⟨c1, c2⟩ := loadSettings_counters fractionToString self entries
  have hmode : (self.loadSettings fractionToString (some entries)).monitoringMode
      ∈ ["chrome", "device"] := by
    rw [s2]
    cases hv : includedString ["chrome", "device"] (storedValue entries "monitoringMode") with
    | none => simp
    | some m => exact (includedString_mem _ _ _ hv).1
  have hunits : (self.loadSettings fractionToString (some entries)).dataUnits
      ∈ ["B", "KB", "MB", "GB", "TB", "PB"] := by
    rw [s3]
    cases hv : includedString ["B", "KB", "MB", "GB", "TB", "PB"]
        (storedValue entries "dataUnits") with
    | none => simp
    | some m => exact (includedString_mem _ _ _ hv).1
  refine ⟨?_, ?_, ?_, ?_, ?_, ?_, s1, ?_, ?_, ?_, ?_, rfl, ?_⟩
  · intro mode hm hs
    rw [s2, hs]
    simp [includedString, hm]
  · intro hn
    rw [s2, includedString_none _ _ hn]
    rfl
  · intro units hm hs
    rw [s3, hs]
    simp [includedString, hm]
  · intro hn
    rw [s3, includedString_none _ _ hn]
    rfl
  · intro n hn
    rw [s4]
    exact (parseIntOr_clamp fractionToString _).1 n hn
  · intro hn
    rw [s4]
    exact (parseIntOr_clamp fractionToString _).2 hn
  · rw [s5]
    simp
  · intro ht ho
    rw [c1, if_pos (by simp [ht, ho])]
    exact loadCounters_safe _ _
  · intro ht ho
    rw [c2, if_pos (by simp [ht, ho])]
    exact loadCounters_safe _ _
  · refine ⟨hmode, hunits, ?_, ?_, ?_⟩
    · rw [s5]
      simp
    · rw [s4]
      exact le_max_left _ _
    · rw [s4]
      exact max_le (by decide) (min_le_left _ _)
  · exact resetToDefaults_settingsValid self

theorem loadSettings_coerces_witness :
    (NetworkMonitor.initial.loadSettings (fun _ => "") (some untidyStorage)).monitoringMode
        = "device"
    ∧ (NetworkMonitor.initial.loadSettings (fun _ => "") (some untidyStorage)).dataUnits = "MB"
    ∧ (NetworkMonitor.initial.loadSettings (fun _ => "") (some untidyStorage)).updateIntervalMs
        = max 200 (min 2000 5000)
    ∧ (NetworkMonitor.initial.loadSettings (fun _ => "") (some untidyStorage)).chromeData.safe :=
  ⟨(loadSettings_coerces (fun _ => "") NetworkMonitor.initial untidyStorage).1 "device"
      (by decide) rfl,
    (loadSettings_coerces (fun _ => "") NetworkMonitor.initial untidyStorage).2.2.2.1
      (by
        intro s hs h
        rw [show storedValue untidyStorage "dataUnits" = .str "XB" from rfl] at h
        injection h with h
        subst h
        revert hs
        decide),
    (loadSettings_coerces (fun _ => "") NetworkMonitor.initial untidyStorage).2.2.2.2.1 5000
      (by decide),
    (loadSettings_coerces (fun _ => "") NetworkMonitor.initial untidyStorage).2.2.2.2.2.2.2.2.1
      rfl rfl⟩

/-- C25, the code at the failing input: a monitor with valid settings and the theme
`white` is written by `saveCurrentState()`, which stores `colorTheme: 'white'`; a fresh
monitor that reads the storage back with `loadSettings()` has the theme `yellow`, while
`isMonitoring`, `monitoringMode`, `dataUnits` and `updateIntervalMs` come back as saved. -/
theorem saved_white_theme_loads_yellow :
    whiteThemeMonitor.settingsValid
    ∧ whiteThemeMonitor.colorTheme = "white"
    ∧ storedValue (whiteThemeMonitor.saveCurrentState []) "colorTheme" = .str "white"
    ∧ (NetworkMonitor.initial.loadSettings (fun _ => "")
        (some (whiteThemeMonitor.saveCurrentState []))).colorTheme = "yellow"
    ∧ (NetworkMonitor.initial.loadSettings (fun _ => "")
        (some (whiteThemeMonitor.saveCurrentState []))).isMonitoring = false
    ∧ (NetworkMonitor.initial.loadSettings (fun _ => "")
        (some (whiteThemeMonitor.saveCurrentState []))).monitoringMode = "device"
    ∧ (NetworkMonitor.initial.loadSettings (fun _ => "")
        (some (whiteThemeMonitor.saveCurrentState []))).dataUnits = "KB"
    ∧ (NetworkMonitor.initial.loadSettings (fun _ => "")
        (some (whiteThemeMonitor.saveCurrentState []))).updateIntervalMs = 500 := by
  obtain ⟨s1, s2, s3, s4, s5⟩ := loadSettings_settings (fun _ => "") NetworkMonitor.initial
    (whiteThemeMonitor.saveCurrentState [])
  have p : parseIntOr (fun _ => "")
      (storedValue (whiteThemeMonitor.saveCurrentState []) "updateIntervalMs") 200 = 500 := by
    have h : jsToString (fun _ => "")
        (storedValue (whiteThemeMonitor.saveCurrentState []) "updateIntervalMs") = "500" := by
      rw [show storedValue (whiteThemeMonitor.saveCurrentState []) "updateIntervalMs"
        = .num (.fin ((500 : ℤ) : ℚ)) from rfl]
      simp [jsToString, numberToString, intToString]
      decide
    unfold parseIntOr parseIntValue
    rw [h]
    decide
  refine ⟨?_, rfl, rfl, s5, ?_, ?_, ?_, ?_⟩
  · unfold NetworkMonitor.settingsValid whiteThemeMonitor NetworkMonitor.initial
    simp
  · rw [s1]
    rfl
  · rw [s2]
    rfl
  · rw [s3]
    rfl
  · rw [s4, p]
    rfl

theorem roundToDouble_four_fifths :
    roundToDouble (4 / 5) = .fin (7205759403792794 / 2 ^ 53) := by
  have hm : roundHalfEven ((4 / 5 : ℚ) / 2 ^ ((-1 : ℤ) - 52)) = 7205759403792794 := by
    apply roundHalfEven_of_lt
    norm_num [abs_lt]
  have := roundToDouble_eq (4 / 5) (-1) 7205759403792794 (by norm_num) (by norm_num)
    (by norm_num [abs_of_pos]) (by norm_num [abs_of_pos]) hm (by norm_num)
  rw [this]
  congr 1
  norm_num

theorem three_quarters_of_four_fifths :
    (JSNum.fin (3 / 4)).mul (.fin (7205759403792794 / 2 ^ 53))
      = .fin (5404319552844596 / 2 ^ 53) := by
  have hm : roundHalfEven ((3 / 4 * (7205759403792794 / 2 ^ 53) : ℚ) / 2 ^ ((-1 : ℤ) - 52))
      = 5404319552844596 := by
    have e : (3 / 4 * (7205759403792794 / 2 ^ 53) : ℚ) / 2 ^ ((-1 : ℤ) - 52)
        = ((5404319552844595 : ℤ) : ℚ) + 1 / 2 := by norm_num
    rw [e, roundHalfEven_tie]
    decide
  have := roundToDouble_eq (3 / 4 * (7205759403792794 / 2 ^ 53)) (-1) 5404319552844596
    (by norm_num) (by norm_num) (by norm_num [abs_of_pos]) (by norm_num [abs_of_pos]) hm
    (by norm_num)
  simp only [JSNum.mul]
  rw [this]
  congr 1
  norm_num

theorem three_quarters_plus_product :
    (JSNum.fin (3 / 4)).add (.fin (5404319552844596 / 2 ^ 53))
      = .fin (6079859496950170 / 2 ^ 52) := by
  have hm : roundHalfEven ((3 / 4 + 5404319552844596 / 2 ^ 53 : ℚ) / 2 ^ ((0 : ℤ) - 52))
      = 6079859496950170 := by
    have e : (3 / 4 + 5404319552844596 / 2 ^ 53 : ℚ) / 2 ^ ((0 : ℤ) - 52)
        = ((6079859496950170 : ℤ) : ℚ) := by norm_num
    rw [e, roundHalfEven_intCast]
  have := roundToDouble_eq (3 / 4 + 5404319552844596 / 2 ^ 53) 0 6079859496950170
    (by norm_num) (by norm_num) (by norm_num [abs_of_pos]) (by norm_num [abs_of_pos]) hm
    (by norm_num)
  simp only [JSNum.add]
  rw [if_neg (by norm_num), if_neg (by norm_num), this]
  congr 1
  norm_num

/-- C28, the code at the failing input: after one device sample of 0.75 the device counters
are `sent = 0.75`, `received = 0.6000000000000001` (the double `0.75 * 0.8`) and
`total = 1.35`; written by `saveCurrentState()` and read back by `loadSettings()` they are
`sent = 0`, `received = 0`, `total = 1`, so that `total` differs from `sent + received`. -/
theorem loaded_total_drifts :
    (NetworkMonitor.initial.updateDeviceData (3 / 4)).deviceData
        = { sent := .fin (3 / 4), received := .fin (5404319552844596 / 2 ^ 53),
            total := .fin (6079859496950170 / 2 ^ 52), packetCount := 2 }
    ∧ (NetworkMonitor.initial.loadSettings sampleFractionToString
        (some ((NetworkMonitor.initial.updateDeviceData (3 / 4)).saveCurrentState []))).deviceData
        = { sent := .fin 0, received := .fin 0, total := .fin 1, packetCount := 2 }
    ∧ ¬ (NetworkMonitor.initial.loadSettings sampleFractionToString
        (some ((NetworkMonitor.initial.updateDeviceData (3 / 4)).saveCurrentState []))).totalsConsistent := by
  have d : (NetworkMonitor.initial.updateDeviceData (3 / 4)).deviceData
      = { sent := .fin (3 / 4), received := .fin (5404319552844596 / 2 ^ 53),
          total := .fin (6079859496950170 / 2 ^ 52), packetCount := 2 } := by
    simp only [NetworkMonitor.updateDeviceData, NetworkMonitor.initial, JSNum.zero_add,
      roundToDouble_four_fifths, three_quarters_of_four_fifths, three_quarters_plus_product]
    rfl
  have sv : storedValue ((NetworkMonitor.initial.updateDeviceData (3 / 4)).saveCurrentState [])
      "deviceData" = (NetworkMonitor.initial.updateDeviceData (3 / 4)).deviceData.toJS := rfl
  have j1 : jsToString sampleFractionToString (.num (.fin (3 / 4))) = "0.75" := by
    simp [jsToString, numberToString, sampleFractionToString]
    norm_num
  have j2 : jsToString sampleFractionToString (.num (.fin (5404319552844596 / 2 ^ 53)))
      = "0.6000000000000001" := by
    simp [jsToString, numberToString, sampleFractionToString]
    norm_num
  have j3 : jsToString sampleFractionToString (.num (.fin (6079859496950170 / 2 ^ 52)))
      = "1.35" := by
    simp [jsToString, numberToString, sampleFractionToString]
    norm_num
  have j4 : jsToString sampleFractionToString (.num (.fin ((2 : ℤ) : ℚ))) = "2" := by
    simp [jsToString, numberToString, intToString]
    decide
  have r1 : roundToDouble ((1 : ℤ) : ℚ) = .fin 1 := by
    have := roundToDouble_intCast 1 (by norm_num)
    simpa using this
  have l : loadCounters sampleFractionToString
      (TrafficCounters.toJS
        { sent := .fin (3 / 4), received := .fin (5404319552844596 / 2 ^ 53),
          total := .fin (6079859496950170 / 2 ^ 52), packetCount := 2 })
      = { sent := .fin 0, received := .fin 0, total := .fin 1, packetCount := 2 } := by
    have g1 : (TrafficCounters.toJS
        { sent := .fin (3 / 4), received := .fin (5404319552844596 / 2 ^ 53),
          total := .fin (6079859496950170 / 2 ^ 52), packetCount := 2 }).get "sent"
        = .num (.fin (3 / 4)) := rfl
    have g2 : (TrafficCounters.toJS
        { sent := .fin (3 / 4), received := .fin (5404319552844596 / 2 ^ 53),
          total := .fin (6079859496950170 / 2 ^ 52), packetCount := 2 }).get "received"
        = .num (.fin (5404319552844596 / 2 ^ 53)) := rfl
    have g3 : (TrafficCounters.toJS
        { sent := .fin (3 / 4), received := .fin (5404319552844596 / 2 ^ 53),
          total := .fin (6079859496950170 / 2 ^ 52), packetCount := 2 }).get "total"
        = .num (.fin (6079859496950170 / 2 ^ 52)) := rfl
    have g4 : (TrafficCounters.toJS
        { sent := .fin (3 / 4), received := .fin (5404319552844596 / 2 ^ 53),
          total := .fin (6079859496950170 / 2 ^ 52), packetCount := 2 }).get "packetCount"
        = .num (.fin ((2 : ℤ) : ℚ)) := rfl
    have p1 : loadCounter sampleFractionToString (.num (.fin (3 / 4))) = .fin 0 := by
      have e : parseIntValue sampleFractionToString (.num (.fin (3 / 4))) = some 0 := by
        unfold parseIntValue
        rw [j1]
        decide
      simp [loadCounter, parseIntNumber, e, roundToDouble, JSVal.truthy, JSNum.max]
    have p2 : loadCounter sampleFractionToString (.num (.fin (5404319552844596 / 2 ^ 53)))
        = .fin 0 := by
      have e : parseIntValue sampleFractionToString
          (.num (.fin (5404319552844596 / 2 ^ 53))) = some 0 := by
        unfold parseIntValue
        rw [j2]
        decide
      simp [loadCounter, parseIntNumber, e, roundToDouble, JSVal.truthy, JSNum.max]
    have p3 : loadCounter sampleFractionToString (.num (.fin (6079859496950170 / 2 ^ 52)))
        = .fin 1 := by
      have e : parseIntValue sampleFractionToString
          (.num (.fin (6079859496950170 / 2 ^ 52))) = some 1 := by
        unfold parseIntValue
        rw [j3]
        decide
      simp only [loadCounter, parseIntNumber, e, r1]
      simp [JSVal.truthy, JSNum.max]
    have p4 : parseIntOr sampleFractionToString (.num (.fin ((2 : ℤ) : ℚ))) 1 = 2 := by
      unfold parseIntOr parseIntValue
      rw [j4]
      decide
    unfold loadCounters
    rw [g1, g2, g3, g4, p1, p2, p3, p4]
    rfl
  have e : (NetworkMonitor.initial.loadSettings sampleFractionToString
        (some ((NetworkMonitor.initial.updateDeviceData (3 / 4)).saveCurrentState []))).deviceData
        = { sent := .fin 0, received := .fin 0, total := .fin 1, packetCount := 2 } := by
    have t : ((TrafficCounters.toJS
        { sent := .fin (3 / 4), received := .fin (5404319552844596 / 2 ^ 53),
          total := .fin (6079859496950170 / 2 ^ 52), packetCount := 2 }).truthy
        && (TrafficCounters.toJS
        { sent := .fin (3 / 4), received := .fin (5404319552844596 / 2 ^ 53),
          total := .fin (6079859496950170 / 2 ^ 52), packetCount := 2 }).typeofObject)
        = true := rfl
    rw [(loadSettings_counters _ _ _).2, sv, d, if_pos t, l]
  refine ⟨d, e, ?_⟩
  unfold NetworkMonitor.totalsConsistent
  rw [e]
  intro h
  exact absurd h.2 (by decide)

theorem startMonitoring_isMonitoring (self : NetworkMonitor) :
    self.startMonitoring.isMonitoring = true := by
  unfold NetworkMonitor.startMonitoring
  simp only []
  split_ifs with h <;> first | exact h | rfl

theorem stopMonitoring_isMonitoring (self : NetworkMonitor) :
    self.stopMonitoring.isMonitoring = false := by
  unfold NetworkMonitor.stopMonitoring
  simp only []
  split_ifs with h <;> first | (simp at h; exact h) | rfl

theorem handleMessage_startMonitoring (fractionToString : ℚ → String) (self : NetworkMonitor) :
    self.handleMessage fractionToString (actionRequest "startMonitoring")
      = (self.startMonitoring, [.success]) := by
  rw [handleMessage_allowed fractionToString self (actionRequest "startMonitoring")
    "startMonitoring" rfl (by decide)]
  simp [NetworkMonitor.dispatch]

theorem handleMessage_stopMonitoring (fractionToString : ℚ → String) (self : NetworkMonitor) :
    self.handleMessage fractionToString (actionRequest "stopMonitoring")
      = (self.stopMonitoring, [.success]) := by
  rw [handleMessage_allowed fractionToString self (actionRequest "stopMonitoring")
    "stopMonitoring" rfl (by decide)]
  simp [NetworkMonitor.dispatch]

theorem handleMessage_getSettings (fractionToString : ℚ → String) (self : NetworkMonitor) :
    self.handleMessage fractionToString (actionRequest "getSettings")
      = (self, [.settings self.monitoringMode self.dataUnits self.updateIntervalMs
          self.colorTheme self.isMonitoring]) := by
  rw [handleMessage_allowed fractionToString self (actionRequest "getSettings")
    "getSettings" rfl (by decide)]
  simp [NetworkMonitor.dispatch]

theorem sanitizeMessageAction_allowed :
    ∀ a ∈ popupAllowedActions, sanitizeMessageAction (.str a) = some a := by
  decide

theorem sendMessage_action (fractionToString : ℚ → String) (background : NetworkMonitor)
    (a : String) (ha : a ∈ popupAllowedActions) :
    PopupManager.sendMessage fractionToString background (actionRequest a)
      = ((background.handleMessage fractionToString (actionRequest a)).1,
         (background.handleMessage fractionToString (actionRequest a)).2.head?) := by
  have hne : a ≠ "" := by
    intro h
    rw [h] at ha
    revert ha
    decide
  have t : (actionRequest a).truthy = true := rfl
  have o : (actionRequest a).typeofObject = true := rfl
  have g : (actionRequest a).get "action" = .str a := rfl
  have m : sanitizedMessage (actionRequest a) a = actionRequest a := rfl
  unfold PopupManager.sendMessage
  simp only [t, o, g, Bool.not_true, Bool.or_self, Bool.false_eq_true, if_false]
  rw [if_neg hne]
  simp only [sanitizeMessageAction_allowed a ha, m]

theorem forceMonitoringState_isMonitoring (fractionToString : ℚ → String)
    (background : NetworkMonitor) (enabled : Bool) :
    (PopupManager.forceMonitoringState fractionToString background enabled).isMonitoring
      = enabled := by
  unfold PopupManager.forceMonitoringState
  cases enabled
  · have h := sendMessage_action fractionToString background "stopMonitoring" (by decide)
    unfold actionRequest at h
    simp only [Bool.false_eq_true, if_false]
    rw [h]
    have h2 := handleMessage_stopMonitoring fractionToString background
    unfold actionRequest at h2
    rw [h2]
    exact stopMonitoring_isMonitoring background
  · have h := sendMessage_action fractionToString background "startMonitoring" (by decide)
    unfold actionRequest at h
    simp only [if_true]
    rw [h]
    have h2 := handleMessage_startMonitoring fractionToString background
    unfold actionRequest at h2
    rw [h2]
    exact startMonitoring_isMonitoring background

theorem watchdogTick_eq (fractionToString : ℚ → String) (self : PopupManager)
    (background : NetworkMonitor) :
    PopupManager.watchdogTick fractionToString self background
      = if self.isMonitoring = background.isMonitoring then (self, background)
        else (self,
          PopupManager.forceMonitoringState fractionToString background self.isMonitoring) := by
  have h := sendMessage_action fractionToString background "getSettings" (by decide)
  rw [handleMessage_getSettings] at h
  unfold actionRequest at h
  unfold PopupManager.watchdogTick
  rw [h]
  simp only [List.head?, Response.hasError, Response.isMonitoringField, Bool.not_false, if_true]
  by_cases e : self.isMonitoring = background.isMonitoring
  · simp [e]
  · have e2 : background.isMonitoring ≠ self.isMonitoring := fun x => e x.symm
    simp [e, e2]

/-- C26, as stated, fails: with the popup believing that monitoring is on and the background
in its constructor state, where the flag is off, the background's flag is on after the
watchdog tick, not the value the background held before. -/
theorem watchdog_overwrites_background :
    NetworkMonitor.initial.isMonitoring = false
    ∧ (PopupManager.watchdogTick (fun _ => "") ⟨true⟩ NetworkMonitor.initial).2.isMonitoring
        = true
    ∧ (PopupManager.watchdogTick (fun _ => "") ⟨true⟩ NetworkMonitor.initial).1.isMonitoring
        = true := by
  rw [watchdogTick_eq]
  refine ⟨rfl, ?_, rfl⟩
  rw [if_neg (by decide)]
  exact forceMonitoringState_isMonitoring _ _ _

/-- C26, amended: when a watchdog tick finds the popup's believed flag different from the
flag the background reports, then after the tick the flag of the popup and the flag of the
background both equal the value the popup believed; when the two flags agree the tick
changes neither side. -/
theorem watchdog_forces_popup_belief (fractionToString : ℚ → String) (self : PopupManager)
    (background : NetworkMonitor) :
    (self.isMonitoring ≠ background.isMonitoring →
        (PopupManager.watchdogTick fractionToString self background).1.isMonitoring
            = self.isMonitoring
        ∧ (PopupManager.watchdogTick fractionToString self background).2.isMonitoring
            = self.isMonitoring)
    ∧ (self.isMonitoring = background.isMonitoring →
        PopupManager.watchdogTick fractionToString self background = (self, background)) := by
  rw [watchdogTick_eq]
  constructor
  · intro h
    rw [if_neg h]
    exact ⟨rfl, forceMonitoringState_isMonitoring _ _ _⟩
  · intro h
    rw [if_pos h]

theorem watchdog_forces_popup_belief_witness :
    (PopupManager.watchdogTick (fun _ => "") ⟨false⟩ activeMonitor).1.isMonitoring = false
    ∧ (PopupManager.watchdogTick (fun _ => "") ⟨false⟩ activeMonitor).2.isMonitoring = false :=
  (watchdog_forces_popup_belief (fun _ => "") ⟨false⟩ activeMonitor).1 (by decide)

/-- C27, the code at the failing input: from the constructor's state, after
`startMonitoring()` a response whose `Content-Length` header is `-5` has the size -5, and
`handleResponse` leaves `received = -5` and `total = -5` in `chromeData`. -/
theorem negative_content_length_counted :
    responseSize negativeLengthResponse = .fin (-5)
    ∧ (NetworkMonitor.run (fun _ => none) NetworkMonitor.initial
        [.startMonitoring, .response negativeLengthResponse 1000]).chromeData.sent = .fin 0
    ∧ (NetworkMonitor.run (fun _ => none) NetworkMonitor.initial
        [.startMonitoring, .response negativeLengthResponse 1000]).chromeData.received
        = .fin (-5)
    ∧ (NetworkMonitor.run (fun _ => none) NetworkMonitor.initial
        [.startMonitoring, .response negativeLengthResponse 1000]).chromeData.total
        = .fin (-5) := by
  have hs := negativeLengthResponse_size
  have hr : NetworkMonitor.run (fun _ => none) NetworkMonitor.initial
      [.startMonitoring, .response negativeLengthResponse 1000]
      = (NetworkMonitor.initial.startMonitoring).handleResponse negativeLengthResponse 1000 := rfl
  have hc : ((NetworkMonitor.initial.startMonitoring).handleResponse negativeLengthResponse
      1000).chromeData
      = { sent := .fin 0, received := .fin (-5), total := .fin (-5), packetCount := 1 } := by
    rw [handleResponse_chromeData _ _ _ startMonitoring_initial.1 startMonitoring_initial.2.1,
      hs, startMonitoring_initial.2.2.1]
    rfl
  rw [hr, hc]
  exact ⟨hs, rfl, rfl, rfl⟩

theorem unsafeLengthResponse_size :
    responseSize unsafeLengthResponse = .fin 9007199254740992 := by
  rw [responseSize_parsed unsafeLengthResponse [⟨"Content-Length", some "9007199254740993"⟩]
    ⟨"Content-Length", some "9007199254740993"⟩ "9007199254740993" 9007199254740993 rfl
    (by decide) rfl (by decide)]
  have hm : roundHalfEven ((((9007199254740993 : ℤ) : ℚ)) / 2 ^ ((53 : ℤ) - 52))
      = 4503599627370496 := by
    have e : (((9007199254740993 : ℤ) : ℚ)) / 2 ^ ((53 : ℤ) - 52)
        = ((4503599627370496 : ℤ) : ℚ) + 1 / 2 := by norm_num
    rw [e, roundHalfEven_tie]
    decide
  have := roundToDouble_eq ((9007199254740993 : ℤ) : ℚ) 53 4503599627370496 (by norm_num)
    (by norm_num) (by norm_num [abs_of_pos]) (by norm_num [abs_of_pos]) hm (by norm_num)
  rw [this]
  congr 1
  norm_num

theorem negativeResponseMonitor_state :
    negativeResponseMonitor.isMonitoring = true
    ∧ negativeResponseMonitor.monitoringMode = "chrome"
    ∧ negativeResponseMonitor.chromeData = ⟨.fin 8192, .fin (-5), .fin 8187, 2⟩ := by
  obtain ⟨m0, c0, d0, _, _⟩ := startMonitoring_initial
  have r : negativeResponseMonitor
      = (NetworkMonitor.initial.startMonitoring.handleRequest (fun _ => none) kilobyteRequest
          0).handleResponse negativeLengthResponse 1000 := rfl
  have s1 := handleRequest_settings (fun _ => none) NetworkMonitor.initial.startMonitoring
    kilobyteRequest 0
  have m1 := s1.1.trans m0
  have c1 := s1.2.trans c0
  have k1 : (NetworkMonitor.initial.startMonitoring.handleRequest (fun _ => none)
      kilobyteRequest 0).chromeData = ⟨.fin 8192, .fin 0, .fin 8192, 2⟩ := by
    rw [handleRequest_chromeData _ _ _ _ m0 c0, d0, kilobyteRequest_size]
    simp only [JSNum.zero_add, JSNum.add_zero]
    rfl
  have a : (JSNum.fin 8192).add (.fin (-5)) = .fin 8187 := by
    have e := JSNum.add_intCast 8192 (-5) (by norm_num)
    norm_num at e
    exact e
  rw [r]
  refine ⟨(handleResponse_settings _ _ _).1.trans m1, (handleResponse_settings _ _ _).2.trans c1,
    ?_⟩
  rw [handleResponse_chromeData _ _ _ m1 c1, k1, negativeLengthResponse_size]
  simp only [JSNum.zero_add, a]

theorem reloadedMonitor_state :
    reloadedMonitor.isMonitoring = true ∧ reloadedMonitor.monitoringMode = "chrome"
    ∧ reloadedMonitor.chromeData = ⟨.fin 8192, .fin 0, .fin 8187, 2⟩ := by
  obtain ⟨m, c, d⟩ := negativeResponseMonitor_state
  obtain ⟨s1, s2, _, _, _⟩ := loadSettings_settings (fun _ => "") NetworkMonitor.initial
    (negativeResponseMonitor.saveCurrentState [])
  have v1 : storedValue (negativeResponseMonitor.saveCurrentState []) "isMonitoring"
      = .bool negativeResponseMonitor.isMonitoring := rfl
  have v2 : storedValue (negativeResponseMonitor.saveCurrentState []) "monitoringMode"
      = .str negativeResponseMonitor.monitoringMode := rfl
  have v3 : storedValue (negativeResponseMonitor.saveCurrentState []) "chromeData"
      = negativeResponseMonitor.chromeData.toJS := rfl
  have i1 : ∀ n : ℤ, |n| ≤ 2 ^ 53 → roundToDouble (n : ℚ) = .fin n :=
    fun n hn => roundToDouble_intCast n hn
  have p1 : loadCounter (fun _ => "") (.num (.fin 8192)) = .fin 8192 := by
    have e : parseIntValue (fun _ => "") (.num (.fin 8192)) = some 8192 := by
      have j : jsToString (fun _ => "") (.num (.fin 8192)) = "8192" := by
        simp [jsToString, numberToString, intToString]
        decide
      unfold parseIntValue
      rw [j]
      decide
    have r := i1 8192 (by norm_num)
    simp only [loadCounter, parseIntNumber, e, r]
    simp [JSVal.truthy, JSNum.max]
  have p2 : loadCounter (fun _ => "") (.num (.fin (-5))) = .fin 0 := by
    have e : parseIntValue (fun _ => "") (.num (.fin (-5))) = some (-5) := by
      have j : jsToString (fun _ => "") (.num (.fin (-5))) = "-5" := by
        simp [jsToString, numberToString, intToString]
        decide
      unfold parseIntValue
      rw [j]
      decide
    have r := i1 (-5) (by norm_num)
    simp only [loadCounter, parseIntNumber, e, r]
    simp [JSVal.truthy, JSNum.max]
  have p3 : loadCounter (fun _ => "") (.num (.fin 8187)) = .fin 8187 := by
    have e : parseIntValue (fun _ => "") (.num (.fin 8187)) = some 8187 := by
      have j : jsToString (fun _ => "") (.num (.fin 8187)) = "8187" := by
        simp [jsToString, numberToString, intToString]
        decide
      unfold parseIntValue
      rw [j]
      decide
    have r := i1 8187 (by norm_num)
    simp only [loadCounter, parseIntNumber, e, r]
    simp [JSVal.truthy, JSNum.max]
  have p4 : parseIntOr (fun _ => "") (.num (.fin ((2 : ℤ) : ℚ))) 1 = 2 := by
    have j : jsToString (fun _ => "") (.num (.fin ((2 : ℤ) : ℚ))) = "2" := by
      simp [jsToString, numberToString, intToString]
      decide
    unfold parseIntOr parseIntValue
    rw [j]
    decide
  have l : loadCounters (fun _ => "")
      (TrafficCounters.toJS ⟨.fin 8192, .fin (-5), .fin 8187, 2⟩)
      = ⟨.fin 8192, .fin 0, .fin 8187, 2⟩ := by
    have g1 : (TrafficCounters.toJS ⟨.fin 8192, .fin (-5), .fin 8187, 2⟩).get "sent"
        = .num (.fin 8192) := rfl
    have g2 : (TrafficCounters.toJS ⟨.fin 8192, .fin (-5), .fin 8187, 2⟩).get "received"
        = .num (.fin (-5)) := rfl
    have g3 : (TrafficCounters.toJS ⟨.fin 8192, .fin (-5), .fin 8187, 2⟩).get "total"
        = .num (.fin 8187) := rfl
    have g4 : (TrafficCounters.toJS ⟨.fin 8192, .fin (-5), .fin 8187, 2⟩).get "packetCount"
        = .num (.fin ((2 : ℤ) : ℚ)) := rfl
    unfold loadCounters
    rw [g1, g2, g3, g4, p1, p2, p3, p4]
    rfl
  have t : ((TrafficCounters.toJS ⟨.fin 8192, .fin (-5), .fin 8187, 2⟩).truthy
      && (TrafficCounters.toJS ⟨.fin 8192, .fin (-5), .fin 8187, 2⟩).typeofObject)
      = true := rfl
  unfold reloadedMonitor
  refine ⟨?_, ?_, ?_⟩
  · rw [s1, v1, m]
    rfl
  · rw [s2, v2, c]
    rfl
  · rw [(loadSettings_counters _ _ _).1, v3, d, if_pos t, l]

/-- C9, as stated, fails, in two ways.  The amount added is not the integer parsed: for a
`Content-Length` of `9007199254740993` (`2 ^ 53 + 1`) `received` goes from 0 to
9007199254740992, and for a `Content-Length` of 400 digits 9 it becomes `Infinity`.  And
`total` does not keep its value at a size of 0: after `startMonitoring()`, a request of 8192
bits and a response with `Content-Length: -5` the counters are (8192, -5, 8187);
`saveCurrentState()` writes them and `loadSettings()` reads them back as (8192, 0, 8187),
with monitoring enabled in chrome mode; a response without `responseHeaders` then has the
size 0 and sets `total` to 8192. -/
theorem handleResponse_rounds_and_recomputes :
    (parseIntString "9007199254740993" = some 9007199254740993
      ∧ (activeMonitor.handleResponse unsafeLengthResponse 1000).chromeData.received
          = .fin 9007199254740992
      ∧ (activeMonitor.handleResponse unsafeLengthResponse 1000).chromeData.received
          ≠ .fin 9007199254740993)
    ∧ (parseIntString (nines 400) = some (10 ^ 400 - 1)
      ∧ (activeMonitor.handleResponse hugeLengthResponse 1000).chromeData.received = .posInf)
    ∧ (negativeResponseMonitor.chromeData = ⟨.fin 8192, .fin (-5), .fin 8187, 2⟩
      ∧ reloadedMonitor.isMonitoring = true ∧ reloadedMonitor.monitoringMode = "chrome"
      ∧ reloadedMonitor.chromeData = ⟨.fin 8192, .fin 0, .fin 8187, 2⟩
      ∧ responseSize ⟨none⟩ = .fin 0
      ∧ (reloadedMonitor.handleResponse ⟨none⟩ 2000).chromeData.total = .fin 8192
      ∧ (reloadedMonitor.handleResponse ⟨none⟩ 2000).chromeData.total
          ≠ reloadedMonitor.chromeData.total) := by
  obtain ⟨m, c, d⟩ := reloadedMonitor_state
  have u : (activeMonitor.handleResponse unsafeLengthResponse 1000).chromeData.received
      = .fin 9007199254740992 := by
    rw [handleResponse_chromeData _ _ _ rfl rfl, unsafeLengthResponse_size]
    rfl
  have g : (activeMonitor.handleResponse hugeLengthResponse 1000).chromeData.received
      = .posInf := by
    rw [handleResponse_chromeData _ _ _ rfl rfl, hugeLengthResponse_size]
    rfl
  have z : (reloadedMonitor.handleResponse ⟨none⟩ 2000).chromeData.total = .fin 8192 := by
    rw [handleResponse_chromeData _ _ _ m c, d]
    rfl
  refine ⟨⟨by decide, u, ?_⟩, ⟨parseIntString_nines, g⟩,
    negativeResponseMonitor_state.2.2, m, c, d, rfl, z, ?_⟩
  · rw [u]
    intro h
    injection h with h
    norm_num at h
  · rw [z, d]
    intro h
    injection h with h
    norm_num at h

/-- C29, as stated, fails: in the constructor's state `chromeData.packetCount` is 1, and
after `updateDeviceData` with a sample of 512 it is 2. -/
theorem updateDeviceData_counts_chrome_packet :
    NetworkMonitor.initial.chromeData.packetCount = 1
    ∧ (NetworkMonitor.initial.updateDeviceData 512).chromeData.packetCount = 2 := by
  constructor <;> rfl

/-- C29, amended: `updateDeviceData` leaves `chromeData.sent`, `received` and `total`
unchanged and increases `chromeData.packetCount` by exactly 1; `handleRequest`,
`handleResponse` and `handleCompleted` leave every field of `deviceData` unchanged. -/
theorem counter_sets_frame (jsonStringify : JSVal → Option String) (self : NetworkMonitor)
    (mockDeviceUsage : ℚ) (request : RequestDetails) (response : ResponseDetails) (now : ℤ) :
    (self.updateDeviceData mockDeviceUsage).chromeData
        = { self.chromeData with packetCount := self.chromeData.packetCount + 1 }
    ∧ (self.updateDeviceData mockDeviceUsage).chromeData.sent = self.chromeData.sent
    ∧ (self.updateDeviceData mockDeviceUsage).chromeData.received = self.chromeData.received
    ∧ (self.updateDeviceData mockDeviceUsage).chromeData.total = self.chromeData.total
    ∧ (self.handleRequest jsonStringify request now).deviceData = self.deviceData
    ∧ (self.handleResponse response now).deviceData = self.deviceData
    ∧ (self.handleCompleted now).deviceData = self.deviceData :=
  ⟨rfl, rfl, rfl, rfl, handleRequest_deviceData jsonStringify self request now,
    handleResponse_deviceData self response now, handleCompleted_deviceData self now⟩

theorem counter_sets_frame_witness :
    (NetworkMonitor.initial.updateDeviceData 512).chromeData
        = { sent := .fin 0, received := .fin 0, total := .fin 0, packetCount := 1 + 1 }
    ∧ (activeMonitor.handleResponse sampleResponse 1000).deviceData = activeMonitor.deviceData :=
  ⟨(counter_sets_frame (fun _ => none) NetworkMonitor.initial 512 kilobyteRequest
      sampleResponse 1000).1,
    (counter_sets_frame (fun _ => none) activeMonitor 512 kilobyteRequest
      sampleResponse 1000).2.2.2.2.2.1⟩

/-- C30, as stated, fails: `setUpdateInterval` is an action of the background's allow-list,
and the popup's `sanitizeMessageAction` returns `null` for it. -/
theorem sanitizeMessageAction_rejects_setUpdateInterval :
    "setUpdateInterval" ∈ allowedActions
    ∧ sanitizeMessageAction (.str "setUpdateInterval") = none := by
  decide

/-- C30, amended: for each action of the background's allow-list other than
`setUpdateInterval`, the popup's `sanitizeMessageAction` returns the action itself and
`sendMessage` delivers the message to `handleMessage`; for `setUpdateInterval` it returns
`null`, and `sendMessage` rejects the message without sending it. -/
theorem sanitizeMessageAction_covers_eight (fractionToString : ℚ → String)
    (background : NetworkMonitor) (a : String) (interval : JSVal) (ha : a ∈ allowedActions)
    (hne : a ≠ "setUpdateInterval") :
    sanitizeMessageAction (.str a) = some a
    ∧ PopupManager.sendMessage fractionToString background (actionRequest a)
      = ((background.handleMessage fractionToString (actionRequest a)).1,
         (background.handleMessage fractionToString (actionRequest a)).2.head?)
    ∧ sanitizeMessageAction (.str "setUpdateInterval") = none
    ∧ PopupManager.sendMessage fractionToString background (intervalRequest interval)
      = (background, none) := by
  have hp : a ∈ popupAllowedActions := by
    have h : ∀ b ∈ allowedActions, b ≠ "setUpdateInterval" → b ∈ popupAllowedActions := by
      decide
    exact h a ha hne
  exact ⟨sanitizeMessageAction_allowed a hp,
    sendMessage_action fractionToString background a hp, by decide, rfl⟩

theorem sanitizeMessageAction_covers_eight_witness :
    sanitizeMessageAction (.str "getData") = some "getData"
    ∧ PopupManager.sendMessage (fun _ => "") NetworkMonitor.initial (actionRequest "getData")
      = ((NetworkMonitor.initial.handleMessage (fun _ => "") (actionRequest "getData")).1,
         (NetworkMonitor.initial.handleMessage (fun _ => "") (actionRequest "getData")).2.head?)
    ∧ sanitizeMessageAction (.str "setUpdateInterval") = none
    ∧ PopupManager.sendMessage (fun _ => "") NetworkMonitor.initial
        (intervalRequest (.num (.fin 500))) = (NetworkMonitor.initial, none) :=
  sanitizeMessageAction_covers_eight (fun _ => "") NetworkMonitor.initial "getData"
    (.num (.fin 500)) (by decide) (by decide)

end NetworkMonitorPro
